import Mathlib

/-!
# AC100 analog codec driver (sound/soc/sunxi/ac100-codec.c)

A shallow embedding of the driver's static tables (register field macros,
controls, DAPM widgets, DAPM routes) and of its functions
`ac100_codec_hp_power`, `ac100_codec_set_bias_level` and `ac100_codec_probe`,
followed by the properties proved about them.

Conventions
* C `unsigned int` values are `Nat`; where a complement is taken it is taken
  within 32 bits, as for the C type.
* The C `int event` argument of a DAPM hook is represented by its bit pattern
  as a `Nat` (only its low four bits are ever inspected).
* A register is named by a constructor of `Reg`; the numeric addresses live in
  `linux/mfd/ac100.h` and only their distinctness matters here.
-/

namespace AC100

/-! ## Registers and field macros (lines 31-356) -/

/-- The codec registers the driver touches (`AC100_*` register names). -/
inductive Reg
  | AC100_ADC_APC_CTRL
  | AC100_ADC_SRC
  | AC100_ADC_SRC_BST_CTRL
  | AC100_OUT_MXR_DAC_A_CTRL
  | AC100_OUT_MXR_SRC
  | AC100_OUT_MXR_SRC_BST
  | AC100_HPOUT_CTRL
  | AC100_ERPOUT_CTRL
  | AC100_SPKOUT_CTRL
  | AC100_LINEOUT_CTRL
  | AC100_ADDA_TUNE1
  deriving DecidableEq, Repr

open Reg

/-- `BIT(n)` of linux/bits.h. -/
def BIT (n : Nat) : Nat := 1 <<< n

/-- `GENMASK(h, l)` of linux/bits.h: bits `l..h` inclusive. -/
def GENMASK (h l : Nat) : Nat := ((1 <<< (h + 1 - l)) - 1) <<< l

def AC100_ADC_APC_CTRL_ADCR_EN_OFF : Nat := 15
def AC100_ADC_APC_CTRL_ADCR_EN_MASK : Nat := BIT 15
def AC100_ADC_APC_CTRL_ADCR_EN_DISABLED : Nat := 0
def AC100_ADC_APC_CTRL_ADCR_EN_ENABLED : Nat := BIT 15
def AC100_ADC_APC_CTRL_ADCR_GAIN_OFF : Nat := 12
def AC100_ADC_APC_CTRL_ADCR_GAIN (v : Nat) : Nat := (v &&& 0x7) <<< 12
def AC100_ADC_APC_CTRL_ADCL_EN_OFF : Nat := 11
def AC100_ADC_APC_CTRL_ADCL_EN_MASK : Nat := BIT 11
def AC100_ADC_APC_CTRL_ADCL_EN_DISABLED : Nat := 0
def AC100_ADC_APC_CTRL_ADCL_EN_ENABLED : Nat := BIT 11
def AC100_ADC_APC_CTRL_ADCL_GAIN_OFF : Nat := 8
def AC100_ADC_APC_CTRL_ADCL_GAIN (v : Nat) : Nat := (v &&& 0x7) <<< 8
def AC100_ADC_APC_CTRL_MBIAS_EN_OFF : Nat := 7
def AC100_ADC_APC_CTRL_MBIAS_EN_MASK : Nat := BIT 7
def AC100_ADC_APC_CTRL_MBIAS_EN_DISABLED : Nat := 0
def AC100_ADC_APC_CTRL_MBIAS_EN_ENABLED : Nat := BIT 7
def AC100_ADC_APC_CTRL_MMIC_BIAS_CHOPPER_EN_OFF : Nat := 6
def AC100_ADC_APC_CTRL_MMIC_BIAS_CHOPPER_EN_MASK : Nat := BIT 6
def AC100_ADC_APC_CTRL_MMIC_BIAS_CHOPPER_EN_DISABLED : Nat := 0
def AC100_ADC_APC_CTRL_MMIC_BIAS_CHOPPER_EN_ENABLED : Nat := BIT 6
def AC100_ADC_APC_CTRL_MMIC_BIAS_CHOPPER_CKS_OFF : Nat := 4
def AC100_ADC_APC_CTRL_MMIC_BIAS_CHOPPER_CKS_MASK : Nat := GENMASK 5 4
def AC100_ADC_APC_CTRL_MMIC_BIAS_CHOPPER_CKS_250K : Nat := 0x0 <<< 4
def AC100_ADC_APC_CTRL_MMIC_BIAS_CHOPPER_CKS_500K : Nat := 0x1 <<< 4
def AC100_ADC_APC_CTRL_MMIC_BIAS_CHOPPER_CKS_1M : Nat := 0x2 <<< 4
def AC100_ADC_APC_CTRL_MMIC_BIAS_CHOPPER_CKS_2M : Nat := 0x3 <<< 4
def AC100_ADC_APC_CTRL_HBIAS_MODE_OFF : Nat := 2
def AC100_ADC_APC_CTRL_HBIAS_MODE_MASK : Nat := BIT 2
def AC100_ADC_APC_CTRL_HBIAS_MODE_LOAD : Nat := 0
def AC100_ADC_APC_CTRL_HBIAS_MODE_HBIAS_EN : Nat := BIT 2
def AC100_ADC_APC_CTRL_HBIAS_EN_OFF : Nat := 1
def AC100_ADC_APC_CTRL_HBIAS_EN_MASK : Nat := BIT 1
def AC100_ADC_APC_CTRL_HBIAS_EN_DISABLED : Nat := 0
def AC100_ADC_APC_CTRL_HBIAS_EN_ENABLED : Nat := BIT 1
def AC100_ADC_APC_CTRL_HBIAS_ADC_EN_OFF : Nat := 0
def AC100_ADC_APC_CTRL_HBIAS_ADC_EN_MASK : Nat := BIT 0
def AC100_ADC_APC_CTRL_HBIAS_ADC_EN_DISABLED : Nat := 0
def AC100_ADC_APC_CTRL_HBIAS_ADC_EN_ENABLED : Nat := BIT 0

def AC100_ADC_SRC_ADCR_MIC1_BOOST_OFF : Nat := 13
def AC100_ADC_SRC_ADCR_MIC1_BOOST_MASK : Nat := BIT 13
def AC100_ADC_SRC_ADCR_MIC1_BOOST_DISABLED : Nat := 0
def AC100_ADC_SRC_ADCR_MIC1_BOOST_ENABLED : Nat := BIT 13
def AC100_ADC_SRC_ADCR_MIC2_BOOST_OFF : Nat := 12
def AC100_ADC_SRC_ADCR_MIC2_BOOST_MASK : Nat := BIT 12
def AC100_ADC_SRC_ADCR_MIC2_BOOST_DISABLED : Nat := 0
def AC100_ADC_SRC_ADCR_MIC2_BOOST_ENABLED : Nat := BIT 12
def AC100_ADC_SRC_ADCR_LINEINL_LINEINR_OFF : Nat := 11
def AC100_ADC_SRC_ADCR_LINEINL_LINEINR_MASK : Nat := BIT 11
def AC100_ADC_SRC_ADCR_LINEINL_LINEINR_DISABLED : Nat := 0
def AC100_ADC_SRC_ADCR_LINEINL_LINEINR_ENABLED : Nat := BIT 11
def AC100_ADC_SRC_ADCR_LINEINR_OFF : Nat := 10
def AC100_ADC_SRC_ADCR_LINEINR_MASK : Nat := BIT 10
def AC100_ADC_SRC_ADCR_LINEINR_DISABLED : Nat := 0
def AC100_ADC_SRC_ADCR_LINEINR_ENABLED : Nat := BIT 10
def AC100_ADC_SRC_ADCR_AUXINR_OFF : Nat := 9
def AC100_ADC_SRC_ADCR_AUXINR_MASK : Nat := BIT 9
def AC100_ADC_SRC_ADCR_AUXINR_DISABLED : Nat := 0
def AC100_ADC_SRC_ADCR_AUXINR_ENABLED : Nat := BIT 9
def AC100_ADC_SRC_ADCR_ROUTMIX_OFF : Nat := 8
def AC100_ADC_SRC_ADCR_ROUTMIX_MASK : Nat := BIT 8
def AC100_ADC_SRC_ADCR_ROUTMIX_DISABLED : Nat := 0
def AC100_ADC_SRC_ADCR_ROUTMIX_ENABLED : Nat := BIT 8
def AC100_ADC_SRC_ADCR_LOUTMIX_OFF : Nat := 7
def AC100_ADC_SRC_ADCR_LOUTMIX_MASK : Nat := BIT 7
def AC100_ADC_SRC_ADCR_LOUTMIX_DISABLED : Nat := 0
def AC100_ADC_SRC_ADCR_LOUTMIX_ENABLED : Nat := BIT 7
def AC100_ADC_SRC_ADCL_MIC1_BOOST_OFF : Nat := 6
def AC100_ADC_SRC_ADCL_MIC1_BOOST_MASK : Nat := BIT 6
def AC100_ADC_SRC_ADCL_MIC1_BOOST_DISABLED : Nat := 0
def AC100_ADC_SRC_ADCL_MIC1_BOOST_ENABLED : Nat := BIT 6
def AC100_ADC_SRC_ADCL_MIC2_BOOST_OFF : Nat := 5
def AC100_ADC_SRC_ADCL_MIC2_BOOST_MASK : Nat := BIT 5
def AC100_ADC_SRC_ADCL_MIC2_BOOST_DISABLED : Nat := 0
def AC100_ADC_SRC_ADCL_MIC2_BOOST_ENABLED : Nat := BIT 5
def AC100_ADC_SRC_ADCL_LINEINL_LINEINR_OFF : Nat := 4
def AC100_ADC_SRC_ADCL_LINEINL_LINEINR_MASK : Nat := BIT 4
def AC100_ADC_SRC_ADCL_LINEINL_LINEINR_DISABLED : Nat := 0
def AC100_ADC_SRC_ADCL_LINEINL_LINEINR_ENABLED : Nat := BIT 4
def AC100_ADC_SRC_ADCL_LINEINL_OFF : Nat := 3
def AC100_ADC_SRC_ADCL_LINEINL_MASK : Nat := BIT 3
def AC100_ADC_SRC_ADCL_LINEINL_DISABLED : Nat := 0
def AC100_ADC_SRC_ADCL_LINEINL_ENABLED : Nat := BIT 3
def AC100_ADC_SRC_ADCL_AUXINL_OFF : Nat := 2
def AC100_ADC_SRC_ADCL_AUXINL_MASK : Nat := BIT 2
def AC100_ADC_SRC_ADCL_AUXINL_DISABLED : Nat := 0
def AC100_ADC_SRC_ADCL_AUXINL_ENABLED : Nat := BIT 2
def AC100_ADC_SRC_ADCL_LOUTMIX_OFF : Nat := 1
def AC100_ADC_SRC_ADCL_LOUTMIX_MASK : Nat := BIT 1
def AC100_ADC_SRC_ADCL_LOUTMIX_DISABLED : Nat := 0
def AC100_ADC_SRC_ADCL_LOUTMIX_ENABLED : Nat := BIT 1
def AC100_ADC_SRC_ADCL_ROUTMIX_OFF : Nat := 0
def AC100_ADC_SRC_ADCL_ROUTMIX_MASK : Nat := BIT 0
def AC100_ADC_SRC_ADCL_ROUTMIX_DISABLED : Nat := 0
def AC100_ADC_SRC_ADCL_ROUTMIX_ENABLED : Nat := BIT 0

def AC100_ADC_SRC_BST_CTRL_MIC1AMPEN_OFF : Nat := 15
def AC100_ADC_SRC_BST_CTRL_MIC1AMPEN_MASK : Nat := BIT 15
def AC100_ADC_SRC_BST_CTRL_MIC1AMPEN_DISABLED : Nat := 0
def AC100_ADC_SRC_BST_CTRL_MIC1AMPEN_ENABLED : Nat := BIT 15
def AC100_ADC_SRC_BST_CTRL_MIC1BOOST_OFF : Nat := 12
def AC100_ADC_SRC_BST_CTRL_MIC1BOOST (v : Nat) : Nat := (v &&& 0x7) <<< 12
def AC100_ADC_SRC_BST_CTRL_MIC2AMPEN_OFF : Nat := 11
def AC100_ADC_SRC_BST_CTRL_MIC2AMPEN_MASK : Nat := BIT 11
def AC100_ADC_SRC_BST_CTRL_MIC2AMPEN_DISABLED : Nat := 0
def AC100_ADC_SRC_BST_CTRL_MIC2AMPEN_ENABLED : Nat := BIT 11
def AC100_ADC_SRC_BST_CTRL_MIC2BOOST_OFF : Nat := 8
def AC100_ADC_SRC_BST_CTRL_MIC2BOOST (v : Nat) : Nat := (v &&& 0x7) <<< 8
def AC100_ADC_SRC_BST_CTRL_MIC2SLT_OFF : Nat := 7
def AC100_ADC_SRC_BST_CTRL_MIC2SLT_MASK : Nat := BIT 7
def AC100_ADC_SRC_BST_CTRL_MIC2SLT_MIC2 : Nat := 0
def AC100_ADC_SRC_BST_CTRL_MIC2SLT_MIC3 : Nat := BIT 7
def AC100_ADC_SRC_BST_CTRL_LINEIN_DIFF_PREG_OFF : Nat := 4
def AC100_ADC_SRC_BST_CTRL_LINEIN_DIFF_PREG (v : Nat) : Nat := (v &&& 0x7) <<< 4
def AC100_ADC_SRC_BST_CTRL_AXI_PREG_OFF : Nat := 0
def AC100_ADC_SRC_BST_CTRL_AXI_PREG (v : Nat) : Nat := v &&& 0x7

def AC100_OUT_MXR_DAC_A_CTRL_DAC_AR_EN_OFF : Nat := 15
def AC100_OUT_MXR_DAC_A_CTRL_DAC_AR_EN_MASK : Nat := BIT 15
def AC100_OUT_MXR_DAC_A_CTRL_DAC_AR_EN_DISABLED : Nat := 0
def AC100_OUT_MXR_DAC_A_CTRL_DAC_AR_EN_ENABLED : Nat := BIT 15
def AC100_OUT_MXR_DAC_A_CTRL_DAC_AL_EN_OFF : Nat := 14
def AC100_OUT_MXR_DAC_A_CTRL_DAC_AL_EN_MASK : Nat := BIT 14
def AC100_OUT_MXR_DAC_A_CTRL_DAC_AL_EN_DISABLED : Nat := 0
def AC100_OUT_MXR_DAC_A_CTRL_DAC_AL_EN_ENABLED : Nat := BIT 14
def AC100_OUT_MXR_DAC_A_CTRL_AR_MIX_EN_OFF : Nat := 13
def AC100_OUT_MXR_DAC_A_CTRL_AR_MIX_EN_MASK : Nat := BIT 13
def AC100_OUT_MXR_DAC_A_CTRL_AR_MIX_EN_DISABLED : Nat := 0
def AC100_OUT_MXR_DAC_A_CTRL_AR_MIX_EN_ENABLED : Nat := BIT 13
def AC100_OUT_MXR_DAC_A_CTRL_AL_MIX_EN_OFF : Nat := 12
def AC100_OUT_MXR_DAC_A_CTRL_AL_MIX_EN_MASK : Nat := BIT 12
def AC100_OUT_MXR_DAC_A_CTRL_AL_MIX_EN_DISABLED : Nat := 0
def AC100_OUT_MXR_DAC_A_CTRL_AL_MIX_EN_ENABLED : Nat := BIT 12
def AC100_OUT_MXR_DAC_A_CTRL_HP_DCRM_EN_OFF : Nat := 8
def AC100_OUT_MXR_DAC_A_CTRL_HP_DCRM_EN (v : Nat) : Nat := (v &&& 0xf) <<< 8

def AC100_OUT_MXR_SRC_RMIX_MIC1_BOOST_OFF : Nat := 13
def AC100_OUT_MXR_SRC_RMIX_MIC1_BOOST_MASK : Nat := BIT 13
def AC100_OUT_MXR_SRC_RMIX_MIC1_BOOST_DISABLED : Nat := 0
def AC100_OUT_MXR_SRC_RMIX_MIC1_BOOST_ENABLED : Nat := BIT 13
def AC100_OUT_MXR_SRC_RMIX_MIC2_BOOST_OFF : Nat := 12
def AC100_OUT_MXR_SRC_RMIX_MIC2_BOOST_MASK : Nat := BIT 12
def AC100_OUT_MXR_SRC_RMIX_MIC2_BOOST_DISABLED : Nat := 0
def AC100_OUT_MXR_SRC_RMIX_MIC2_BOOST_ENABLED : Nat := BIT 12
def AC100_OUT_MXR_SRC_RMIX_LINEINL_LINEINR_OFF : Nat := 11
def AC100_OUT_MXR_SRC_RMIX_LINEINL_LINEINR_MASK : Nat := BIT 11
def AC100_OUT_MXR_SRC_RMIX_LINEINL_LINEINR_DISABLED : Nat := 0
def AC100_OUT_MXR_SRC_RMIX_LINEINL_LINEINR_ENABLED : Nat := BIT 11
def AC100_OUT_MXR_SRC_RMIX_LINEINR_OFF : Nat := 10
def AC100_OUT_MXR_SRC_RMIX_LINEINR_MASK : Nat := BIT 10
def AC100_OUT_MXR_SRC_RMIX_LINEINR_DISABLED : Nat := 0
def AC100_OUT_MXR_SRC_RMIX_LINEINR_ENABLED : Nat := BIT 10
def AC100_OUT_MXR_SRC_RMIX_AUXINR_OFF : Nat := 9
def AC100_OUT_MXR_SRC_RMIX_AUXINR_MASK : Nat := BIT 9
def AC100_OUT_MXR_SRC_RMIX_AUXINR_DISABLED : Nat := 0
def AC100_OUT_MXR_SRC_RMIX_AUXINR_ENABLED : Nat := BIT 9
def AC100_OUT_MXR_SRC_RMIX_DACR_OFF : Nat := 8
def AC100_OUT_MXR_SRC_RMIX_DACR_MASK : Nat := BIT 8
def AC100_OUT_MXR_SRC_RMIX_DACR_DISABLED : Nat := 0
def AC100_OUT_MXR_SRC_RMIX_DACR_ENABLED : Nat := BIT 8
def AC100_OUT_MXR_SRC_RMIX_DACL_OFF : Nat := 7
def AC100_OUT_MXR_SRC_RMIX_DACL_MASK : Nat := BIT 7
def AC100_OUT_MXR_SRC_RMIX_DACL_DISABLED : Nat := 0
def AC100_OUT_MXR_SRC_RMIX_DACL_ENABLED : Nat := BIT 7
def AC100_OUT_MXR_SRC_LMIX_MIC1_BOOST_OFF : Nat := 6
def AC100_OUT_MXR_SRC_LMIX_MIC1_BOOST_MASK : Nat := BIT 6
def AC100_OUT_MXR_SRC_LMIX_MIC1_BOOST_DISABLED : Nat := 0
def AC100_OUT_MXR_SRC_LMIX_MIC1_BOOST_ENABLED : Nat := BIT 6
def AC100_OUT_MXR_SRC_LMIX_MIC2_BOOST_OFF : Nat := 5
def AC100_OUT_MXR_SRC_LMIX_MIC2_BOOST_MASK : Nat := BIT 5
def AC100_OUT_MXR_SRC_LMIX_MIC2_BOOST_DISABLED : Nat := 0
def AC100_OUT_MXR_SRC_LMIX_MIC2_BOOST_ENABLED : Nat := BIT 5
def AC100_OUT_MXR_SRC_LMIX_LINEINL_LINEINR_OFF : Nat := 4
def AC100_OUT_MXR_SRC_LMIX_LINEINL_LINEINR_MASK : Nat := BIT 4
def AC100_OUT_MXR_SRC_LMIX_LINEINL_LINEINR_DISABLED : Nat := 0
def AC100_OUT_MXR_SRC_LMIX_LINEINL_LINEINR_ENABLED : Nat := BIT 4
def AC100_OUT_MXR_SRC_LMIX_LINEINL_OFF : Nat := 3
def AC100_OUT_MXR_SRC_LMIX_LINEINL_MASK : Nat := BIT 3
def AC100_OUT_MXR_SRC_LMIX_LINEINL_DISABLED : Nat := 0
def AC100_OUT_MXR_SRC_LMIX_LINEINL_ENABLED : Nat := BIT 3
def AC100_OUT_MXR_SRC_LMIX_AUXINL_OFF : Nat := 2
def AC100_OUT_MXR_SRC_LMIX_AUXINL_MASK : Nat := BIT 2
def AC100_OUT_MXR_SRC_LMIX_AUXINL_DISABLED : Nat := 0
def AC100_OUT_MXR_SRC_LMIX_AUXINL_ENABLED : Nat := BIT 2
def AC100_OUT_MXR_SRC_LMIX_DACL_OFF : Nat := 1
def AC100_OUT_MXR_SRC_LMIX_DACL_MASK : Nat := BIT 1
def AC100_OUT_MXR_SRC_LMIX_DACL_DISABLED : Nat := 0
def AC100_OUT_MXR_SRC_LMIX_DACL_ENABLED : Nat := BIT 1
def AC100_OUT_MXR_SRC_LMIX_DACR_OFF : Nat := 0
def AC100_OUT_MXR_SRC_LMIX_DACR_MASK : Nat := BIT 0
def AC100_OUT_MXR_SRC_LMIX_DACR_DISABLED : Nat := 0
def AC100_OUT_MXR_SRC_LMIX_DACR_ENABLED : Nat := BIT 0

def AC100_OUT_MXR_SRC_BST_HMICBIAS_VOLTAGE_OFF : Nat := 14
def AC100_OUT_MXR_SRC_BST_HMICBIAS_VOLTAGE_MASK : Nat := GENMASK 15 14
def AC100_OUT_MXR_SRC_BST_HMICBIAS_VOLTAGE_1_88V : Nat := 0x0 <<< 14
def AC100_OUT_MXR_SRC_BST_HMICBIAS_VOLTAGE_2_09V : Nat := 0x1 <<< 14
def AC100_OUT_MXR_SRC_BST_HMICBIAS_VOLTAGE_2_33V : Nat := 0x2 <<< 14
def AC100_OUT_MXR_SRC_BST_HMICBIAS_VOLTAGE_2_50V : Nat := 0x3 <<< 14
def AC100_OUT_MXR_SRC_BST_MMICBIAS_VOLTAGE_OFF : Nat := 12
def AC100_OUT_MXR_SRC_BST_MMICBIAS_VOLTAGE_MASK : Nat := GENMASK 13 12
def AC100_OUT_MXR_SRC_BST_MMICBIAS_VOLTAGE_1_88V : Nat := 0x0 <<< 12
def AC100_OUT_MXR_SRC_BST_MMICBIAS_VOLTAGE_2_09V : Nat := 0x1 <<< 12
def AC100_OUT_MXR_SRC_BST_MMICBIAS_VOLTAGE_2_33V : Nat := 0x2 <<< 12
def AC100_OUT_MXR_SRC_BST_MMICBIAS_VOLTAGE_2_50V : Nat := 0x3 <<< 12
def AC100_OUT_MXR_SRC_BST_AX_GAIN_OFF : Nat := 9
def AC100_OUT_MXR_SRC_BST_AX_GAIN (v : Nat) : Nat := (v &&& 0x7) <<< 9
def AC100_OUT_MXR_SRC_BST_MIC1_GAIN_OFF : Nat := 6
def AC100_OUT_MXR_SRC_BST_MIC1_GAIN (v : Nat) : Nat := (v &&& 0x7) <<< 6
def AC100_OUT_MXR_SRC_BST_MIC2_GAIN_OFF : Nat := 3
def AC100_OUT_MXR_SRC_BST_MIC2_GAIN (v : Nat) : Nat := (v &&& 0x7) <<< 3
def AC100_OUT_MXR_SRC_BST_LINEIN_GAIN_OFF : Nat := 0
def AC100_OUT_MXR_SRC_BST_LINEIN_GAIN (v : Nat) : Nat := v &&& 0x7

def AC100_HPOUT_CTRL_RIGHT_SRC_OFF : Nat := 15
def AC100_HPOUT_CTRL_RIGHT_SRC_MASK : Nat := BIT 15
def AC100_HPOUT_CTRL_RIGHT_SRC_DACR : Nat := 0
def AC100_HPOUT_CTRL_RIGHT_SRC_RAMIX : Nat := BIT 15
def AC100_HPOUT_CTRL_LEFT_SRC_OFF : Nat := 14
def AC100_HPOUT_CTRL_LEFT_SRC_MASK : Nat := BIT 14
def AC100_HPOUT_CTRL_LEFT_SRC_DACL : Nat := 0
def AC100_HPOUT_CTRL_LEFT_SRC_LAMIX : Nat := BIT 14
def AC100_HPOUT_CTRL_RIGHT_PA_MUTE_OFF : Nat := 13
def AC100_HPOUT_CTRL_RIGHT_PA_MUTE_MASK : Nat := BIT 13
def AC100_HPOUT_CTRL_RIGHT_PA_MUTE_MUTE : Nat := 0
def AC100_HPOUT_CTRL_RIGHT_PA_MUTE_NOT_MUTE : Nat := BIT 13
def AC100_HPOUT_CTRL_LEFT_PA_MUTE_OFF : Nat := 12
def AC100_HPOUT_CTRL_LEFT_PA_MUTE_MASK : Nat := BIT 12
def AC100_HPOUT_CTRL_LEFT_PA_MUTE_MUTE : Nat := 0
def AC100_HPOUT_CTRL_LEFT_PA_MUTE_NOT_MUTE : Nat := BIT 12
def AC100_HPOUT_CTRL_PA_EN_OFF : Nat := 11
def AC100_HPOUT_CTRL_PA_EN_MASK : Nat := BIT 11
def AC100_HPOUT_CTRL_PA_EN_DISABLED : Nat := 0
def AC100_HPOUT_CTRL_PA_EN_ENABLED : Nat := BIT 11
def AC100_HPOUT_CTRL_VOLUME_OFF : Nat := 4
def AC100_HPOUT_CTRL_VOLUME (v : Nat) : Nat := (v &&& 0x3f) <<< 4
def AC100_HPOUT_CTRL_STARTUP_DELAY_OFF : Nat := 2
def AC100_HPOUT_CTRL_STARTUP_DELAY_MASK : Nat := GENMASK 3 2
def AC100_HPOUT_CTRL_STARTUP_DELAY_4ms : Nat := 0x0 <<< 2
def AC100_HPOUT_CTRL_STARTUP_DELAY_8ms : Nat := 0x1 <<< 2
def AC100_HPOUT_CTRL_STARTUP_DELAY_16ms : Nat := 0x2 <<< 2
def AC100_HPOUT_CTRL_STARTUP_DELAY_32ms : Nat := 0x3 <<< 2
def AC100_HPOUT_CTRL_OUTPUT_CURRENT_OFF : Nat := 0
def AC100_HPOUT_CTRL_OUTPUT_CURRENT (v : Nat) : Nat := v &&& 0x3

def AC100_ERPOUT_CTRL_RAMP_TIME_OFF : Nat := 11
def AC100_ERPOUT_CTRL_RAMP_TIME_MASK : Nat := GENMASK 12 11
def AC100_ERPOUT_CTRL_RAMP_TIME_256ms : Nat := 0x0 <<< 11
def AC100_ERPOUT_CTRL_RAMP_TIME_512ms : Nat := 0x1 <<< 11
def AC100_ERPOUT_CTRL_RAMP_TIME_640ms : Nat := 0x2 <<< 11
def AC100_ERPOUT_CTRL_RAMP_TIME_768ms : Nat := 0x3 <<< 11
def AC100_ERPOUT_CTRL_OUT_CURRENT_OFF : Nat := 9
def AC100_ERPOUT_CTRL_OUT_CURRENT (v : Nat) : Nat := (v &&& 0x3) <<< 9
def AC100_ERPOUT_CTRL_INPUT_SOURCE_OFF : Nat := 7
def AC100_ERPOUT_CTRL_INPUT_SOURCE_MASK : Nat := GENMASK 8 7
def AC100_ERPOUT_CTRL_INPUT_SOURCE_DACR : Nat := 0x0 <<< 7
def AC100_ERPOUT_CTRL_INPUT_SOURCE_DACL : Nat := 0x1 <<< 7
def AC100_ERPOUT_CTRL_INPUT_SOURCE_RAMIX : Nat := 0x2 <<< 7
def AC100_ERPOUT_CTRL_INPUT_SOURCE_LAMIX : Nat := 0x3 <<< 7
def AC100_ERPOUT_CTRL_MUTE_OFF : Nat := 6
def AC100_ERPOUT_CTRL_MUTE_MASK : Nat := BIT 6
def AC100_ERPOUT_CTRL_MUTE_MUTE : Nat := 0
def AC100_ERPOUT_CTRL_MUTE_NOT_MUTE : Nat := BIT 6
def AC100_ERPOUT_CTRL_PA_EN_OFF : Nat := 5
def AC100_ERPOUT_CTRL_PA_EN_MASK : Nat := BIT 5
def AC100_ERPOUT_CTRL_PA_EN_DISABLED : Nat := 0
def AC100_ERPOUT_CTRL_PA_EN_ENABLED : Nat := BIT 5
def AC100_ERPOUT_CTRL_VOLUME_OFF : Nat := 0
def AC100_ERPOUT_CTRL_VOLUME (v : Nat) : Nat := v &&& 0x1f

def AC100_SPKOUT_CTRL_RIGHT_SRC_OFF : Nat := 12
def AC100_SPKOUT_CTRL_RIGHT_SRC_MASK : Nat := BIT 12
def AC100_SPKOUT_CTRL_RIGHT_SRC_MIXR : Nat := 0
def AC100_SPKOUT_CTRL_RIGHT_SRC_MIXL_MIXR : Nat := BIT 12
def AC100_SPKOUT_CTRL_RIGHT_INV_EN_OFF : Nat := 11
def AC100_SPKOUT_CTRL_RIGHT_INV_EN_MASK : Nat := BIT 11
def AC100_SPKOUT_CTRL_RIGHT_INV_EN_DISABLED : Nat := 0
def AC100_SPKOUT_CTRL_RIGHT_INV_EN_ENABLED : Nat := BIT 11
def AC100_SPKOUT_CTRL_RIGHT_EN_OFF : Nat := 9
def AC100_SPKOUT_CTRL_RIGHT_EN_MASK : Nat := BIT 9
def AC100_SPKOUT_CTRL_RIGHT_EN_DISABLED : Nat := 0
def AC100_SPKOUT_CTRL_RIGHT_EN_ENABLED : Nat := BIT 9
def AC100_SPKOUT_CTRL_LEFT_SRC_OFF : Nat := 8
def AC100_SPKOUT_CTRL_LEFT_SRC_MASK : Nat := BIT 8
def AC100_SPKOUT_CTRL_LEFT_SRC_MIXL : Nat := 0
def AC100_SPKOUT_CTRL_LEFT_SRC_MIXL_MIXR : Nat := BIT 8
def AC100_SPKOUT_CTRL_LEFT_INV_EN_OFF : Nat := 7
def AC100_SPKOUT_CTRL_LEFT_INV_EN_MASK : Nat := BIT 7
def AC100_SPKOUT_CTRL_LEFT_INV_EN_DISABLED : Nat := 0
def AC100_SPKOUT_CTRL_LEFT_INV_EN_ENABLED : Nat := BIT 7
def AC100_SPKOUT_CTRL_LEFT_EN_OFF : Nat := 5
def AC100_SPKOUT_CTRL_LEFT_EN_MASK : Nat := BIT 5
def AC100_SPKOUT_CTRL_LEFT_EN_DISABLED : Nat := 0
def AC100_SPKOUT_CTRL_LEFT_EN_ENABLED : Nat := BIT 5
def AC100_SPKOUT_CTRL_VOLUME_OFF : Nat := 0
def AC100_SPKOUT_CTRL_VOLUME (v : Nat) : Nat := v &&& 0x1f

def AC100_LINEOUT_CTRL_LINEOUT_GAIN_OFF : Nat := 5
def AC100_LINEOUT_CTRL_LINEOUT_GAIN (v : Nat) : Nat := (v &&& 0x7) <<< 5
def AC100_LINEOUT_CTRL_LINEOUT_EN_OFF : Nat := 4
def AC100_LINEOUT_CTRL_LINEOUT_EN_MASK : Nat := BIT 4
def AC100_LINEOUT_CTRL_LINEOUT_EN_DISABLED : Nat := 0
def AC100_LINEOUT_CTRL_LINEOUT_EN_ENABLED : Nat := BIT 4
def AC100_LINEOUT_CTRL_LINEOUT_S0_OFF : Nat := 3
def AC100_LINEOUT_CTRL_LINEOUT_S0_MASK : Nat := BIT 3
def AC100_LINEOUT_CTRL_LINEOUT_S0_MUTE : Nat := 0
def AC100_LINEOUT_CTRL_LINEOUT_S0_ON : Nat := BIT 3
def AC100_LINEOUT_CTRL_LINEOUT_S1_OFF : Nat := 2
def AC100_LINEOUT_CTRL_LINEOUT_S1_MASK : Nat := BIT 2
def AC100_LINEOUT_CTRL_LINEOUT_S1_MUTE : Nat := 0
def AC100_LINEOUT_CTRL_LINEOUT_S1_ON : Nat := BIT 2
def AC100_LINEOUT_CTRL_LINEOUT_S2_OFF : Nat := 1
def AC100_LINEOUT_CTRL_LINEOUT_S2_MASK : Nat := BIT 1
def AC100_LINEOUT_CTRL_LINEOUT_S2_MUTE : Nat := 0
def AC100_LINEOUT_CTRL_LINEOUT_S2_ON : Nat := BIT 1
def AC100_LINEOUT_CTRL_LINEOUT_S3_OFF : Nat := 0
def AC100_LINEOUT_CTRL_LINEOUT_S3_MASK : Nat := BIT 0
def AC100_LINEOUT_CTRL_LINEOUT_S3_MUTE : Nat := 0
def AC100_LINEOUT_CTRL_LINEOUT_S3_ON : Nat := BIT 0

def AC100_ADDA_TUNE1_ZERO_CROSSOVER_EN_OFF : Nat := 8
def AC100_ADDA_TUNE1_ZERO_CROSSOVER_EN_MASK : Nat := BIT 8
def AC100_ADDA_TUNE1_ZERO_CROSSOVER_EN_DIS : Nat := 0
def AC100_ADDA_TUNE1_ZERO_CROSSOVER_EN_EN : Nat := BIT 8
def AC100_ADDA_TUNE1_ZERO_CROSSOVER_TIME_OFF : Nat := 7
def AC100_ADDA_TUNE1_ZERO_CROSSOVER_TIME : Nat := BIT 7

/-! ## DAPM event bits (include/sound/soc-dapm.h) -/

def SND_SOC_DAPM_PRE_PMU : Nat := 0x1
def SND_SOC_DAPM_POST_PMU : Nat := 0x2
def SND_SOC_DAPM_PRE_PMD : Nat := 0x4
def SND_SOC_DAPM_POST_PMD : Nat := 0x8

/-- `SND_SOC_DAPM_EVENT_ON(e)`: the event mask restricted to the power-up bits. -/
def SND_SOC_DAPM_EVENT_ON (e : Nat) : Nat :=
  e &&& (SND_SOC_DAPM_PRE_PMU ||| SND_SOC_DAPM_POST_PMU)

/-- `SND_SOC_DAPM_EVENT_OFF(e)`: the event mask restricted to the power-down bits. -/
def SND_SOC_DAPM_EVENT_OFF (e : Nat) : Nat :=
  e &&& (SND_SOC_DAPM_PRE_PMD ||| SND_SOC_DAPM_POST_PMD)

/-! ## Register transport -/

/-- The register-access collaborator seen by the driver: one operation,
`snd_soc_component_update_bits(component, reg, mask, val)`, which yields a
return code (negative on a transport error) and the component state after the
call. -/
structure Bus (σ : Type) where
  update_bits : σ → Reg → Nat → Nat → Int × σ

/-- The masked update computed by regmap: `(orig & ~mask) | (val & mask)` on
32-bit `unsigned int`. -/
def regmap_update (orig mask val : Nat) : Nat :=
  (orig &&& (0xFFFFFFFF ^^^ mask)) ||| (val &&& mask)

/-- Register file of a working codec. -/
abbrev Regmap := Reg → Nat

/-- A transport on which every update succeeds: the register is rewritten
with the masked update and the return code is 1 if the value changed, else 0. -/
def regmapBus : Bus Regmap where
  update_bits := fun s r mask val =>
    let orig := s r
    let tmp := regmap_update orig mask val
    (if tmp ≠ orig then 1 else 0, Function.update s r tmp)

/-- `-EIO`. -/
def EIO_neg : Int := -5

/-- A transport on which every update fails with `-EIO`; its state is the log
of the calls made (register and return code), newest last. -/
def eioBus : Bus (List (Reg × Int)) where
  update_bits := fun log r _ _ => (EIO_neg, log ++ [(r, EIO_neg)])

/-! ## The headphone power hook (lines 678-702) -/

/-- `ac100_codec_hp_power(w, k, event)`: the register updates go through the
component's transport; their return codes are discarded and the hook returns 0. -/
def ac100_codec_hp_power {σ : Type} (bus : Bus σ) (component : σ) (event : Nat) : Int × σ :=
  let val : Nat := if SND_SOC_DAPM_EVENT_ON event ≠ 0 then 0xf else 0
  let c1 :=
    if SND_SOC_DAPM_EVENT_OFF event ≠ 0 then
      (bus.update_bits component AC100_ADDA_TUNE1
        AC100_ADDA_TUNE1_ZERO_CROSSOVER_EN_MASK
        AC100_ADDA_TUNE1_ZERO_CROSSOVER_EN_EN).2
    else
      (bus.update_bits component AC100_ADDA_TUNE1
        AC100_ADDA_TUNE1_ZERO_CROSSOVER_EN_MASK
        AC100_ADDA_TUNE1_ZERO_CROSSOVER_EN_DIS).2
  let c2 :=
    (bus.update_bits c1 AC100_OUT_MXR_DAC_A_CTRL
      (AC100_OUT_MXR_DAC_A_CTRL_HP_DCRM_EN 0xf)
      (AC100_OUT_MXR_DAC_A_CTRL_HP_DCRM_EN val)).2
  (0, c2)

/-! ## Control model (include/sound/soc.h) -/

/-- `TLV_DB_GAIN_MUTE` of include/uapi/sound/tlv.h. -/
def TLV_DB_GAIN_MUTE : Int := -9999999

/-- `TLV_DB_SCALE_ITEM(min, step, mute)`: gain in 0.01 dB at the lowest value,
step per value, and whether the lowest value mutes. -/
structure tlv_db_scale_item where
  min : Int
  step : Int
  mute : Nat
  deriving DecidableEq, Repr

/-- A dB scale attached to a volume control: `DECLARE_TLV_DB_SCALE` or
`DECLARE_TLV_DB_RANGE` (a list of `lo, hi, item` triples). -/
inductive Tlv
  | scale (item : tlv_db_scale_item)
  | range (items : List (Nat × Nat × tlv_db_scale_item))
  deriving DecidableEq, Repr

/-- `struct soc_mixer_control` as filled by `SOC_DOUBLE_VALUE`. -/
structure soc_mixer_control where
  reg : Reg
  shift : Nat
  rshift : Nat
  max : Nat
  invert : Nat
  deriving DecidableEq, Repr

/-- `struct soc_enum`. -/
structure soc_enum where
  reg : Reg
  shift_l : Nat
  shift_r : Nat
  items : Nat
  texts : List String
  mask : Nat
  deriving DecidableEq, Repr

/-- `fls(x)` on 32-bit values: index (from 1) of the highest set bit, 0 for 0. -/
def fls (x : Nat) : Nat :=
  (List.range 32).foldl (fun acc i => if Nat.testBit x i then i + 1 else acc) 0

/-- `roundup_pow_of_two(n)` for `n > 0`. -/
def roundup_pow_of_two (n : Nat) : Nat := 1 <<< fls (n - 1)

/-- `SOC_ENUM_DOUBLE_DECL(name, xreg, xshift_l, xshift_r, xtexts)`. -/
def SOC_ENUM_DOUBLE_DECL (xreg : Reg) (xshift_l xshift_r : Nat) (xtexts : List String) : soc_enum :=
  { reg := xreg, shift_l := xshift_l, shift_r := xshift_r,
    items := xtexts.length, texts := xtexts,
    mask := if xtexts.length ≠ 0 then roundup_pow_of_two xtexts.length - 1 else 0 }

/-- `SOC_ENUM_SINGLE_DECL(name, xreg, xshift, xtexts)`. -/
def SOC_ENUM_SINGLE_DECL (xreg : Reg) (xshift : Nat) (xtexts : List String) : soc_enum :=
  SOC_ENUM_DOUBLE_DECL xreg xshift xshift xtexts

/-- What a control is bound to: a one- or two-channel register field, or an
enumeration. -/
inductive kcontrol_value
  | mixer (mc : soc_mixer_control)
  | enum (e : soc_enum)
  deriving DecidableEq, Repr

/-- `struct snd_kcontrol_new`: name, binding (`private_value`) and dB scale. -/
structure snd_kcontrol_new where
  name : String
  private_value : kcontrol_value
  tlv : Option Tlv
  deriving DecidableEq, Repr

/-- `SOC_DAPM_DOUBLE(xname, reg, lshift, rshift, max, invert)`. -/
def SOC_DAPM_DOUBLE (xname : String) (reg : Reg) (lshift rshift max invert : Nat) :
    snd_kcontrol_new :=
  { name := xname, private_value := .mixer ⟨reg, lshift, rshift, max, invert⟩, tlv := none }

/-- `SOC_DAPM_SINGLE(xname, reg, shift, max, invert)`. -/
def SOC_DAPM_SINGLE (xname : String) (reg : Reg) (shift max invert : Nat) : snd_kcontrol_new :=
  { name := xname, private_value := .mixer ⟨reg, shift, shift, max, invert⟩, tlv := none }

/-- `SOC_SINGLE_TLV(xname, reg, shift, max, invert, tlv_array)`. -/
def SOC_SINGLE_TLV (xname : String) (reg : Reg) (shift max invert : Nat) (tlv_array : Tlv) :
    snd_kcontrol_new :=
  { name := xname, private_value := .mixer ⟨reg, shift, shift, max, invert⟩,
    tlv := some tlv_array }

/-- `SOC_DOUBLE_TLV(xname, reg, shift_left, shift_right, max, invert, tlv_array)`. -/
def SOC_DOUBLE_TLV (xname : String) (reg : Reg) (shift_left shift_right max invert : Nat)
    (tlv_array : Tlv) : snd_kcontrol_new :=
  { name := xname, private_value := .mixer ⟨reg, shift_left, shift_right, max, invert⟩,
    tlv := some tlv_array }

/-- `SOC_ENUM(xname, xenum)`. -/
def SOC_ENUM (xname : String) (xenum : soc_enum) : snd_kcontrol_new :=
  { name := xname, private_value := .enum xenum, tlv := none }

/-- `SOC_DAPM_ENUM(xname, xenum)`. -/
def SOC_DAPM_ENUM (xname : String) (xenum : soc_enum) : snd_kcontrol_new :=
  { name := xname, private_value := .enum xenum, tlv := none }

/-! ## Control tables (lines 363-676) -/

/-- ADC mixer controls. -/
def ac100_codec_adc_mixer_controls : List snd_kcontrol_new := [
  SOC_DAPM_DOUBLE "Mic1 Capture Switch"
    AC100_ADC_SRC
    AC100_ADC_SRC_ADCL_MIC1_BOOST_OFF
    AC100_ADC_SRC_ADCR_MIC1_BOOST_OFF 1 0,
  SOC_DAPM_DOUBLE "Mic2 Capture Switch"
    AC100_ADC_SRC
    AC100_ADC_SRC_ADCL_MIC2_BOOST_OFF
    AC100_ADC_SRC_ADCR_MIC2_BOOST_OFF 1 0,
  SOC_DAPM_DOUBLE "Line In Differential Capture Switch"
    AC100_ADC_SRC
    AC100_ADC_SRC_ADCL_LINEINL_LINEINR_OFF
    AC100_ADC_SRC_ADCR_LINEINL_LINEINR_OFF 1 0,
  SOC_DAPM_DOUBLE "Line In Capture Switch"
    AC100_ADC_SRC
    AC100_ADC_SRC_ADCL_LINEINL_OFF
    AC100_ADC_SRC_ADCR_LINEINR_OFF 1 0,
  SOC_DAPM_DOUBLE "Aux In Capture Switch"
    AC100_ADC_SRC
    AC100_ADC_SRC_ADCL_AUXINL_OFF
    AC100_ADC_SRC_ADCR_AUXINR_OFF 1 0,
  SOC_DAPM_DOUBLE "Mixer Capture Switch"
    AC100_ADC_SRC
    AC100_ADC_SRC_ADCL_LOUTMIX_OFF
    AC100_ADC_SRC_ADCR_ROUTMIX_OFF 1 0,
  SOC_DAPM_DOUBLE "Mixer Reversed Capture Switch"
    AC100_ADC_SRC
    AC100_ADC_SRC_ADCL_ROUTMIX_OFF
    AC100_ADC_SRC_ADCR_LOUTMIX_OFF 1 0 ]

/-- Output mixer controls. -/
def ac100_codec_mixer_controls : List snd_kcontrol_new := [
  SOC_DAPM_DOUBLE "Mic1 Playback Switch"
    AC100_OUT_MXR_SRC
    AC100_OUT_MXR_SRC_LMIX_MIC1_BOOST_OFF
    AC100_OUT_MXR_SRC_RMIX_MIC1_BOOST_OFF 1 0,
  SOC_DAPM_DOUBLE "Mic2 Playback Switch"
    AC100_OUT_MXR_SRC
    AC100_OUT_MXR_SRC_LMIX_MIC2_BOOST_OFF
    AC100_OUT_MXR_SRC_RMIX_MIC2_BOOST_OFF 1 0,
  SOC_DAPM_DOUBLE "Line In Differential Playback Switch"
    AC100_OUT_MXR_SRC
    AC100_OUT_MXR_SRC_LMIX_LINEINL_LINEINR_OFF
    AC100_OUT_MXR_SRC_RMIX_LINEINL_LINEINR_OFF 1 0,
  SOC_DAPM_DOUBLE "Line In Playback Switch"
    AC100_OUT_MXR_SRC
    AC100_OUT_MXR_SRC_LMIX_LINEINL_OFF
    AC100_OUT_MXR_SRC_RMIX_LINEINR_OFF 1 0,
  SOC_DAPM_DOUBLE "Aux In Playback Switch"
    AC100_OUT_MXR_SRC
    AC100_OUT_MXR_SRC_LMIX_AUXINL_OFF
    AC100_OUT_MXR_SRC_RMIX_AUXINR_OFF 1 0,
  SOC_DAPM_DOUBLE "DAC Playback Switch"
    AC100_OUT_MXR_SRC
    AC100_OUT_MXR_SRC_LMIX_DACL_OFF
    AC100_OUT_MXR_SRC_RMIX_DACR_OFF 1 0,
  SOC_DAPM_DOUBLE "DAC Reversed Playback Switch"
    AC100_OUT_MXR_SRC
    AC100_OUT_MXR_SRC_LMIX_DACR_OFF
    AC100_OUT_MXR_SRC_RMIX_DACL_OFF 1 0 ]

def ac100_codec_out_mixer_pregain_scale : Tlv := .scale ⟨-450, 150, 0⟩

def ac100_codec_mic_gain_scale : Tlv :=
  .range [(0, 0, ⟨0, 0, 0⟩), (1, 7, ⟨3000, 300, 0⟩)]

def ac100_codec_pre_gain_scale : Tlv := .scale ⟨-1200, 300, 0⟩

def ac100_codec_earpiece_vol_scale : Tlv :=
  .range [(0, 1, ⟨TLV_DB_GAIN_MUTE, 0, 1⟩), (2, 31, ⟨-4350, 150, 0⟩)]

def ac100_codec_lineout_vol_scale : Tlv := .scale ⟨-450, 150, 0⟩

def ac100_codec_hp_vol_scale : Tlv := .scale ⟨-6300, 100, 1⟩

def ac100_codec_hp_pa_delay_texts : List String := ["4ms", "8ms", "16ms", "32ms"]

def ac100_codec_hp_pa_delay_enum : soc_enum :=
  SOC_ENUM_SINGLE_DECL AC100_HPOUT_CTRL AC100_HPOUT_CTRL_STARTUP_DELAY_OFF
    ac100_codec_hp_pa_delay_texts

def ac100_codec_hp_pa_cur_texts : List String := ["low", "mid", "higher", "highest"]

def ac100_codec_hp_pa_cur_enum : soc_enum :=
  SOC_ENUM_SINGLE_DECL AC100_HPOUT_CTRL AC100_HPOUT_CTRL_OUTPUT_CURRENT_OFF
    ac100_codec_hp_pa_cur_texts

def ac100_codec_ep_pa_cur_enum : soc_enum :=
  SOC_ENUM_SINGLE_DECL AC100_ERPOUT_CTRL AC100_ERPOUT_CTRL_OUT_CURRENT_OFF
    ac100_codec_hp_pa_cur_texts

def ac100_codec_ep_pa_ramp_time_texts : List String := ["256ms", "512ms", "640ms", "768ms"]

def ac100_codec_ep_pa_ramp_time_enum : soc_enum :=
  SOC_ENUM_SINGLE_DECL AC100_ERPOUT_CTRL AC100_ERPOUT_CTRL_RAMP_TIME_OFF
    ac100_codec_ep_pa_ramp_time_texts

def ac100_codec_mic_bv_texts : List String := ["1.88V", "2.09V", "2.33V", "2.5V"]

def ac100_codec_mic1_bv_enum : soc_enum :=
  SOC_ENUM_SINGLE_DECL AC100_OUT_MXR_SRC_BST AC100_OUT_MXR_SRC_BST_MMICBIAS_VOLTAGE_OFF
    ac100_codec_mic_bv_texts

def ac100_codec_mic2_bv_enum : soc_enum :=
  SOC_ENUM_SINGLE_DECL AC100_OUT_MXR_SRC_BST AC100_OUT_MXR_SRC_BST_HMICBIAS_VOLTAGE_OFF
    ac100_codec_mic_bv_texts

/-- Volume / mute controls. -/
def ac100_codec_controls : List snd_kcontrol_new := [
  SOC_SINGLE_TLV "Mic1 Boost Volume" AC100_ADC_SRC_BST_CTRL
    AC100_ADC_SRC_BST_CTRL_MIC1BOOST_OFF 0x7 0
    ac100_codec_mic_gain_scale,
  SOC_SINGLE_TLV "Mic2 Boost Volume" AC100_ADC_SRC_BST_CTRL
    AC100_ADC_SRC_BST_CTRL_MIC2BOOST_OFF 0x7 0
    ac100_codec_mic_gain_scale,
  SOC_SINGLE_TLV "Line In Pre-Gain Volume" AC100_ADC_SRC_BST_CTRL
    AC100_ADC_SRC_BST_CTRL_LINEIN_DIFF_PREG_OFF 0x7 0
    ac100_codec_pre_gain_scale,
  SOC_SINGLE_TLV "Aux In Pre-Gain Volume" AC100_ADC_SRC_BST_CTRL
    AC100_ADC_SRC_BST_CTRL_AXI_PREG_OFF 0x7 0
    ac100_codec_pre_gain_scale,
  SOC_DOUBLE_TLV "ADC Gain Capture Volume" AC100_ADC_APC_CTRL
    AC100_ADC_APC_CTRL_ADCL_GAIN_OFF
    AC100_ADC_APC_CTRL_ADCR_GAIN_OFF 0x7 0
    ac100_codec_out_mixer_pregain_scale,
  SOC_SINGLE_TLV "Mic1 Playback Volume" AC100_OUT_MXR_SRC_BST
    AC100_OUT_MXR_SRC_BST_MIC1_GAIN_OFF
    0x7 0 ac100_codec_out_mixer_pregain_scale,
  SOC_SINGLE_TLV "Mic2 Playback Volume" AC100_OUT_MXR_SRC_BST
    AC100_OUT_MXR_SRC_BST_MIC2_GAIN_OFF
    0x7 0 ac100_codec_out_mixer_pregain_scale,
  SOC_SINGLE_TLV "Line In Playback Volume" AC100_OUT_MXR_SRC_BST
    AC100_OUT_MXR_SRC_BST_LINEIN_GAIN_OFF
    0x7 0 ac100_codec_out_mixer_pregain_scale,
  SOC_SINGLE_TLV "Aux In Playback Volume" AC100_OUT_MXR_SRC_BST
    AC100_OUT_MXR_SRC_BST_AX_GAIN_OFF
    0x7 0 ac100_codec_out_mixer_pregain_scale,
  SOC_SINGLE_TLV "Headphone Playback Volume"
    AC100_HPOUT_CTRL
    AC100_HPOUT_CTRL_VOLUME_OFF 0x3f 0
    ac100_codec_hp_vol_scale,
  SOC_SINGLE_TLV "Earpiece Playback Volume"
    AC100_ERPOUT_CTRL
    AC100_ERPOUT_CTRL_VOLUME_OFF 0x1f 0
    ac100_codec_earpiece_vol_scale,
  SOC_SINGLE_TLV "Speaker Playback Volume"
    AC100_SPKOUT_CTRL
    AC100_SPKOUT_CTRL_VOLUME_OFF 0x1f 0
    ac100_codec_earpiece_vol_scale,
  SOC_SINGLE_TLV "Line Out Playback Volume"
    AC100_LINEOUT_CTRL
    AC100_LINEOUT_CTRL_LINEOUT_GAIN_OFF 0x7 0
    ac100_codec_lineout_vol_scale,
  SOC_ENUM "Headphone Amplifier Startup Delay" ac100_codec_hp_pa_delay_enum,
  SOC_ENUM "Headphone Amplifier Current" ac100_codec_hp_pa_cur_enum,
  SOC_ENUM "Earpiece Amplifier Ramp Time" ac100_codec_ep_pa_ramp_time_enum,
  SOC_ENUM "Earpiece Amplifier Current" ac100_codec_ep_pa_cur_enum,
  SOC_ENUM "Mic1 Bias Voltage" ac100_codec_mic1_bv_enum,
  SOC_ENUM "Mic2 Bias Voltage" ac100_codec_mic2_bv_enum ]

/-! ### Headphone -/

def ac100_codec_hp_src_enum_text : List String := ["DAC", "Mixer"]

def ac100_codec_hp_src_enum : soc_enum :=
  SOC_ENUM_DOUBLE_DECL AC100_HPOUT_CTRL
    AC100_HPOUT_CTRL_LEFT_SRC_OFF
    AC100_HPOUT_CTRL_RIGHT_SRC_OFF
    ac100_codec_hp_src_enum_text

def ac100_codec_hp_src : List snd_kcontrol_new := [
  SOC_DAPM_ENUM "Headphone Source Playback Route" ac100_codec_hp_src_enum ]

def ac100_codec_hp_switch : snd_kcontrol_new :=
  SOC_DAPM_DOUBLE "Headphone Playback Switch"
    AC100_HPOUT_CTRL
    AC100_HPOUT_CTRL_LEFT_PA_MUTE_OFF
    AC100_HPOUT_CTRL_RIGHT_PA_MUTE_OFF 1 0

/-! ### Earpiece -/

def ac100_codec_earpiece_switch : snd_kcontrol_new :=
  SOC_DAPM_SINGLE "Playback Switch"
    AC100_ERPOUT_CTRL
    AC100_ERPOUT_CTRL_MUTE_OFF 1 0

def ac100_codec_earpiece_src_enum_text : List String :=
  ["DACR", "DACL", "Right Mixer", "Left Mixer"]

def ac100_codec_earpiece_src_enum : soc_enum :=
  SOC_ENUM_SINGLE_DECL AC100_ERPOUT_CTRL
    AC100_ERPOUT_CTRL_INPUT_SOURCE_OFF
    ac100_codec_earpiece_src_enum_text

def ac100_codec_earpiece_src : List snd_kcontrol_new := [
  SOC_DAPM_ENUM "Earpiece Source Playback Route" ac100_codec_earpiece_src_enum ]

/-! ### Speaker -/

def ac100_codec_spk_src_enum_text : List String := ["Stereo", "Mono"]

def ac100_codec_spk_src_enum : soc_enum :=
  SOC_ENUM_DOUBLE_DECL AC100_SPKOUT_CTRL
    AC100_SPKOUT_CTRL_LEFT_SRC_OFF
    AC100_SPKOUT_CTRL_RIGHT_SRC_OFF
    ac100_codec_spk_src_enum_text

def ac100_codec_spk_src : List snd_kcontrol_new := [
  SOC_DAPM_ENUM "Speaker Source Playback Route" ac100_codec_spk_src_enum ]

def ac100_codec_spk_switch : snd_kcontrol_new :=
  SOC_DAPM_DOUBLE "Speaker Playback Switch"
    AC100_SPKOUT_CTRL
    AC100_SPKOUT_CTRL_LEFT_EN_OFF
    AC100_SPKOUT_CTRL_RIGHT_EN_OFF 1 0

def ac100_codec_spk_inv_switch : snd_kcontrol_new :=
  SOC_DAPM_DOUBLE "Speaker Invert Switch"
    AC100_SPKOUT_CTRL
    AC100_SPKOUT_CTRL_LEFT_INV_EN_OFF
    AC100_SPKOUT_CTRL_RIGHT_INV_EN_OFF 1 0

/-! ### Line Out -/

def ac100_codec_lineout_mixer_controls : List snd_kcontrol_new := [
  SOC_DAPM_SINGLE "Mic1 Playback Switch"
    AC100_LINEOUT_CTRL
    AC100_LINEOUT_CTRL_LINEOUT_S0_OFF 1 0,
  SOC_DAPM_SINGLE "Mic2 Playback Switch"
    AC100_LINEOUT_CTRL
    AC100_LINEOUT_CTRL_LINEOUT_S1_OFF 1 0,
  SOC_DAPM_SINGLE "Right Mixer Playback Switch"
    AC100_LINEOUT_CTRL
    AC100_LINEOUT_CTRL_LINEOUT_S2_OFF 1 0,
  SOC_DAPM_SINGLE "Left Mixer Playback Switch"
    AC100_LINEOUT_CTRL
    AC100_LINEOUT_CTRL_LINEOUT_S3_OFF 1 0 ]

def ac100_codec_lineout_switch : snd_kcontrol_new :=
  SOC_DAPM_SINGLE "Playback Switch"
    AC100_LINEOUT_CTRL
    AC100_LINEOUT_CTRL_LINEOUT_EN_OFF 1 0

/-! ### Mic2 Boost Source -/

def ac100_codec_mic2boost_src_enum_text : List String := ["Mic2", "Mic3"]

def ac100_codec_mic2boost_src_enum : soc_enum :=
  SOC_ENUM_SINGLE_DECL AC100_ADC_SRC_BST_CTRL
    AC100_ADC_SRC_BST_CTRL_MIC2SLT_OFF
    ac100_codec_mic2boost_src_enum_text

def ac100_codec_mic2boost_src : List snd_kcontrol_new := [
  SOC_DAPM_ENUM "Mic2 Source Capture Route" ac100_codec_mic2boost_src_enum ]

/-! ## DAPM widgets (include/sound/soc-dapm.h, lines 704-826) -/

/-- The `enum snd_soc_dapm_type` values used by the driver. -/
inductive snd_soc_dapm_type
  | snd_soc_dapm_input
  | snd_soc_dapm_output
  | snd_soc_dapm_mux
  | snd_soc_dapm_mixer
  | snd_soc_dapm_pga
  | snd_soc_dapm_out_drv
  | snd_soc_dapm_adc
  | snd_soc_dapm_dac
  | snd_soc_dapm_switch
  | snd_soc_dapm_supply
  | snd_soc_dapm_regulator_supply
  deriving DecidableEq, Repr

open snd_soc_dapm_type

/-- The event callbacks a widget of this driver can carry. -/
inductive Hook
  | hp_power
  | regulator_event
  deriving DecidableEq, Repr

/-- `struct snd_soc_dapm_widget`; `reg = none` is `SND_SOC_NOPM`. -/
structure snd_soc_dapm_widget where
  id : snd_soc_dapm_type
  name : String
  reg : Option Reg
  shift : Nat
  on_val : Nat
  off_val : Nat
  kcontrol_news : List snd_kcontrol_new
  event : Option Hook
  event_flags : Nat
  deriving DecidableEq, Repr

/-- `SND_SOC_DAPM_INIT_REG_VAL(wreg, wshift, winvert)` together with the fields
every widget macro fills the same way. -/
def dapm_widget (id : snd_soc_dapm_type) (wname : String) (wreg : Option Reg)
    (wshift winvert : Nat) (wcontrols : List snd_kcontrol_new)
    (wevent : Option Hook) (wflags : Nat) : snd_soc_dapm_widget :=
  { id := id, name := wname, reg := wreg, shift := wshift,
    on_val := if winvert ≠ 0 then 0 else 1,
    off_val := if winvert ≠ 0 then 1 else 0,
    kcontrol_news := wcontrols, event := wevent, event_flags := wflags }

def SND_SOC_DAPM_DAC (wname : String) (wreg : Option Reg) (wshift winvert : Nat) :=
  dapm_widget snd_soc_dapm_dac wname wreg wshift winvert [] none 0

def SND_SOC_DAPM_ADC (wname : String) (wreg : Option Reg) (wshift winvert : Nat) :=
  dapm_widget snd_soc_dapm_adc wname wreg wshift winvert [] none 0

def SND_SOC_DAPM_REGULATOR_SUPPLY (wname : String) (wdelay wflags : Nat) :=
  { dapm_widget snd_soc_dapm_regulator_supply wname none wdelay 0 []
      (some Hook.regulator_event) (SND_SOC_DAPM_PRE_PMU ||| SND_SOC_DAPM_POST_PMD)
    with on_val := wflags, off_val := 0 }

def SND_SOC_DAPM_MUX (wname : String) (wreg : Option Reg) (wshift winvert : Nat)
    (wcontrols : List snd_kcontrol_new) :=
  dapm_widget snd_soc_dapm_mux wname wreg wshift winvert wcontrols none 0

def SND_SOC_DAPM_SWITCH (wname : String) (wreg : Option Reg) (wshift winvert : Nat)
    (wcontrols : snd_kcontrol_new) :=
  dapm_widget snd_soc_dapm_switch wname wreg wshift winvert [wcontrols] none 0

def SND_SOC_DAPM_OUT_DRV (wname : String) (wreg : Option Reg) (wshift winvert : Nat)
    (wcontrols : List snd_kcontrol_new) :=
  dapm_widget snd_soc_dapm_out_drv wname wreg wshift winvert wcontrols none 0

def SND_SOC_DAPM_SUPPLY (wname : String) (wreg : Option Reg) (wshift winvert : Nat)
    (wevent : Option Hook) (wflags : Nat) :=
  dapm_widget snd_soc_dapm_supply wname wreg wshift winvert [] wevent wflags

def SND_SOC_DAPM_OUTPUT (wname : String) :=
  dapm_widget snd_soc_dapm_output wname none 0 0 [] none 0

def SND_SOC_DAPM_INPUT (wname : String) :=
  dapm_widget snd_soc_dapm_input wname none 0 0 [] none 0

def SND_SOC_DAPM_MIXER (wname : String) (wreg : Option Reg) (wshift winvert : Nat)
    (wcontrols : List snd_kcontrol_new) :=
  dapm_widget snd_soc_dapm_mixer wname wreg wshift winvert wcontrols none 0

def SND_SOC_DAPM_PGA (wname : String) (wreg : Option Reg) (wshift winvert : Nat)
    (wcontrols : List snd_kcontrol_new) :=
  dapm_widget snd_soc_dapm_pga wname wreg wshift winvert wcontrols none 0

/-- `SND_SOC_NOPM`: the widget has no power bit. -/
def SND_SOC_NOPM : Option Reg := none

def ac100_codec_widgets : List snd_soc_dapm_widget := [
  -- DAC
  SND_SOC_DAPM_DAC "Left DAC" (some AC100_OUT_MXR_DAC_A_CTRL)
    AC100_OUT_MXR_DAC_A_CTRL_DAC_AL_EN_OFF 0,
  SND_SOC_DAPM_DAC "Right DAC" (some AC100_OUT_MXR_DAC_A_CTRL)
    AC100_OUT_MXR_DAC_A_CTRL_DAC_AR_EN_OFF 0,
  -- ADC
  SND_SOC_DAPM_ADC "Left ADC" (some AC100_ADC_APC_CTRL)
    AC100_ADC_APC_CTRL_ADCL_EN_OFF 0,
  SND_SOC_DAPM_ADC "Right ADC" (some AC100_ADC_APC_CTRL)
    AC100_ADC_APC_CTRL_ADCR_EN_OFF 0,
  -- Headphones
  SND_SOC_DAPM_REGULATOR_SUPPLY "cpvdd" 0 0,
  SND_SOC_DAPM_MUX "Left Headphone Source"
    SND_SOC_NOPM 0 0 ac100_codec_hp_src,
  SND_SOC_DAPM_MUX "Right Headphone Source"
    SND_SOC_NOPM 0 0 ac100_codec_hp_src,
  SND_SOC_DAPM_SWITCH "Left Headphone Switch"
    SND_SOC_NOPM 0 0 ac100_codec_hp_switch,
  SND_SOC_DAPM_SWITCH "Right Headphone Switch"
    SND_SOC_NOPM 0 0 ac100_codec_hp_switch,
  SND_SOC_DAPM_OUT_DRV "Left Headphone Amp"
    SND_SOC_NOPM 0 0 [],
  SND_SOC_DAPM_OUT_DRV "Right Headphone Amp"
    SND_SOC_NOPM 0 0 [],
  SND_SOC_DAPM_SUPPLY "Headphone Amp" (some AC100_HPOUT_CTRL)
    AC100_HPOUT_CTRL_PA_EN_OFF 0
    (some Hook.hp_power)
    (SND_SOC_DAPM_PRE_PMU ||| SND_SOC_DAPM_PRE_PMD),
  SND_SOC_DAPM_OUTPUT "HP",
  -- Earpiece
  SND_SOC_DAPM_MUX "Earpiece Source Playback Route"
    SND_SOC_NOPM 0 0 ac100_codec_earpiece_src,
  SND_SOC_DAPM_SWITCH "Earpiece"
    SND_SOC_NOPM 0 0 ac100_codec_earpiece_switch,
  SND_SOC_DAPM_OUT_DRV "Earpiece Amp" (some AC100_ERPOUT_CTRL)
    AC100_ERPOUT_CTRL_PA_EN_OFF 0 [],
  SND_SOC_DAPM_OUTPUT "EARPIECE",
  -- Speaker
  SND_SOC_DAPM_MUX "Left Speaker Source"
    SND_SOC_NOPM 0 0 ac100_codec_spk_src,
  SND_SOC_DAPM_MUX "Right Speaker Source"
    SND_SOC_NOPM 0 0 ac100_codec_spk_src,
  SND_SOC_DAPM_SWITCH "Left Speaker Switch"
    SND_SOC_NOPM 0 0 ac100_codec_spk_switch,
  SND_SOC_DAPM_SWITCH "Right Speaker Switch"
    SND_SOC_NOPM 0 0 ac100_codec_spk_switch,
  SND_SOC_DAPM_SWITCH "Left Speaker Invert Switch"
    SND_SOC_NOPM 0 0 ac100_codec_spk_inv_switch,
  SND_SOC_DAPM_SWITCH "Right Speaker Invert Switch"
    SND_SOC_NOPM 0 0 ac100_codec_spk_inv_switch,
  SND_SOC_DAPM_OUTPUT "SPKOUTL",
  SND_SOC_DAPM_OUTPUT "SPKOUTR",
  -- Line Out
  SND_SOC_DAPM_MIXER "Line Out Mixer" SND_SOC_NOPM 0 0
    ac100_codec_lineout_mixer_controls,
  SND_SOC_DAPM_SWITCH "Line Out"
    SND_SOC_NOPM 0 0 ac100_codec_lineout_switch,
  SND_SOC_DAPM_OUTPUT "LINEOUT",
  -- Microphone 1
  SND_SOC_DAPM_INPUT "MIC1",
  SND_SOC_DAPM_SUPPLY "MBIAS" (some AC100_ADC_APC_CTRL)
    AC100_ADC_APC_CTRL_MBIAS_EN_OFF
    0 none 0,
  SND_SOC_DAPM_PGA "Mic1 Amplifier" (some AC100_ADC_SRC_BST_CTRL)
    AC100_ADC_SRC_BST_CTRL_MIC1AMPEN_OFF 0 [],
  -- Microphone 2 and 3
  SND_SOC_DAPM_INPUT "MIC2",
  SND_SOC_DAPM_INPUT "MIC3",
  SND_SOC_DAPM_MUX "Mic2 Amplifier Source"
    SND_SOC_NOPM 0 0 ac100_codec_mic2boost_src,
  SND_SOC_DAPM_SUPPLY "HBIAS" (some AC100_ADC_APC_CTRL)
    AC100_ADC_APC_CTRL_HBIAS_EN_OFF
    0 none 0,
  SND_SOC_DAPM_PGA "Mic2 Amplifier" (some AC100_ADC_SRC_BST_CTRL)
    AC100_ADC_SRC_BST_CTRL_MIC2AMPEN_OFF 0 [],
  -- Line input
  SND_SOC_DAPM_INPUT "LINEIN",
  -- Aux input
  SND_SOC_DAPM_INPUT "AUXIN",
  -- Output mixers
  SND_SOC_DAPM_MIXER "Left Mixer" (some AC100_OUT_MXR_DAC_A_CTRL)
    AC100_OUT_MXR_DAC_A_CTRL_AL_MIX_EN_OFF 0
    ac100_codec_mixer_controls,
  SND_SOC_DAPM_MIXER "Right Mixer" (some AC100_OUT_MXR_DAC_A_CTRL)
    AC100_OUT_MXR_DAC_A_CTRL_AR_MIX_EN_OFF 0
    ac100_codec_mixer_controls,
  -- Input mixers
  SND_SOC_DAPM_MIXER "Left ADC Mixer" SND_SOC_NOPM 0 0
    ac100_codec_adc_mixer_controls,
  SND_SOC_DAPM_MIXER "Right ADC Mixer" SND_SOC_NOPM 0 0
    ac100_codec_adc_mixer_controls ]

/-! ## DAPM routes (lines 828-919) -/

/-- `struct snd_soc_dapm_route`: `{ sink, control, source }`; `control = none`
is the C `NULL`. -/
structure snd_soc_dapm_route where
  sink : String
  control : Option String
  source : String
  deriving DecidableEq, Repr

def ac100_codec_routes : List snd_soc_dapm_route := [
  -- Microphone Routes
  ⟨"Mic1 Amplifier", none, "MIC1"⟩,
  ⟨"Mic2 Amplifier", none, "Mic2 Amplifier Source"⟩,
  ⟨"Mic2 Amplifier Source", some "Mic2", "MIC2"⟩,
  ⟨"Mic2 Amplifier Source", some "Mic3", "MIC3"⟩,
  -- Mixer Routes
  ⟨"Left Mixer", some "Mic1 Playback Switch", "Mic1 Amplifier"⟩,
  ⟨"Left Mixer", some "Mic2 Playback Switch", "Mic2 Amplifier"⟩,
  ⟨"Left Mixer", some "Line In Differential Playback Switch", "LINEIN"⟩,
  ⟨"Left Mixer", some "Line In Playback Switch", "LINEIN"⟩,
  ⟨"Left Mixer", some "Aux In Playback Switch", "AUXIN"⟩,
  ⟨"Left Mixer", some "DAC Playback Switch", "Left DAC"⟩,
  ⟨"Left Mixer", some "DAC Reversed Playback Switch", "Right DAC"⟩,
  ⟨"Right Mixer", some "Mic1 Playback Switch", "Mic1 Amplifier"⟩,
  ⟨"Right Mixer", some "Mic2 Playback Switch", "Mic2 Amplifier"⟩,
  ⟨"Right Mixer", some "Line In Differential Playback Switch", "LINEIN"⟩,
  ⟨"Right Mixer", some "Line In Playback Switch", "LINEIN"⟩,
  ⟨"Right Mixer", some "Aux In Playback Switch", "AUXIN"⟩,
  ⟨"Right Mixer", some "DAC Playback Switch", "Right DAC"⟩,
  ⟨"Right Mixer", some "DAC Reversed Playback Switch", "Left DAC"⟩,
  -- ADC Mixer Routes
  ⟨"Left ADC Mixer", some "Mic1 Capture Switch", "Mic1 Amplifier"⟩,
  ⟨"Left ADC Mixer", some "Mic2 Capture Switch", "Mic2 Amplifier"⟩,
  ⟨"Left ADC Mixer", some "Line In Differential Capture Switch", "LINEIN"⟩,
  ⟨"Left ADC Mixer", some "Line In Capture Switch", "LINEIN"⟩,
  ⟨"Left ADC Mixer", some "Aux In Capture Switch", "AUXIN"⟩,
  ⟨"Left ADC Mixer", some "Mixer Capture Switch", "Left Mixer"⟩,
  ⟨"Left ADC Mixer", some "Mixer Reversed Capture Switch", "Right Mixer"⟩,
  ⟨"Right ADC Mixer", some "Mic1 Capture Switch", "Mic1 Amplifier"⟩,
  ⟨"Right ADC Mixer", some "Mic2 Capture Switch", "Mic2 Amplifier"⟩,
  ⟨"Right ADC Mixer", some "Line In Differential Capture Switch", "LINEIN"⟩,
  ⟨"Right ADC Mixer", some "Line In Capture Switch", "LINEIN"⟩,
  ⟨"Right ADC Mixer", some "Aux In Capture Switch", "AUXIN"⟩,
  ⟨"Right ADC Mixer", some "Mixer Capture Switch", "Right Mixer"⟩,
  ⟨"Right ADC Mixer", some "Mixer Reversed Capture Switch", "Left Mixer"⟩,
  -- ADC Routes
  ⟨"Left ADC", none, "Left ADC Mixer"⟩,
  ⟨"Right ADC", none, "Right ADC Mixer"⟩,
  -- Headphone Routes
  ⟨"Left Headphone Source", some "DAC", "Left DAC"⟩,
  ⟨"Left Headphone Source", some "Mixer", "Left Mixer"⟩,
  ⟨"Left Headphone Switch", some "Headphone Playback Switch", "Left Headphone Source"⟩,
  ⟨"Left Headphone Amp", none, "Left Headphone Switch"⟩,
  ⟨"Left Headphone Amp", none, "Headphone Amp"⟩,
  ⟨"HP", none, "Left Headphone Amp"⟩,
  ⟨"Right Headphone Source", some "DAC", "Right DAC"⟩,
  ⟨"Right Headphone Source", some "Mixer", "Right Mixer"⟩,
  ⟨"Right Headphone Switch", some "Headphone Playback Switch", "Right Headphone Source"⟩,
  ⟨"Right Headphone Amp", none, "Right Headphone Switch"⟩,
  ⟨"Right Headphone Amp", none, "Headphone Amp"⟩,
  ⟨"HP", none, "Right Headphone Amp"⟩,
  ⟨"Headphone Amp", none, "cpvdd"⟩,
  -- Speaker Routes
  ⟨"Left Speaker Source", some "Stereo", "Left Mixer"⟩,
  ⟨"Left Speaker Source", some "Mono", "Right Mixer"⟩,
  ⟨"Left Speaker Source", some "Mono", "Left Mixer"⟩,
  ⟨"Left Speaker Switch", some "Speaker Playback Switch", "Left Speaker Source"⟩,
  ⟨"SPKOUTL", none, "Left Speaker Switch"⟩,
  ⟨"Right Speaker Source", some "Stereo", "Right Mixer"⟩,
  ⟨"Right Speaker Source", some "Mono", "Right Mixer"⟩,
  ⟨"Right Speaker Source", some "Mono", "Left Mixer"⟩,
  ⟨"Right Speaker Switch", some "Speaker Playback Switch", "Right Speaker Source"⟩,
  ⟨"SPKOUTR", none, "Right Speaker Switch"⟩,
  -- Earpiece Routes
  ⟨"Earpiece Source Playback Route", some "DACR", "Right DAC"⟩,
  ⟨"Earpiece Source Playback Route", some "DACL", "Left DAC"⟩,
  ⟨"Earpiece Source Playback Route", some "Right Mixer", "Right Mixer"⟩,
  ⟨"Earpiece Source Playback Route", some "Left Mixer", "Left Mixer"⟩,
  ⟨"Earpiece", some "Playback Switch", "Earpiece Source Playback Route"⟩,
  ⟨"Earpiece Amp", none, "Earpiece"⟩,
  ⟨"EARPIECE", none, "Earpiece Amp"⟩,
  -- Line-out Routes
  ⟨"Line Out", some "Playback Switch", "Line Out Mixer"⟩,
  ⟨"Line Out Mixer", some "Mic1 Playback Switch", "Mic1 Amplifier"⟩,
  ⟨"Line Out Mixer", some "Mic2 Playback Switch", "Mic2 Amplifier"⟩,
  ⟨"Line Out Mixer", some "Right Mixer Playback Switch", "Right Mixer"⟩,
  ⟨"Line Out Mixer", some "Left Mixer Playback Switch", "Left Mixer"⟩,
  ⟨"LINEOUT", none, "Line Out"⟩ ]

/-! ## Observations on register values -/

/-- Bit `n` of a register value. -/
def bit_of (x n : Nat) : Bool := Nat.testBit x n

/-- The `HP_DCRM_EN` field (bits 8..11) of an `AC100_OUT_MXR_DAC_A_CTRL` value. -/
def hp_dcrm_en_of (x : Nat) : Nat :=
  (x >>> AC100_OUT_MXR_DAC_A_CTRL_HP_DCRM_EN_OFF) &&& 0xf

/-! ## Power transition of one widget -/

/-- Runs a widget's event callback on a working codec. The regulator callback
enables or disables a regulator and touches no codec register. -/
def run_event : Hook → Regmap → Nat → Int × Regmap
  | Hook.hp_power, s, e => ac100_codec_hp_power regmapBus s e
  | Hook.regulator_event, s, _ => (0, s)

/-- One action of a widget power transition: an event callback with its event
bit, or the masked write of the widget's power bit. -/
inductive SeqStep
  | event (h : Hook) (e : Nat)
  | power (r : Reg) (mask val : Nat)
  deriving DecidableEq, Repr

/-- Modelled from the spec: the Power Sequencer's transition of one node
(section 4.3), which lives in the DAPM core and not in this driver: "invoke the
pre-transition hook (if declared) with the intended direction, issue the
register write that toggles the node's power bit, invoke the post-transition
hook". A hook is declared for a direction when the widget has a callback and
its `event_flags` contain the corresponding event bit. -/
def power_transition_steps (w : snd_soc_dapm_widget) (power : Bool) : List SeqStep :=
  let pre := if power then SND_SOC_DAPM_PRE_PMU else SND_SOC_DAPM_PRE_PMD
  let post := if power then SND_SOC_DAPM_POST_PMU else SND_SOC_DAPM_POST_PMD
  let hook (e : Nat) : List SeqStep :=
    match w.event with
    | some h => if w.event_flags &&& e ≠ 0 then [SeqStep.event h e] else []
    | none => []
  let write : List SeqStep :=
    match w.reg with
    | some r => [SeqStep.power r (1 <<< w.shift)
                  ((if power then w.on_val else w.off_val) <<< w.shift)]
    | none => []
  hook pre ++ write ++ hook post

/-- Effect of one step on the register file. -/
def run_step (s : Regmap) : SeqStep → Regmap
  | SeqStep.event h e => (run_event h s e).2
  | SeqStep.power r mask val => (regmapBus.update_bits s r mask val).2

/-- Runs the steps in order and records, for each step, the register file at
the moment the step starts; also returns the final register file. -/
def run_steps : Regmap → List SeqStep → List (Regmap × SeqStep) × Regmap
  | s, [] => ([], s)
  | s, st :: rest =>
    let r := run_steps (run_step s st) rest
    ((s, st) :: r.1, r.2)

/-- The widget of a given name, as looked up by the DAPM core. -/
def widget_named (n : String) : Option snd_soc_dapm_widget :=
  ac100_codec_widgets.find? (fun w => w.name == n)

/-- The property "HP_DCRM_EN is toggled only while the amplifier is powered"
for one transition of widget `w` started in register state `s`: at every
callback step that changes the `HP_DCRM_EN` field, bit 11 (`PA_EN`) of
`AC100_HPOUT_CTRL` is 1 when the step starts. -/
def dcrm_toggled_only_while_powered (w : snd_soc_dapm_widget) (power : Bool)
    (s : Regmap) : Prop :=
  ∀ p ∈ (run_steps s (power_transition_steps w power)).1,
    ∀ h e, p.2 = SeqStep.event h e →
      hp_dcrm_en_of ((run_event h p.1 e).2 AC100_OUT_MXR_DAC_A_CTRL)
        ≠ hp_dcrm_en_of (p.1 AC100_OUT_MXR_DAC_A_CTRL) →
      bit_of (p.1 AC100_HPOUT_CTRL) AC100_HPOUT_CTRL_PA_EN_OFF = true

/-! ## The route graph -/

/-- The enumeration a mux widget selects with: that of its first control. -/
def mux_enum (w : snd_soc_dapm_widget) : Option soc_enum :=
  match w.kcontrol_news with
  | k :: _ =>
    match k.private_value with
    | kcontrol_value.enum e => some e
    | kcontrol_value.mixer _ => none
  | [] => none

/-- The labels a mux widget can select. -/
def mux_texts (w : snd_soc_dapm_widget) : List String :=
  match mux_enum w with
  | some e => e.texts
  | none => []

/-- The routes into `sink` that carry the control name `label`. -/
def routes_into (sink label : String) : List snd_soc_dapm_route :=
  ac100_codec_routes.filter (fun r => r.sink == sink && r.control == some label)

/-- A widget is attached when some route names it as sink or as source. -/
def attached (w : snd_soc_dapm_widget) : Prop :=
  ∃ r ∈ ac100_codec_routes, r.sink = w.name ∨ r.source = w.name

instance (w : snd_soc_dapm_widget) : Decidable (attached w) := by
  unfold attached; infer_instance

/-- The widgets that no route mentions. -/
def unrouted_widgets : List String :=
  ["Left Speaker Invert Switch", "Right Speaker Invert Switch", "MBIAS", "HBIAS"]

/-- A widget kind whose incoming routes are gated by a control of the widget. -/
def gated_kind (id : snd_soc_dapm_type) : Bool :=
  id == snd_soc_dapm_mux || id == snd_soc_dapm_mixer || id == snd_soc_dapm_switch

/-- The control name of a route belongs to the sink widget `w`: an enumeration
label for a mux, the name of one of the widget's switches for a mixer, the name
of the widget's single control for a switch; an ungated route asks for a sink of
another kind. -/
def control_resolves (w : snd_soc_dapm_widget) : Option String → Prop
  | some c =>
    match w.id with
    | snd_soc_dapm_mux => c ∈ mux_texts w
    | snd_soc_dapm_mixer => c ∈ w.kcontrol_news.map (fun k => k.name)
    | snd_soc_dapm_switch => w.kcontrol_news.map (fun k => k.name) = [c]
    | _ => False
  | none => gated_kind w.id = false

instance (w : snd_soc_dapm_widget) (c : Option String) : Decidable (control_resolves w c) := by
  unfold control_resolves
  cases c with
  | none => exact inferInstanceAs (Decidable (_ = _))
  | some c =>
    cases h : w.id <;> simp only [] <;> infer_instance

/-- Both ends of a route name declared widgets, and its control name belongs
to the sink. -/
def route_resolves (r : snd_soc_dapm_route) : Prop :=
  (∃ w ∈ ac100_codec_widgets, w.name = r.sink ∧ control_resolves w r.control)
  ∧ (∃ w ∈ ac100_codec_widgets, w.name = r.source)

instance (r : snd_soc_dapm_route) : Decidable (route_resolves r) := by
  unfold route_resolves; infer_instance

/-- A ranking of the widgets is a dependency order when every route goes from a
lower rank to a higher one. -/
def dependency_order (rank : String → Nat) : Prop :=
  ∀ r ∈ ac100_codec_routes, rank r.source < rank r.sink

instance (rank : String → Nat) : Decidable (dependency_order rank) := by
  unfold dependency_order; infer_instance

/-- A dependency order of the AC100 graph: the length of the longest chain of
routes that ends in the widget. -/
def ac100_rank (n : String) : Nat :=
  if n ∈ ["Mic2 Amplifier Source", "Headphone Amp", "Mic1 Amplifier"] then 1
  else if n ∈ ["Mic2 Amplifier"] then 2
  else if n ∈ ["Left Mixer", "Right Mixer"] then 3
  else if n ∈ ["Left ADC Mixer", "Right ADC Mixer", "Left Headphone Source",
      "Right Headphone Source", "Left Speaker Source", "Right Speaker Source",
      "Earpiece Source Playback Route", "Line Out Mixer"] then 4
  else if n ∈ ["Left ADC", "Right ADC", "Left Headphone Switch", "Right Headphone Switch",
      "Left Speaker Switch", "Right Speaker Switch", "Earpiece", "Line Out"] then 5
  else if n ∈ ["Left Headphone Amp", "Right Headphone Amp", "SPKOUTL", "SPKOUTR",
      "Earpiece Amp", "LINEOUT"] then 6
  else if n ∈ ["HP", "EARPIECE"] then 7
  else 0

/-! ## Register fields behind the controls -/

/-- A register field as its macros define it: the `_OFF` macro, the field mask
(the `_MASK` macro, or the value-encoding macro applied to all-ones where the
field has no `_MASK`), and the named value macros in source order. -/
structure reg_field where
  off : Nat
  mask : Nat
  values : List Nat
  deriving DecidableEq, Repr

/-- An enumerated control with the register field(s) it is bound to: the field
of its left shift and the field of its right shift (the same for a
single-channel enumeration). -/
structure enum_binding where
  name : String
  e : soc_enum
  left : reg_field
  right : reg_field
  deriving DecidableEq, Repr

def AC100_HPOUT_CTRL_STARTUP_DELAY : reg_field :=
  ⟨AC100_HPOUT_CTRL_STARTUP_DELAY_OFF, AC100_HPOUT_CTRL_STARTUP_DELAY_MASK,
    [AC100_HPOUT_CTRL_STARTUP_DELAY_4ms, AC100_HPOUT_CTRL_STARTUP_DELAY_8ms,
     AC100_HPOUT_CTRL_STARTUP_DELAY_16ms, AC100_HPOUT_CTRL_STARTUP_DELAY_32ms]⟩

def AC100_HPOUT_CTRL_OUTPUT_CURRENT_field : reg_field :=
  ⟨AC100_HPOUT_CTRL_OUTPUT_CURRENT_OFF, AC100_HPOUT_CTRL_OUTPUT_CURRENT 0xFFFFFFFF, []⟩

def AC100_ERPOUT_CTRL_OUT_CURRENT_field : reg_field :=
  ⟨AC100_ERPOUT_CTRL_OUT_CURRENT_OFF, AC100_ERPOUT_CTRL_OUT_CURRENT 0xFFFFFFFF, []⟩

def AC100_ERPOUT_CTRL_RAMP_TIME : reg_field :=
  ⟨AC100_ERPOUT_CTRL_RAMP_TIME_OFF, AC100_ERPOUT_CTRL_RAMP_TIME_MASK,
    [AC100_ERPOUT_CTRL_RAMP_TIME_256ms, AC100_ERPOUT_CTRL_RAMP_TIME_512ms,
     AC100_ERPOUT_CTRL_RAMP_TIME_640ms, AC100_ERPOUT_CTRL_RAMP_TIME_768ms]⟩

def AC100_OUT_MXR_SRC_BST_MMICBIAS_VOLTAGE : reg_field :=
  ⟨AC100_OUT_MXR_SRC_BST_MMICBIAS_VOLTAGE_OFF, AC100_OUT_MXR_SRC_BST_MMICBIAS_VOLTAGE_MASK,
    [AC100_OUT_MXR_SRC_BST_MMICBIAS_VOLTAGE_1_88V, AC100_OUT_MXR_SRC_BST_MMICBIAS_VOLTAGE_2_09V,
     AC100_OUT_MXR_SRC_BST_MMICBIAS_VOLTAGE_2_33V, AC100_OUT_MXR_SRC_BST_MMICBIAS_VOLTAGE_2_50V]⟩

def AC100_OUT_MXR_SRC_BST_HMICBIAS_VOLTAGE : reg_field :=
  ⟨AC100_OUT_MXR_SRC_BST_HMICBIAS_VOLTAGE_OFF, AC100_OUT_MXR_SRC_BST_HMICBIAS_VOLTAGE_MASK,
    [AC100_OUT_MXR_SRC_BST_HMICBIAS_VOLTAGE_1_88V, AC100_OUT_MXR_SRC_BST_HMICBIAS_VOLTAGE_2_09V,
     AC100_OUT_MXR_SRC_BST_HMICBIAS_VOLTAGE_2_33V, AC100_OUT_MXR_SRC_BST_HMICBIAS_VOLTAGE_2_50V]⟩

def AC100_HPOUT_CTRL_LEFT_SRC : reg_field :=
  ⟨AC100_HPOUT_CTRL_LEFT_SRC_OFF, AC100_HPOUT_CTRL_LEFT_SRC_MASK,
    [AC100_HPOUT_CTRL_LEFT_SRC_DACL, AC100_HPOUT_CTRL_LEFT_SRC_LAMIX]⟩

def AC100_HPOUT_CTRL_RIGHT_SRC : reg_field :=
  ⟨AC100_HPOUT_CTRL_RIGHT_SRC_OFF, AC100_HPOUT_CTRL_RIGHT_SRC_MASK,
    [AC100_HPOUT_CTRL_RIGHT_SRC_DACR, AC100_HPOUT_CTRL_RIGHT_SRC_RAMIX]⟩

def AC100_ERPOUT_CTRL_INPUT_SOURCE : reg_field :=
  ⟨AC100_ERPOUT_CTRL_INPUT_SOURCE_OFF, AC100_ERPOUT_CTRL_INPUT_SOURCE_MASK,
    [AC100_ERPOUT_CTRL_INPUT_SOURCE_DACR, AC100_ERPOUT_CTRL_INPUT_SOURCE_DACL,
     AC100_ERPOUT_CTRL_INPUT_SOURCE_RAMIX, AC100_ERPOUT_CTRL_INPUT_SOURCE_LAMIX]⟩

def AC100_SPKOUT_CTRL_LEFT_SRC : reg_field :=
  ⟨AC100_SPKOUT_CTRL_LEFT_SRC_OFF, AC100_SPKOUT_CTRL_LEFT_SRC_MASK,
    [AC100_SPKOUT_CTRL_LEFT_SRC_MIXL, AC100_SPKOUT_CTRL_LEFT_SRC_MIXL_MIXR]⟩

def AC100_SPKOUT_CTRL_RIGHT_SRC : reg_field :=
  ⟨AC100_SPKOUT_CTRL_RIGHT_SRC_OFF, AC100_SPKOUT_CTRL_RIGHT_SRC_MASK,
    [AC100_SPKOUT_CTRL_RIGHT_SRC_MIXR, AC100_SPKOUT_CTRL_RIGHT_SRC_MIXL_MIXR]⟩

def AC100_ADC_SRC_BST_CTRL_MIC2SLT : reg_field :=
  ⟨AC100_ADC_SRC_BST_CTRL_MIC2SLT_OFF, AC100_ADC_SRC_BST_CTRL_MIC2SLT_MASK,
    [AC100_ADC_SRC_BST_CTRL_MIC2SLT_MIC2, AC100_ADC_SRC_BST_CTRL_MIC2SLT_MIC3]⟩

/-- Every enumerated control declared in the file, with the field named by the
`_OFF` macro(s) of its declaration. -/
def ac100_enum_bindings : List enum_binding := [
  ⟨"Headphone Amplifier Startup Delay", ac100_codec_hp_pa_delay_enum,
    AC100_HPOUT_CTRL_STARTUP_DELAY, AC100_HPOUT_CTRL_STARTUP_DELAY⟩,
  ⟨"Headphone Amplifier Current", ac100_codec_hp_pa_cur_enum,
    AC100_HPOUT_CTRL_OUTPUT_CURRENT_field, AC100_HPOUT_CTRL_OUTPUT_CURRENT_field⟩,
  ⟨"Earpiece Amplifier Ramp Time", ac100_codec_ep_pa_ramp_time_enum,
    AC100_ERPOUT_CTRL_RAMP_TIME, AC100_ERPOUT_CTRL_RAMP_TIME⟩,
  ⟨"Earpiece Amplifier Current", ac100_codec_ep_pa_cur_enum,
    AC100_ERPOUT_CTRL_OUT_CURRENT_field, AC100_ERPOUT_CTRL_OUT_CURRENT_field⟩,
  ⟨"Mic1 Bias Voltage", ac100_codec_mic1_bv_enum,
    AC100_OUT_MXR_SRC_BST_MMICBIAS_VOLTAGE, AC100_OUT_MXR_SRC_BST_MMICBIAS_VOLTAGE⟩,
  ⟨"Mic2 Bias Voltage", ac100_codec_mic2_bv_enum,
    AC100_OUT_MXR_SRC_BST_HMICBIAS_VOLTAGE, AC100_OUT_MXR_SRC_BST_HMICBIAS_VOLTAGE⟩,
  ⟨"Headphone Source Playback Route", ac100_codec_hp_src_enum,
    AC100_HPOUT_CTRL_LEFT_SRC, AC100_HPOUT_CTRL_RIGHT_SRC⟩,
  ⟨"Earpiece Source Playback Route", ac100_codec_earpiece_src_enum,
    AC100_ERPOUT_CTRL_INPUT_SOURCE, AC100_ERPOUT_CTRL_INPUT_SOURCE⟩,
  ⟨"Speaker Source Playback Route", ac100_codec_spk_src_enum,
    AC100_SPKOUT_CTRL_LEFT_SRC, AC100_SPKOUT_CTRL_RIGHT_SRC⟩,
  ⟨"Mic2 Source Capture Route", ac100_codec_mic2boost_src_enum,
    AC100_ADC_SRC_BST_CTRL_MIC2SLT, AC100_ADC_SRC_BST_CTRL_MIC2SLT⟩ ]

/-- The enumerations reachable from the control and widget tables, by control
name. -/
def declared_enums : List (String × soc_enum) :=
  ((ac100_codec_controls ++ (ac100_codec_widgets.map (fun w => w.kcontrol_news)).flatten).filterMap
    (fun k => match k.private_value with
      | kcontrol_value.enum e => some (k.name, e)
      | kcontrol_value.mixer _ => none)).dedup

/-- The part of the enumeration/field agreement that is a finite check: the
shift is the field offset, the field mask is `w` ones at that offset, there are
`2^w` labels, the enumeration's own read mask is `w` ones, and the named value
macros, when the field has them, are as many as the labels with the `i`-th
equal to `i` moved to the field offset. -/
def enum_field_check (e : soc_enum) (shift : Nat) (f : reg_field) (w : Nat) : Prop :=
  shift = f.off
  ∧ f.mask = (2 ^ w - 1) <<< f.off
  ∧ e.texts.length = 2 ^ w
  ∧ e.items = e.texts.length
  ∧ e.mask = 2 ^ w - 1
  ∧ (f.values = [] ∨ f.values.length = e.texts.length)
  ∧ (∀ i, i < f.values.length → f.values.getD i 0 = i <<< f.off)

instance (e : soc_enum) (shift : Nat) (f : reg_field) (w : Nat) :
    Decidable (enum_field_check e shift f w) := by
  unfold enum_field_check; infer_instance

/-- Agreement of an enumeration with a register field, for a field of width `w`:
the finite check, and every raw value of the field, however the register is
set, is an index into the label list. -/
def enum_field_ok (e : soc_enum) (shift : Nat) (f : reg_field) (w : Nat) : Prop :=
  enum_field_check e shift f w
  ∧ (∀ raw : Nat, (raw &&& f.mask) >>> f.off < e.texts.length)
  ∧ (∀ raw : Nat, (raw >>> shift) &&& e.mask < e.texts.length)

/-- A value-encoding macro `F(v) = ((v) & m) << off` with its `_OFF` macro and
the mask literal `m` of its body. -/
structure field_macro where
  F : Nat → Nat
  off : Nat
  m : Nat

/-- The value-encoding macro defined for a register at a given bit offset. -/
def value_macro_at : Reg → Nat → Option field_macro
  | AC100_ADC_APC_CTRL, 12 =>
    some ⟨AC100_ADC_APC_CTRL_ADCR_GAIN, AC100_ADC_APC_CTRL_ADCR_GAIN_OFF, 0x7⟩
  | AC100_ADC_APC_CTRL, 8 =>
    some ⟨AC100_ADC_APC_CTRL_ADCL_GAIN, AC100_ADC_APC_CTRL_ADCL_GAIN_OFF, 0x7⟩
  | AC100_ADC_SRC_BST_CTRL, 12 =>
    some ⟨AC100_ADC_SRC_BST_CTRL_MIC1BOOST, AC100_ADC_SRC_BST_CTRL_MIC1BOOST_OFF, 0x7⟩
  | AC100_ADC_SRC_BST_CTRL, 8 =>
    some ⟨AC100_ADC_SRC_BST_CTRL_MIC2BOOST, AC100_ADC_SRC_BST_CTRL_MIC2BOOST_OFF, 0x7⟩
  | AC100_ADC_SRC_BST_CTRL, 4 =>
    some ⟨AC100_ADC_SRC_BST_CTRL_LINEIN_DIFF_PREG, AC100_ADC_SRC_BST_CTRL_LINEIN_DIFF_PREG_OFF,
      0x7⟩
  | AC100_ADC_SRC_BST_CTRL, 0 =>
    some ⟨AC100_ADC_SRC_BST_CTRL_AXI_PREG, AC100_ADC_SRC_BST_CTRL_AXI_PREG_OFF, 0x7⟩
  | AC100_OUT_MXR_DAC_A_CTRL, 8 =>
    some ⟨AC100_OUT_MXR_DAC_A_CTRL_HP_DCRM_EN, AC100_OUT_MXR_DAC_A_CTRL_HP_DCRM_EN_OFF, 0xf⟩
  | AC100_OUT_MXR_SRC_BST, 9 =>
    some ⟨AC100_OUT_MXR_SRC_BST_AX_GAIN, AC100_OUT_MXR_SRC_BST_AX_GAIN_OFF, 0x7⟩
  | AC100_OUT_MXR_SRC_BST, 6 =>
    some ⟨AC100_OUT_MXR_SRC_BST_MIC1_GAIN, AC100_OUT_MXR_SRC_BST_MIC1_GAIN_OFF, 0x7⟩
  | AC100_OUT_MXR_SRC_BST, 3 =>
    some ⟨AC100_OUT_MXR_SRC_BST_MIC2_GAIN, AC100_OUT_MXR_SRC_BST_MIC2_GAIN_OFF, 0x7⟩
  | AC100_OUT_MXR_SRC_BST, 0 =>
    some ⟨AC100_OUT_MXR_SRC_BST_LINEIN_GAIN, AC100_OUT_MXR_SRC_BST_LINEIN_GAIN_OFF, 0x7⟩
  | AC100_HPOUT_CTRL, 4 =>
    some ⟨AC100_HPOUT_CTRL_VOLUME, AC100_HPOUT_CTRL_VOLUME_OFF, 0x3f⟩
  | AC100_HPOUT_CTRL, 0 =>
    some ⟨AC100_HPOUT_CTRL_OUTPUT_CURRENT, AC100_HPOUT_CTRL_OUTPUT_CURRENT_OFF, 0x3⟩
  | AC100_ERPOUT_CTRL, 9 =>
    some ⟨AC100_ERPOUT_CTRL_OUT_CURRENT, AC100_ERPOUT_CTRL_OUT_CURRENT_OFF, 0x3⟩
  | AC100_ERPOUT_CTRL, 0 =>
    some ⟨AC100_ERPOUT_CTRL_VOLUME, AC100_ERPOUT_CTRL_VOLUME_OFF, 0x1f⟩
  | AC100_SPKOUT_CTRL, 0 =>
    some ⟨AC100_SPKOUT_CTRL_VOLUME, AC100_SPKOUT_CTRL_VOLUME_OFF, 0x1f⟩
  | AC100_LINEOUT_CTRL, 5 =>
    some ⟨AC100_LINEOUT_CTRL_LINEOUT_GAIN, AC100_LINEOUT_CTRL_LINEOUT_GAIN_OFF, 0x7⟩
  | _, _ => none

/-- The volume controls of `ac100_codec_controls`: the entries bound to a
register field through a `soc_mixer_control`. -/
def gain_controls : List (String × soc_mixer_control) :=
  ac100_codec_controls.filterMap (fun k =>
    match k.private_value with
    | kcontrol_value.mixer mc => some (k.name, mc)
    | kcontrol_value.enum _ => none)

/-- A gain channel (register, shift, declared maximum) agrees with the
value-encoding macro `f`: the macro is `((v) & m) << off` at the channel's
shift, the maximum is `m`, the mask the kernel reads the field with, computed
from the maximum as `(1 << fls(max)) - 1`, is `m` too, every in-domain value
survives encoding, and every raw field value is at most the maximum. -/
def gain_field_ok (shift max : Nat) (f : field_macro) : Prop :=
  (∀ v, f.F v = (v &&& f.m) <<< f.off)
  ∧ f.off = shift
  ∧ max = f.m
  ∧ (1 <<< fls max) - 1 = f.m
  ∧ (∀ v, v ≤ max → (f.F v >>> f.off) &&& f.m = v)
  ∧ (∀ raw : Nat, (raw >>> shift) &&& f.m ≤ max)

/-- A route leads from widget `a` to widget `b`. -/
def route_edge (a b : String) : Prop :=
  ∃ r ∈ ac100_codec_routes, r.source = a ∧ r.sink = b


/-! ## The bias-level handler (lines 921-929) -/

/-- The `enum snd_soc_bias_level` of include/sound/soc-dapm.h. -/
inductive snd_soc_bias_level
  | SND_SOC_BIAS_OFF
  | SND_SOC_BIAS_STANDBY
  | SND_SOC_BIAS_PREPARE
  | SND_SOC_BIAS_ON
  deriving DecidableEq, Repr

open snd_soc_bias_level

/-- `ac100_codec_set_bias_level(component, level)`: the return value, the
component after the call, and the lines sent to the kernel log. The function
issues no register access; for `SND_SOC_BIAS_OFF` it logs one line. -/
def ac100_codec_set_bias_level {σ : Type} (component : σ) (level : snd_soc_bias_level) :
    Int × σ × List String :=
  let log := if level = SND_SOC_BIAS_OFF then ["XX: idle bias off\n"] else []
  (0, component, log)

/-- The widget power-control bits bound in `ac100_codec_widgets`: widget name,
register and bit position of every widget whose register is not
`SND_SOC_NOPM`. -/
def widget_power_bits : List (String × Reg × Nat) :=
  ac100_codec_widgets.filterMap (fun w =>
    match w.reg with
    | some r => some (w.name, r, w.shift)
    | none => none)

/-- Every widget power-control bit is 0 in register state `s`. -/
def all_powered_down (s : Regmap) : Prop :=
  ∀ p ∈ widget_power_bits, bit_of (s p.2.1) p.2.2 = false

/-! ## Register bits bound by controls and widgets -/

/-- Who binds a register field: a user control or a widget power bit. -/
inductive binding_kind
  | control
  | power
  deriving DecidableEq, Repr

/-- One register field bound by the driver: the kind and name of its owner, the
register, and the mask of the bits it covers. -/
structure field_binding where
  kind : binding_kind
  owner : String
  reg : Reg
  mask : Nat
  deriving DecidableEq, Repr

/-- The fields of a control, one per channel: for a `soc_mixer_control` the
field read with mask `(1 << fls(max)) - 1` at the left and at the right shift,
for a `soc_enum` the field read with the enumeration mask at its two shifts. -/
def control_fields (k : snd_kcontrol_new) : List field_binding :=
  match k.private_value with
  | kcontrol_value.mixer mc =>
    [⟨binding_kind.control, k.name, mc.reg, ((1 <<< fls mc.max) - 1) <<< mc.shift⟩,
     ⟨binding_kind.control, k.name, mc.reg, ((1 <<< fls mc.max) - 1) <<< mc.rshift⟩]
  | kcontrol_value.enum e =>
    [⟨binding_kind.control, k.name, e.reg, e.mask <<< e.shift_l⟩,
     ⟨binding_kind.control, k.name, e.reg, e.mask <<< e.shift_r⟩]

/-- The power bit of a widget (`mask = 1` at the widget's shift), if it has one. -/
def widget_power_field (w : snd_soc_dapm_widget) : List field_binding :=
  match w.reg with
  | some r => [⟨binding_kind.power, w.name, r, 1 <<< w.shift⟩]
  | none => []

/-- Every control declared in the file: `ac100_codec_controls` and the controls
attached to the widgets. -/
def all_controls : List snd_kcontrol_new :=
  ac100_codec_controls ++ (ac100_codec_widgets.map (fun w => w.kcontrol_news)).flatten

/-- The distinct register fields bound in the file: every channel of every
control and every widget power bit, each listed once. -/
def all_bindings : List field_binding :=
  ((all_controls.map control_fields).flatten
    ++ (ac100_codec_widgets.map widget_power_field).flatten).dedup

/-- Two bindings do not share a bit of a register. -/
def bindings_disjoint (a b : field_binding) : Prop :=
  a.reg = b.reg → a.mask &&& b.mask = 0

instance (a b : field_binding) : Decidable (bindings_disjoint a b) := by
  unfold bindings_disjoint; infer_instance

/-- The left and right bit positions of the two-channel switches of a control
table. -/
def stereo_bits (controls : List snd_kcontrol_new) : List (Reg × Nat × Nat) :=
  controls.filterMap (fun k =>
    match k.private_value with
    | kcontrol_value.mixer mc => some (mc.reg, mc.shift, mc.rshift)
    | kcontrol_value.enum _ => none)

/-- The layout of a table of stereo switches: all in register `reg`, each a
one-bit switch with the left bit in 0..6 and the right bit seven above it (so
in 7..13), the left bits pairwise distinct and the right bits pairwise
distinct. -/
def stereo_layout (reg : Reg) (controls : List snd_kcontrol_new) : Prop :=
  (stereo_bits controls).length = controls.length
  ∧ (∀ k ∈ controls, ∀ mc, k.private_value = kcontrol_value.mixer mc → mc.max = 1)
  ∧ (∀ b ∈ stereo_bits controls,
      b.1 = reg ∧ b.2.1 ≤ 6 ∧ 7 ≤ b.2.2 ∧ b.2.2 ≤ 13 ∧ b.2.2 = b.2.1 + 7 ∧ b.2.1 ≠ b.2.2)
  ∧ ((stereo_bits controls).map (fun b => b.2.1)).Nodup
  ∧ ((stereo_bits controls).map (fun b => b.2.2)).Nodup

/-! ## Probe (lines 941-970) -/

/-- `ENOMEM`. -/
def ENOMEM : Int := 12

/-- What the kernel services called by `ac100_codec_probe` answer: whether
`devm_kzalloc` returns memory, the return value of
`snd_soc_component_initialize`, and the return value of
`snd_soc_add_component`. -/
structure probe_env where
  kzalloc_ok : Bool
  component_init_ret : Int
  add_component_ret : Int
  deriving DecidableEq, Repr

/-- The calls `ac100_codec_probe` makes, in order of appearance in its body;
`component_init` is the call of `snd_soc_component_initialize`. -/
inductive probe_call
  | dev_get_drvdata
  | devm_kzalloc
  | platform_set_drvdata
  | init_regmap
  | component_init
  | add_component
  | dev_err (ret : Int)
  deriving DecidableEq, Repr

/-- `ac100_codec_probe(pdev)`: the return value and the calls made. -/
def ac100_codec_probe (env : probe_env) : Int × List probe_call :=
  if env.kzalloc_ok = false then
    (-ENOMEM, [probe_call.dev_get_drvdata, probe_call.devm_kzalloc])
  else
    let ret := env.component_init_ret
    if ret < 0 then
      (ret, [probe_call.dev_get_drvdata, probe_call.devm_kzalloc,
        probe_call.platform_set_drvdata, probe_call.init_regmap, probe_call.component_init])
    else
      let ret := env.add_component_ret
      if ret ≠ 0 then
        (ret, [probe_call.dev_get_drvdata, probe_call.devm_kzalloc,
          probe_call.platform_set_drvdata, probe_call.init_regmap, probe_call.component_init,
          probe_call.add_component, probe_call.dev_err ret])
      else
        (ret, [probe_call.dev_get_drvdata, probe_call.devm_kzalloc,
          probe_call.platform_set_drvdata, probe_call.init_regmap, probe_call.component_init,
          probe_call.add_component])

/-! ## Left/right mirror of the route table -/

/-- The left/right mirror of a widget name or control label: the leading
"Left " and "Right " are exchanged, "SPKOUTL" with "SPKOUTR", "DACL" with
"DACR"; every other name is kept. -/
def swap_lr (n : String) : String :=
  if "Left ".data.isPrefixOf n.data then String.mk ("Right ".data ++ n.data.drop 5)
  else if "Right ".data.isPrefixOf n.data then String.mk ("Left ".data ++ n.data.drop 6)
  else if n = "SPKOUTL" then "SPKOUTR"
  else if n = "SPKOUTR" then "SPKOUTL"
  else if n = "DACL" then "DACR"
  else if n = "DACR" then "DACL"
  else n

/-- The mirror of a route. -/
def swap_route (r : snd_soc_dapm_route) : snd_soc_dapm_route :=
  ⟨swap_lr r.sink, r.control.map swap_lr, swap_lr r.source⟩

/-! ## dB scales of the volume controls (include/uapi/sound/tlv.h) -/

/-- The gain, in 0.01 dB, that a `TLV_DB_SCALE_ITEM` assigns to control value
`v` when the item starts at control value `rangemin`: `TLV_DB_GAIN_MUTE` at the
lowest value of an item with the mute flag, and `min + (v - rangemin) * step`
otherwise. -/
def tlv_scale_db (it : tlv_db_scale_item) (rangemin v : Nat) : Int :=
  if it.mute ≠ 0 ∧ v ≤ rangemin then TLV_DB_GAIN_MUTE
  else ((v : Int) - (rangemin : Int)) * it.step + it.min

/-- The gain a dB scale assigns to control value `v`, if any: a plain scale
starts at control value 0; a range scale uses the first item whose index range
contains `v`. -/
def tlv_db : Tlv → Nat → Option Int
  | Tlv.scale it, v => some (tlv_scale_db it 0 v)
  | Tlv.range items, v =>
    match items.find? (fun x => decide (x.1 ≤ v) && decide (v ≤ x.2.1)) with
    | some x => some (tlv_scale_db x.2.2 x.1 v)
    | none => none

/-- The index ranges of a range scale are non-empty, follow one another without
gap or overlap starting at `lo`, and end at `max`. -/
def ranges_cover : List (Nat × Nat × tlv_db_scale_item) → Nat → Nat → Bool
  | [], lo, max => decide (lo = max + 1)
  | x :: rest, lo, max => decide (x.1 = lo) && decide (x.1 ≤ x.2.1) && ranges_cover rest (x.2.1 + 1) max

/-- The volume controls of `ac100_codec_controls` with their declared maximum
and dB scale. -/
def volume_controls : List (String × Nat × Tlv) :=
  ac100_codec_controls.filterMap (fun k =>
    match k.private_value, k.tlv with
    | kcontrol_value.mixer mc, some t => some (k.name, mc.max, t)
    | _, _ => none)

/-- Order on assigned gains: both defined and the first at most the second. -/
def db_le : Option Int → Option Int → Prop
  | some a, some b => a ≤ b
  | _, _ => False

instance (a b : Option Int) : Decidable (db_le a b) := by
  cases a <;> cases b <;> unfold db_le <;> infer_instance

/-- A dB scale fits a control with values `0..max`: a range scale covers exactly
`[0, max]`; every value in `[0, max]` is assigned a gain, which is
`TLV_DB_GAIN_MUTE` or above it; and the gain does not decrease from one value to
the next. -/
def tlv_fits (max : Nat) (t : Tlv) : Prop :=
  (match t with
    | Tlv.range items => ranges_cover items 0 max = true
    | Tlv.scale _ => True)
  ∧ (∀ v, v < max + 1 → db_le (some TLV_DB_GAIN_MUTE) (tlv_db t v))
  ∧ (∀ v, v < max → db_le (tlv_db t v) (tlv_db t (v + 1)))

instance (max : Nat) (t : Tlv) : Decidable (tlv_fits max t) := by
  unfold tlv_fits
  cases t <;> simp only [] <;> infer_instance

/-! ## Signal paths through the route graph -/

/-- The routes as directed edges, source first. -/
def route_edges : List (String × String) :=
  ac100_codec_routes.map (fun r => (r.source, r.sink))

/-- The routes reversed, sink first. -/
def route_edges_rev : List (String × String) :=
  ac100_codec_routes.map (fun r => (r.sink, r.source))

/-- One round of graph search: the set `S` together with the heads of the
edges that start in `S`. -/
def reach_step (edges : List (String × String)) (S : List String) : List String :=
  (S ++ (edges.filter (fun e => decide (e.1 ∈ S))).map (fun e => e.2)).dedup

/-- The nodes found from `S` in `n` rounds of graph search. -/
def reach (edges : List (String × String)) : Nat → List String → List String
  | 0, S => S
  | n + 1, S => reach edges n (reach_step edges S)

/-- The names that occur in the route table, as sink or as source. -/
def routed_names : List String :=
  (ac100_codec_routes.map (fun r => [r.sink, r.source])).flatten.dedup

/-- Whether a name is the sink of some route. -/
def has_incoming (n : String) : Bool :=
  ac100_codec_routes.any (fun r => r.sink == n)

/-- The inputs and DACs without an incoming route. -/
def signal_source_names : List String :=
  (ac100_codec_widgets.filter (fun w =>
    (w.id == snd_soc_dapm_input || w.id == snd_soc_dapm_dac) && !has_incoming w.name)).map
    (fun w => w.name)

/-- The path sources: inputs, DACs and regulator supplies (cpvdd) without an
incoming route. -/
def source_names : List String :=
  (ac100_codec_widgets.filter (fun w =>
    (w.id == snd_soc_dapm_input || w.id == snd_soc_dapm_dac
      || w.id == snd_soc_dapm_regulator_supply) && !has_incoming w.name)).map
    (fun w => w.name)

/-- The path sinks: outputs and ADCs. -/
def sink_names : List String :=
  (ac100_codec_widgets.filter (fun w =>
    w.id == snd_soc_dapm_output || w.id == snd_soc_dapm_adc)).map (fun w => w.name)

/-- Widget `n` lies on a directed path of routes from a source to a sink. -/
def on_signal_path (n : String) : Prop :=
  ∃ s ∈ source_names, ∃ t ∈ sink_names,
    Relation.ReflTransGen route_edge s n ∧ Relation.ReflTransGen route_edge n t

/-! ## The register fields as the macros define them -/

/-- Every field that has an `_OFF` and a `_MASK` macro, in source order: the
field name with its offset, its mask and its named value constants. -/
def ac100_mask_fields : List (String × reg_field) := [
  ("AC100_ADC_APC_CTRL_ADCR_EN",
    ⟨AC100_ADC_APC_CTRL_ADCR_EN_OFF, AC100_ADC_APC_CTRL_ADCR_EN_MASK,
     [AC100_ADC_APC_CTRL_ADCR_EN_DISABLED,
      AC100_ADC_APC_CTRL_ADCR_EN_ENABLED]⟩),
  ("AC100_ADC_APC_CTRL_ADCL_EN",
    ⟨AC100_ADC_APC_CTRL_ADCL_EN_OFF, AC100_ADC_APC_CTRL_ADCL_EN_MASK,
     [AC100_ADC_APC_CTRL_ADCL_EN_DISABLED,
      AC100_ADC_APC_CTRL_ADCL_EN_ENABLED]⟩),
  ("AC100_ADC_APC_CTRL_MBIAS_EN",
    ⟨AC100_ADC_APC_CTRL_MBIAS_EN_OFF, AC100_ADC_APC_CTRL_MBIAS_EN_MASK,
     [AC100_ADC_APC_CTRL_MBIAS_EN_DISABLED,
      AC100_ADC_APC_CTRL_MBIAS_EN_ENABLED]⟩),
  ("AC100_ADC_APC_CTRL_MMIC_BIAS_CHOPPER_EN",
    ⟨AC100_ADC_APC_CTRL_MMIC_BIAS_CHOPPER_EN_OFF, AC100_ADC_APC_CTRL_MMIC_BIAS_CHOPPER_EN_MASK,
     [AC100_ADC_APC_CTRL_MMIC_BIAS_CHOPPER_EN_DISABLED,
      AC100_ADC_APC_CTRL_MMIC_BIAS_CHOPPER_EN_ENABLED]⟩),
  ("AC100_ADC_APC_CTRL_MMIC_BIAS_CHOPPER_CKS",
    ⟨AC100_ADC_APC_CTRL_MMIC_BIAS_CHOPPER_CKS_OFF, AC100_ADC_APC_CTRL_MMIC_BIAS_CHOPPER_CKS_MASK,
     [AC100_ADC_APC_CTRL_MMIC_BIAS_CHOPPER_CKS_250K,
      AC100_ADC_APC_CTRL_MMIC_BIAS_CHOPPER_CKS_500K,
      AC100_ADC_APC_CTRL_MMIC_BIAS_CHOPPER_CKS_1M,
      AC100_ADC_APC_CTRL_MMIC_BIAS_CHOPPER_CKS_2M]⟩),
  ("AC100_ADC_APC_CTRL_HBIAS_MODE",
    ⟨AC100_ADC_APC_CTRL_HBIAS_MODE_OFF, AC100_ADC_APC_CTRL_HBIAS_MODE_MASK,
     [AC100_ADC_APC_CTRL_HBIAS_MODE_LOAD,
      AC100_ADC_APC_CTRL_HBIAS_MODE_HBIAS_EN]⟩),
  ("AC100_ADC_APC_CTRL_HBIAS_EN",
    ⟨AC100_ADC_APC_CTRL_HBIAS_EN_OFF, AC100_ADC_APC_CTRL_HBIAS_EN_MASK,
     [AC100_ADC_APC_CTRL_HBIAS_EN_DISABLED,
      AC100_ADC_APC_CTRL_HBIAS_EN_ENABLED]⟩),
  ("AC100_ADC_APC_CTRL_HBIAS_ADC_EN",
    ⟨AC100_ADC_APC_CTRL_HBIAS_ADC_EN_OFF, AC100_ADC_APC_CTRL_HBIAS_ADC_EN_MASK,
     [AC100_ADC_APC_CTRL_HBIAS_ADC_EN_DISABLED,
      AC100_ADC_APC_CTRL_HBIAS_ADC_EN_ENABLED]⟩),
  ("AC100_ADC_SRC_ADCR_MIC1_BOOST",
    ⟨AC100_ADC_SRC_ADCR_MIC1_BOOST_OFF, AC100_ADC_SRC_ADCR_MIC1_BOOST_MASK,
     [AC100_ADC_SRC_ADCR_MIC1_BOOST_DISABLED,
      AC100_ADC_SRC_ADCR_MIC1_BOOST_ENABLED]⟩),
  ("AC100_ADC_SRC_ADCR_MIC2_BOOST",
    ⟨AC100_ADC_SRC_ADCR_MIC2_BOOST_OFF, AC100_ADC_SRC_ADCR_MIC2_BOOST_MASK,
     [AC100_ADC_SRC_ADCR_MIC2_BOOST_DISABLED,
      AC100_ADC_SRC_ADCR_MIC2_BOOST_ENABLED]⟩),
  ("AC100_ADC_SRC_ADCR_LINEINL_LINEINR",
    ⟨AC100_ADC_SRC_ADCR_LINEINL_LINEINR_OFF, AC100_ADC_SRC_ADCR_LINEINL_LINEINR_MASK,
     [AC100_ADC_SRC_ADCR_LINEINL_LINEINR_DISABLED,
      AC100_ADC_SRC_ADCR_LINEINL_LINEINR_ENABLED]⟩),
  ("AC100_ADC_SRC_ADCR_LINEINR",
    ⟨AC100_ADC_SRC_ADCR_LINEINR_OFF, AC100_ADC_SRC_ADCR_LINEINR_MASK,
     [AC100_ADC_SRC_ADCR_LINEINR_DISABLED,
      AC100_ADC_SRC_ADCR_LINEINR_ENABLED]⟩),
  ("AC100_ADC_SRC_ADCR_AUXINR",
    ⟨AC100_ADC_SRC_ADCR_AUXINR_OFF, AC100_ADC_SRC_ADCR_AUXINR_MASK,
     [AC100_ADC_SRC_ADCR_AUXINR_DISABLED,
      AC100_ADC_SRC_ADCR_AUXINR_ENABLED]⟩),
  ("AC100_ADC_SRC_ADCR_ROUTMIX",
    ⟨AC100_ADC_SRC_ADCR_ROUTMIX_OFF, AC100_ADC_SRC_ADCR_ROUTMIX_MASK,
     [AC100_ADC_SRC_ADCR_ROUTMIX_DISABLED,
      AC100_ADC_SRC_ADCR_ROUTMIX_ENABLED]⟩),
  ("AC100_ADC_SRC_ADCR_LOUTMIX",
    ⟨AC100_ADC_SRC_ADCR_LOUTMIX_OFF, AC100_ADC_SRC_ADCR_LOUTMIX_MASK,
     [AC100_ADC_SRC_ADCR_LOUTMIX_DISABLED,
      AC100_ADC_SRC_ADCR_LOUTMIX_ENABLED]⟩),
  ("AC100_ADC_SRC_ADCL_MIC1_BOOST",
    ⟨AC100_ADC_SRC_ADCL_MIC1_BOOST_OFF, AC100_ADC_SRC_ADCL_MIC1_BOOST_MASK,
     [AC100_ADC_SRC_ADCL_MIC1_BOOST_DISABLED,
      AC100_ADC_SRC_ADCL_MIC1_BOOST_ENABLED]⟩),
  ("AC100_ADC_SRC_ADCL_MIC2_BOOST",
    ⟨AC100_ADC_SRC_ADCL_MIC2_BOOST_OFF, AC100_ADC_SRC_ADCL_MIC2_BOOST_MASK,
     [AC100_ADC_SRC_ADCL_MIC2_BOOST_DISABLED,
      AC100_ADC_SRC_ADCL_MIC2_BOOST_ENABLED]⟩),
  ("AC100_ADC_SRC_ADCL_LINEINL_LINEINR",
    ⟨AC100_ADC_SRC_ADCL_LINEINL_LINEINR_OFF, AC100_ADC_SRC_ADCL_LINEINL_LINEINR_MASK,
     [AC100_ADC_SRC_ADCL_LINEINL_LINEINR_DISABLED,
      AC100_ADC_SRC_ADCL_LINEINL_LINEINR_ENABLED]⟩),
  ("AC100_ADC_SRC_ADCL_LINEINL",
    ⟨AC100_ADC_SRC_ADCL_LINEINL_OFF, AC100_ADC_SRC_ADCL_LINEINL_MASK,
     [AC100_ADC_SRC_ADCL_LINEINL_DISABLED,
      AC100_ADC_SRC_ADCL_LINEINL_ENABLED]⟩),
  ("AC100_ADC_SRC_ADCL_AUXINL",
    ⟨AC100_ADC_SRC_ADCL_AUXINL_OFF, AC100_ADC_SRC_ADCL_AUXINL_MASK,
     [AC100_ADC_SRC_ADCL_AUXINL_DISABLED,
      AC100_ADC_SRC_ADCL_AUXINL_ENABLED]⟩),
  ("AC100_ADC_SRC_ADCL_LOUTMIX",
    ⟨AC100_ADC_SRC_ADCL_LOUTMIX_OFF, AC100_ADC_SRC_ADCL_LOUTMIX_MASK,
     [AC100_ADC_SRC_ADCL_LOUTMIX_DISABLED,
      AC100_ADC_SRC_ADCL_LOUTMIX_ENABLED]⟩),
  ("AC100_ADC_SRC_ADCL_ROUTMIX",
    ⟨AC100_ADC_SRC_ADCL_ROUTMIX_OFF, AC100_ADC_SRC_ADCL_ROUTMIX_MASK,
     [AC100_ADC_SRC_ADCL_ROUTMIX_DISABLED,
      AC100_ADC_SRC_ADCL_ROUTMIX_ENABLED]⟩),
  ("AC100_ADC_SRC_BST_CTRL_MIC1AMPEN",
    ⟨AC100_ADC_SRC_BST_CTRL_MIC1AMPEN_OFF, AC100_ADC_SRC_BST_CTRL_MIC1AMPEN_MASK,
     [AC100_ADC_SRC_BST_CTRL_MIC1AMPEN_DISABLED,
      AC100_ADC_SRC_BST_CTRL_MIC1AMPEN_ENABLED]⟩),
  ("AC100_ADC_SRC_BST_CTRL_MIC2AMPEN",
    ⟨AC100_ADC_SRC_BST_CTRL_MIC2AMPEN_OFF, AC100_ADC_SRC_BST_CTRL_MIC2AMPEN_MASK,
     [AC100_ADC_SRC_BST_CTRL_MIC2AMPEN_DISABLED,
      AC100_ADC_SRC_BST_CTRL_MIC2AMPEN_ENABLED]⟩),
  ("AC100_ADC_SRC_BST_CTRL_MIC2SLT",
    ⟨AC100_ADC_SRC_BST_CTRL_MIC2SLT_OFF, AC100_ADC_SRC_BST_CTRL_MIC2SLT_MASK,
     [AC100_ADC_SRC_BST_CTRL_MIC2SLT_MIC2,
      AC100_ADC_SRC_BST_CTRL_MIC2SLT_MIC3]⟩),
  ("AC100_OUT_MXR_DAC_A_CTRL_DAC_AR_EN",
    ⟨AC100_OUT_MXR_DAC_A_CTRL_DAC_AR_EN_OFF, AC100_OUT_MXR_DAC_A_CTRL_DAC_AR_EN_MASK,
     [AC100_OUT_MXR_DAC_A_CTRL_DAC_AR_EN_DISABLED,
      AC100_OUT_MXR_DAC_A_CTRL_DAC_AR_EN_ENABLED]⟩),
  ("AC100_OUT_MXR_DAC_A_CTRL_DAC_AL_EN",
    ⟨AC100_OUT_MXR_DAC_A_CTRL_DAC_AL_EN_OFF, AC100_OUT_MXR_DAC_A_CTRL_DAC_AL_EN_MASK,
     [AC100_OUT_MXR_DAC_A_CTRL_DAC_AL_EN_DISABLED,
      AC100_OUT_MXR_DAC_A_CTRL_DAC_AL_EN_ENABLED]⟩),
  ("AC100_OUT_MXR_DAC_A_CTRL_AR_MIX_EN",
    ⟨AC100_OUT_MXR_DAC_A_CTRL_AR_MIX_EN_OFF, AC100_OUT_MXR_DAC_A_CTRL_AR_MIX_EN_MASK,
     [AC100_OUT_MXR_DAC_A_CTRL_AR_MIX_EN_DISABLED,
      AC100_OUT_MXR_DAC_A_CTRL_AR_MIX_EN_ENABLED]⟩),
  ("AC100_OUT_MXR_DAC_A_CTRL_AL_MIX_EN",
    ⟨AC100_OUT_MXR_DAC_A_CTRL_AL_MIX_EN_OFF, AC100_OUT_MXR_DAC_A_CTRL_AL_MIX_EN_MASK,
     [AC100_OUT_MXR_DAC_A_CTRL_AL_MIX_EN_DISABLED,
      AC100_OUT_MXR_DAC_A_CTRL_AL_MIX_EN_ENABLED]⟩),
  ("AC100_OUT_MXR_SRC_RMIX_MIC1_BOOST",
    ⟨AC100_OUT_MXR_SRC_RMIX_MIC1_BOOST_OFF, AC100_OUT_MXR_SRC_RMIX_MIC1_BOOST_MASK,
     [AC100_OUT_MXR_SRC_RMIX_MIC1_BOOST_DISABLED,
      AC100_OUT_MXR_SRC_RMIX_MIC1_BOOST_ENABLED]⟩),
  ("AC100_OUT_MXR_SRC_RMIX_MIC2_BOOST",
    ⟨AC100_OUT_MXR_SRC_RMIX_MIC2_BOOST_OFF, AC100_OUT_MXR_SRC_RMIX_MIC2_BOOST_MASK,
     [AC100_OUT_MXR_SRC_RMIX_MIC2_BOOST_DISABLED,
      AC100_OUT_MXR_SRC_RMIX_MIC2_BOOST_ENABLED]⟩),
  ("AC100_OUT_MXR_SRC_RMIX_LINEINL_LINEINR",
    ⟨AC100_OUT_MXR_SRC_RMIX_LINEINL_LINEINR_OFF, AC100_OUT_MXR_SRC_RMIX_LINEINL_LINEINR_MASK,
     [AC100_OUT_MXR_SRC_RMIX_LINEINL_LINEINR_DISABLED,
      AC100_OUT_MXR_SRC_RMIX_LINEINL_LINEINR_ENABLED]⟩),
  ("AC100_OUT_MXR_SRC_RMIX_LINEINR",
    ⟨AC100_OUT_MXR_SRC_RMIX_LINEINR_OFF, AC100_OUT_MXR_SRC_RMIX_LINEINR_MASK,
     [AC100_OUT_MXR_SRC_RMIX_LINEINR_DISABLED,
      AC100_OUT_MXR_SRC_RMIX_LINEINR_ENABLED]⟩),
  ("AC100_OUT_MXR_SRC_RMIX_AUXINR",
    ⟨AC100_OUT_MXR_SRC_RMIX_AUXINR_OFF, AC100_OUT_MXR_SRC_RMIX_AUXINR_MASK,
     [AC100_OUT_MXR_SRC_RMIX_AUXINR_DISABLED,
      AC100_OUT_MXR_SRC_RMIX_AUXINR_ENABLED]⟩),
  ("AC100_OUT_MXR_SRC_RMIX_DACR",
    ⟨AC100_OUT_MXR_SRC_RMIX_DACR_OFF, AC100_OUT_MXR_SRC_RMIX_DACR_MASK,
     [AC100_OUT_MXR_SRC_RMIX_DACR_DISABLED,
      AC100_OUT_MXR_SRC_RMIX_DACR_ENABLED]⟩),
  ("AC100_OUT_MXR_SRC_RMIX_DACL",
    ⟨AC100_OUT_MXR_SRC_RMIX_DACL_OFF, AC100_OUT_MXR_SRC_RMIX_DACL_MASK,
     [AC100_OUT_MXR_SRC_RMIX_DACL_DISABLED,
      AC100_OUT_MXR_SRC_RMIX_DACL_ENABLED]⟩),
  ("AC100_OUT_MXR_SRC_LMIX_MIC1_BOOST",
    ⟨AC100_OUT_MXR_SRC_LMIX_MIC1_BOOST_OFF, AC100_OUT_MXR_SRC_LMIX_MIC1_BOOST_MASK,
     [AC100_OUT_MXR_SRC_LMIX_MIC1_BOOST_DISABLED,
      AC100_OUT_MXR_SRC_LMIX_MIC1_BOOST_ENABLED]⟩),
  ("AC100_OUT_MXR_SRC_LMIX_MIC2_BOOST",
    ⟨AC100_OUT_MXR_SRC_LMIX_MIC2_BOOST_OFF, AC100_OUT_MXR_SRC_LMIX_MIC2_BOOST_MASK,
     [AC100_OUT_MXR_SRC_LMIX_MIC2_BOOST_DISABLED,
      AC100_OUT_MXR_SRC_LMIX_MIC2_BOOST_ENABLED]⟩),
  ("AC100_OUT_MXR_SRC_LMIX_LINEINL_LINEINR",
    ⟨AC100_OUT_MXR_SRC_LMIX_LINEINL_LINEINR_OFF, AC100_OUT_MXR_SRC_LMIX_LINEINL_LINEINR_MASK,
     [AC100_OUT_MXR_SRC_LMIX_LINEINL_LINEINR_DISABLED,
      AC100_OUT_MXR_SRC_LMIX_LINEINL_LINEINR_ENABLED]⟩),
  ("AC100_OUT_MXR_SRC_LMIX_LINEINL",
    ⟨AC100_OUT_MXR_SRC_LMIX_LINEINL_OFF, AC100_OUT_MXR_SRC_LMIX_LINEINL_MASK,
     [AC100_OUT_MXR_SRC_LMIX_LINEINL_DISABLED,
      AC100_OUT_MXR_SRC_LMIX_LINEINL_ENABLED]⟩),
  ("AC100_OUT_MXR_SRC_LMIX_AUXINL",
    ⟨AC100_OUT_MXR_SRC_LMIX_AUXINL_OFF, AC100_OUT_MXR_SRC_LMIX_AUXINL_MASK,
     [AC100_OUT_MXR_SRC_LMIX_AUXINL_DISABLED,
      AC100_OUT_MXR_SRC_LMIX_AUXINL_ENABLED]⟩),
  ("AC100_OUT_MXR_SRC_LMIX_DACL",
    ⟨AC100_OUT_MXR_SRC_LMIX_DACL_OFF, AC100_OUT_MXR_SRC_LMIX_DACL_MASK,
     [AC100_OUT_MXR_SRC_LMIX_DACL_DISABLED,
      AC100_OUT_MXR_SRC_LMIX_DACL_ENABLED]⟩),
  ("AC100_OUT_MXR_SRC_LMIX_DACR",
    ⟨AC100_OUT_MXR_SRC_LMIX_DACR_OFF, AC100_OUT_MXR_SRC_LMIX_DACR_MASK,
     [AC100_OUT_MXR_SRC_LMIX_DACR_DISABLED,
      AC100_OUT_MXR_SRC_LMIX_DACR_ENABLED]⟩),
  ("AC100_OUT_MXR_SRC_BST_HMICBIAS_VOLTAGE",
    ⟨AC100_OUT_MXR_SRC_BST_HMICBIAS_VOLTAGE_OFF, AC100_OUT_MXR_SRC_BST_HMICBIAS_VOLTAGE_MASK,
     [AC100_OUT_MXR_SRC_BST_HMICBIAS_VOLTAGE_1_88V,
      AC100_OUT_MXR_SRC_BST_HMICBIAS_VOLTAGE_2_09V,
      AC100_OUT_MXR_SRC_BST_HMICBIAS_VOLTAGE_2_33V,
      AC100_OUT_MXR_SRC_BST_HMICBIAS_VOLTAGE_2_50V]⟩),
  ("AC100_OUT_MXR_SRC_BST_MMICBIAS_VOLTAGE",
    ⟨AC100_OUT_MXR_SRC_BST_MMICBIAS_VOLTAGE_OFF, AC100_OUT_MXR_SRC_BST_MMICBIAS_VOLTAGE_MASK,
     [AC100_OUT_MXR_SRC_BST_MMICBIAS_VOLTAGE_1_88V,
      AC100_OUT_MXR_SRC_BST_MMICBIAS_VOLTAGE_2_09V,
      AC100_OUT_MXR_SRC_BST_MMICBIAS_VOLTAGE_2_33V,
      AC100_OUT_MXR_SRC_BST_MMICBIAS_VOLTAGE_2_50V]⟩),
  ("AC100_HPOUT_CTRL_RIGHT_SRC",
    ⟨AC100_HPOUT_CTRL_RIGHT_SRC_OFF, AC100_HPOUT_CTRL_RIGHT_SRC_MASK,
     [AC100_HPOUT_CTRL_RIGHT_SRC_DACR,
      AC100_HPOUT_CTRL_RIGHT_SRC_RAMIX]⟩),
  ("AC100_HPOUT_CTRL_LEFT_SRC",
    ⟨AC100_HPOUT_CTRL_LEFT_SRC_OFF, AC100_HPOUT_CTRL_LEFT_SRC_MASK,
     [AC100_HPOUT_CTRL_LEFT_SRC_DACL,
      AC100_HPOUT_CTRL_LEFT_SRC_LAMIX]⟩),
  ("AC100_HPOUT_CTRL_RIGHT_PA_MUTE",
    ⟨AC100_HPOUT_CTRL_RIGHT_PA_MUTE_OFF, AC100_HPOUT_CTRL_RIGHT_PA_MUTE_MASK,
     [AC100_HPOUT_CTRL_RIGHT_PA_MUTE_MUTE,
      AC100_HPOUT_CTRL_RIGHT_PA_MUTE_NOT_MUTE]⟩),
  ("AC100_HPOUT_CTRL_LEFT_PA_MUTE",
    ⟨AC100_HPOUT_CTRL_LEFT_PA_MUTE_OFF, AC100_HPOUT_CTRL_LEFT_PA_MUTE_MASK,
     [AC100_HPOUT_CTRL_LEFT_PA_MUTE_MUTE,
      AC100_HPOUT_CTRL_LEFT_PA_MUTE_NOT_MUTE]⟩),
  ("AC100_HPOUT_CTRL_PA_EN",
    ⟨AC100_HPOUT_CTRL_PA_EN_OFF, AC100_HPOUT_CTRL_PA_EN_MASK,
     [AC100_HPOUT_CTRL_PA_EN_DISABLED,
      AC100_HPOUT_CTRL_PA_EN_ENABLED]⟩),
  ("AC100_HPOUT_CTRL_STARTUP_DELAY",
    ⟨AC100_HPOUT_CTRL_STARTUP_DELAY_OFF, AC100_HPOUT_CTRL_STARTUP_DELAY_MASK,
     [AC100_HPOUT_CTRL_STARTUP_DELAY_4ms,
      AC100_HPOUT_CTRL_STARTUP_DELAY_8ms,
      AC100_HPOUT_CTRL_STARTUP_DELAY_16ms,
      AC100_HPOUT_CTRL_STARTUP_DELAY_32ms]⟩),
  ("AC100_ERPOUT_CTRL_RAMP_TIME",
    ⟨AC100_ERPOUT_CTRL_RAMP_TIME_OFF, AC100_ERPOUT_CTRL_RAMP_TIME_MASK,
     [AC100_ERPOUT_CTRL_RAMP_TIME_256ms,
      AC100_ERPOUT_CTRL_RAMP_TIME_512ms,
      AC100_ERPOUT_CTRL_RAMP_TIME_640ms,
      AC100_ERPOUT_CTRL_RAMP_TIME_768ms]⟩),
  ("AC100_ERPOUT_CTRL_INPUT_SOURCE",
    ⟨AC100_ERPOUT_CTRL_INPUT_SOURCE_OFF, AC100_ERPOUT_CTRL_INPUT_SOURCE_MASK,
     [AC100_ERPOUT_CTRL_INPUT_SOURCE_DACR,
      AC100_ERPOUT_CTRL_INPUT_SOURCE_DACL,
      AC100_ERPOUT_CTRL_INPUT_SOURCE_RAMIX,
      AC100_ERPOUT_CTRL_INPUT_SOURCE_LAMIX]⟩),
  ("AC100_ERPOUT_CTRL_MUTE",
    ⟨AC100_ERPOUT_CTRL_MUTE_OFF, AC100_ERPOUT_CTRL_MUTE_MASK,
     [AC100_ERPOUT_CTRL_MUTE_MUTE,
      AC100_ERPOUT_CTRL_MUTE_NOT_MUTE]⟩),
  ("AC100_ERPOUT_CTRL_PA_EN",
    ⟨AC100_ERPOUT_CTRL_PA_EN_OFF, AC100_ERPOUT_CTRL_PA_EN_MASK,
     [AC100_ERPOUT_CTRL_PA_EN_DISABLED,
      AC100_ERPOUT_CTRL_PA_EN_ENABLED]⟩),
  ("AC100_SPKOUT_CTRL_RIGHT_SRC",
    ⟨AC100_SPKOUT_CTRL_RIGHT_SRC_OFF, AC100_SPKOUT_CTRL_RIGHT_SRC_MASK,
     [AC100_SPKOUT_CTRL_RIGHT_SRC_MIXR,
      AC100_SPKOUT_CTRL_RIGHT_SRC_MIXL_MIXR]⟩),
  ("AC100_SPKOUT_CTRL_RIGHT_INV_EN",
    ⟨AC100_SPKOUT_CTRL_RIGHT_INV_EN_OFF, AC100_SPKOUT_CTRL_RIGHT_INV_EN_MASK,
     [AC100_SPKOUT_CTRL_RIGHT_INV_EN_DISABLED,
      AC100_SPKOUT_CTRL_RIGHT_INV_EN_ENABLED]⟩),
  ("AC100_SPKOUT_CTRL_RIGHT_EN",
    ⟨AC100_SPKOUT_CTRL_RIGHT_EN_OFF, AC100_SPKOUT_CTRL_RIGHT_EN_MASK,
     [AC100_SPKOUT_CTRL_RIGHT_EN_DISABLED,
      AC100_SPKOUT_CTRL_RIGHT_EN_ENABLED]⟩),
  ("AC100_SPKOUT_CTRL_LEFT_SRC",
    ⟨AC100_SPKOUT_CTRL_LEFT_SRC_OFF, AC100_SPKOUT_CTRL_LEFT_SRC_MASK,
     [AC100_SPKOUT_CTRL_LEFT_SRC_MIXL,
      AC100_SPKOUT_CTRL_LEFT_SRC_MIXL_MIXR]⟩),
  ("AC100_SPKOUT_CTRL_LEFT_INV_EN",
    ⟨AC100_SPKOUT_CTRL_LEFT_INV_EN_OFF, AC100_SPKOUT_CTRL_LEFT_INV_EN_MASK,
     [AC100_SPKOUT_CTRL_LEFT_INV_EN_DISABLED,
      AC100_SPKOUT_CTRL_LEFT_INV_EN_ENABLED]⟩),
  ("AC100_SPKOUT_CTRL_LEFT_EN",
    ⟨AC100_SPKOUT_CTRL_LEFT_EN_OFF, AC100_SPKOUT_CTRL_LEFT_EN_MASK,
     [AC100_SPKOUT_CTRL_LEFT_EN_DISABLED,
      AC100_SPKOUT_CTRL_LEFT_EN_ENABLED]⟩),
  ("AC100_LINEOUT_CTRL_LINEOUT_EN",
    ⟨AC100_LINEOUT_CTRL_LINEOUT_EN_OFF, AC100_LINEOUT_CTRL_LINEOUT_EN_MASK,
     [AC100_LINEOUT_CTRL_LINEOUT_EN_DISABLED,
      AC100_LINEOUT_CTRL_LINEOUT_EN_ENABLED]⟩),
  ("AC100_LINEOUT_CTRL_LINEOUT_S0",
    ⟨AC100_LINEOUT_CTRL_LINEOUT_S0_OFF, AC100_LINEOUT_CTRL_LINEOUT_S0_MASK,
     [AC100_LINEOUT_CTRL_LINEOUT_S0_MUTE,
      AC100_LINEOUT_CTRL_LINEOUT_S0_ON]⟩),
  ("AC100_LINEOUT_CTRL_LINEOUT_S1",
    ⟨AC100_LINEOUT_CTRL_LINEOUT_S1_OFF, AC100_LINEOUT_CTRL_LINEOUT_S1_MASK,
     [AC100_LINEOUT_CTRL_LINEOUT_S1_MUTE,
      AC100_LINEOUT_CTRL_LINEOUT_S1_ON]⟩),
  ("AC100_LINEOUT_CTRL_LINEOUT_S2",
    ⟨AC100_LINEOUT_CTRL_LINEOUT_S2_OFF, AC100_LINEOUT_CTRL_LINEOUT_S2_MASK,
     [AC100_LINEOUT_CTRL_LINEOUT_S2_MUTE,
      AC100_LINEOUT_CTRL_LINEOUT_S2_ON]⟩),
  ("AC100_LINEOUT_CTRL_LINEOUT_S3",
    ⟨AC100_LINEOUT_CTRL_LINEOUT_S3_OFF, AC100_LINEOUT_CTRL_LINEOUT_S3_MASK,
     [AC100_LINEOUT_CTRL_LINEOUT_S3_MUTE,
      AC100_LINEOUT_CTRL_LINEOUT_S3_ON]⟩),
  ("AC100_ADDA_TUNE1_ZERO_CROSSOVER_EN",
    ⟨AC100_ADDA_TUNE1_ZERO_CROSSOVER_EN_OFF, AC100_ADDA_TUNE1_ZERO_CROSSOVER_EN_MASK,
     [AC100_ADDA_TUNE1_ZERO_CROSSOVER_EN_DIS,
      AC100_ADDA_TUNE1_ZERO_CROSSOVER_EN_EN]⟩) ]

/-- Every value-encoding macro `F(v)`, in source order, with its `_OFF` macro and
the mask literal of its body. -/
def ac100_value_macros : List field_macro := [
  ⟨AC100_ADC_APC_CTRL_ADCR_GAIN, AC100_ADC_APC_CTRL_ADCR_GAIN_OFF, 0x7⟩,
  ⟨AC100_ADC_APC_CTRL_ADCL_GAIN, AC100_ADC_APC_CTRL_ADCL_GAIN_OFF, 0x7⟩,
  ⟨AC100_ADC_SRC_BST_CTRL_MIC1BOOST, AC100_ADC_SRC_BST_CTRL_MIC1BOOST_OFF, 0x7⟩,
  ⟨AC100_ADC_SRC_BST_CTRL_MIC2BOOST, AC100_ADC_SRC_BST_CTRL_MIC2BOOST_OFF, 0x7⟩,
  ⟨AC100_ADC_SRC_BST_CTRL_LINEIN_DIFF_PREG, AC100_ADC_SRC_BST_CTRL_LINEIN_DIFF_PREG_OFF, 0x7⟩,
  ⟨AC100_ADC_SRC_BST_CTRL_AXI_PREG, AC100_ADC_SRC_BST_CTRL_AXI_PREG_OFF, 0x7⟩,
  ⟨AC100_OUT_MXR_DAC_A_CTRL_HP_DCRM_EN, AC100_OUT_MXR_DAC_A_CTRL_HP_DCRM_EN_OFF, 0xf⟩,
  ⟨AC100_OUT_MXR_SRC_BST_AX_GAIN, AC100_OUT_MXR_SRC_BST_AX_GAIN_OFF, 0x7⟩,
  ⟨AC100_OUT_MXR_SRC_BST_MIC1_GAIN, AC100_OUT_MXR_SRC_BST_MIC1_GAIN_OFF, 0x7⟩,
  ⟨AC100_OUT_MXR_SRC_BST_MIC2_GAIN, AC100_OUT_MXR_SRC_BST_MIC2_GAIN_OFF, 0x7⟩,
  ⟨AC100_OUT_MXR_SRC_BST_LINEIN_GAIN, AC100_OUT_MXR_SRC_BST_LINEIN_GAIN_OFF, 0x7⟩,
  ⟨AC100_HPOUT_CTRL_VOLUME, AC100_HPOUT_CTRL_VOLUME_OFF, 0x3f⟩,
  ⟨AC100_HPOUT_CTRL_OUTPUT_CURRENT, AC100_HPOUT_CTRL_OUTPUT_CURRENT_OFF, 0x3⟩,
  ⟨AC100_ERPOUT_CTRL_OUT_CURRENT, AC100_ERPOUT_CTRL_OUT_CURRENT_OFF, 0x3⟩,
  ⟨AC100_ERPOUT_CTRL_VOLUME, AC100_ERPOUT_CTRL_VOLUME_OFF, 0x1f⟩,
  ⟨AC100_SPKOUT_CTRL_VOLUME, AC100_SPKOUT_CTRL_VOLUME_OFF, 0x1f⟩,
  ⟨AC100_LINEOUT_CTRL_LINEOUT_GAIN, AC100_LINEOUT_CTRL_LINEOUT_GAIN_OFF, 0x7⟩ ]

/-- A masked field is consistent: the lowest set bit of its mask is at its
offset, and every named value constant has all its set bits inside the mask. -/
def mask_field_consistent (f : reg_field) : Prop :=
  Nat.testBit f.mask f.off = true
  ∧ (∀ i, i < f.off → Nat.testBit f.mask i = false)
  ∧ (∀ c ∈ f.values, c &&& f.mask = c)

instance (f : reg_field) : Decidable (mask_field_consistent f) := by
  unfold mask_field_consistent; infer_instance

/-- A value-encoding macro is consistent: it is `((v) & m) << off` with `off` its
`_OFF` macro, and for every `v` the encoded value fits in 16 bits, has all its
set bits inside `m << off`, and shifted back down is `v mod (m + 1)`. -/
def value_macro_consistent (f : field_macro) : Prop :=
  (∀ v, f.F v = (v &&& f.m) <<< f.off)
  ∧ (∀ v, f.F v < 2 ^ 16)
  ∧ (∀ v, f.F v &&& (f.m <<< f.off) = f.F v)
  ∧ (∀ v, f.F v >>> f.off = v % (f.m + 1))

/-! # Theorems -/

/-! ## Bit-level facts about the masked update -/

theorem testBit_regmap_update (orig mask val i : Nat) :
    Nat.testBit (regmap_update orig mask val) i =
      ((Nat.testBit orig i && (decide (i < 32) ^^ Nat.testBit mask i))
        || (Nat.testBit val i && Nat.testBit mask i)) := by
  have h32 : (0xFFFFFFFF : Nat) = 2 ^ 32 - 1 := by norm_num
  unfold regmap_update
  rw [Nat.testBit_lor, Nat.testBit_land, Nat.testBit_land, Nat.testBit_xor, h32,
    Nat.testBit_two_pow_sub_one]

theorem testBit_fifteen (i : Nat) : Nat.testBit 15 i = decide (i < 4) :=
  Nat.testBit_two_pow_sub_one 4 i

/-- Meeting a two-bit mask `2^a ||| 2^b` is having bit `a` or bit `b` set. -/
theorem land_two_bits_ne_zero (e a b : Nat) :
    e &&& (2 ^ a ||| 2 ^ b) ≠ 0 ↔ (Nat.testBit e a = true ∨ Nat.testBit e b = true) := by
  constructor
  · intro h
    by_contra hc
    push_neg at hc
    apply h
    apply Nat.eq_of_testBit_eq
    intro i
    rw [Nat.testBit_land, Nat.testBit_lor, Nat.testBit_two_pow, Nat.testBit_two_pow,
      Nat.zero_testBit]
    by_cases ha : a = i
    · subst ha; simp [hc.1]
    · by_cases hb : b = i
      · subst hb; simp [hc.2]
      · simp [ha, hb]
  · intro h h0
    have ha : Nat.testBit (e &&& (2 ^ a ||| 2 ^ b)) a = Nat.testBit e a := by
      rw [Nat.testBit_land, Nat.testBit_lor, Nat.testBit_two_pow]; simp
    have hb : Nat.testBit (e &&& (2 ^ a ||| 2 ^ b)) b = Nat.testBit e b := by
      rw [Nat.testBit_land, Nat.testBit_lor, Nat.testBit_two_pow, Nat.testBit_two_pow]; simp
    rw [h0, Nat.zero_testBit] at ha hb
    rcases h with h | h
    · rw [h] at ha; exact Bool.noConfusion ha
    · rw [h] at hb; exact Bool.noConfusion hb

/-- Meeting a one-bit mask is having that bit set. -/
theorem land_two_pow_ne_zero (e a : Nat) : e &&& 2 ^ a ≠ 0 ↔ Nat.testBit e a = true := by
  have h := land_two_bits_ne_zero e a a
  rwa [Nat.or_self, or_self] at h

theorem event_off_iff (e : Nat) :
    SND_SOC_DAPM_EVENT_OFF e ≠ 0 ↔ (Nat.testBit e 2 = true ∨ Nat.testBit e 3 = true) :=
  land_two_bits_ne_zero e 2 3

theorem event_on_iff (e : Nat) :
    SND_SOC_DAPM_EVENT_ON e ≠ 0 ↔ (Nat.testBit e 0 = true ∨ Nat.testBit e 1 = true) :=
  land_two_bits_ne_zero e 0 1

/-- Writing `v` (at most 15) into the `HP_DCRM_EN` field makes the field read `v`. -/
theorem hp_dcrm_en_of_update (orig v : Nat) (hv : v ≤ 0xf) :
    hp_dcrm_en_of (regmap_update orig (AC100_OUT_MXR_DAC_A_CTRL_HP_DCRM_EN 0xf)
      (AC100_OUT_MXR_DAC_A_CTRL_HP_DCRM_EN v)) = v := by
  have hm : AC100_OUT_MXR_DAC_A_CTRL_HP_DCRM_EN 0xf = 15 <<< 8 := by decide
  have hvv : v &&& 0xf = v := by
    have : (0xf : Nat) = 2 ^ 4 - 1 := by norm_num
    rw [this, Nat.and_pow_two_sub_one_eq_mod]
    exact Nat.mod_eq_of_lt (by omega)
  have hv4 : v < 2 ^ 4 := by omega
  unfold hp_dcrm_en_of AC100_OUT_MXR_DAC_A_CTRL_HP_DCRM_EN_OFF
  rw [hm]
  unfold AC100_OUT_MXR_DAC_A_CTRL_HP_DCRM_EN
  rw [hvv]
  apply Nat.eq_of_testBit_eq
  intro i
  rw [Nat.testBit_land, Nat.testBit_shiftRight, testBit_regmap_update, Nat.testBit_shiftLeft,
    Nat.testBit_shiftLeft]
  have h2 : 8 + i - 8 = i := by omega
  have h3 : 8 + i ≥ 8 := by omega
  rw [h2]
  simp only [testBit_fifteen, h3, decide_True, Bool.true_and]
  by_cases hi : i < 4
  · have h1 : 8 + i < 32 := by omega
    simp [hi, h1]
  · have : Nat.testBit v i = false :=
      Nat.testBit_lt_two_pow (lt_of_lt_of_le hv4 (Nat.pow_le_pow_right (by norm_num) (by omega)))
    simp [hi, this]

/-- After the hook, bit 8 of `AC100_ADDA_TUNE1` is set exactly for a power-down
event. -/
theorem hp_power_zero_cross_bit (s : Regmap) (e : Nat) :
    bit_of ((ac100_codec_hp_power regmapBus s e).2 AC100_ADDA_TUNE1) 8 = true
      ↔ SND_SOC_DAPM_EVENT_OFF e ≠ 0 := by
  have h8 : Nat.testBit 256 8 = true := by decide
  have hne : AC100_ADDA_TUNE1 ≠ AC100_OUT_MXR_DAC_A_CTRL := by decide
  by_cases h : SND_SOC_DAPM_EVENT_OFF e ≠ 0
  · simp only [ac100_codec_hp_power, regmapBus, if_pos h, bit_of, ne_eq,
      Function.update_noteq hne, Function.update_same, testBit_regmap_update]
    simp [h, AC100_ADDA_TUNE1_ZERO_CROSSOVER_EN_MASK, AC100_ADDA_TUNE1_ZERO_CROSSOVER_EN_EN,
      BIT, h8]
  · simp only [ac100_codec_hp_power, regmapBus, if_neg h, bit_of, ne_eq,
      Function.update_noteq hne, Function.update_same, testBit_regmap_update]
    simp [h, AC100_ADDA_TUNE1_ZERO_CROSSOVER_EN_MASK, AC100_ADDA_TUNE1_ZERO_CROSSOVER_EN_DIS,
      BIT, h8]

/-- After the hook, `HP_DCRM_EN` reads 0xf for a power-up event and 0 otherwise. -/
theorem hp_power_dcrm_field (s : Regmap) (e : Nat) :
    hp_dcrm_en_of ((ac100_codec_hp_power regmapBus s e).2 AC100_OUT_MXR_DAC_A_CTRL)
      = (if SND_SOC_DAPM_EVENT_ON e ≠ 0 then 0xf else 0) := by
  simp only [ac100_codec_hp_power, regmapBus, Function.update_same]
  split_ifs <;> exact hp_dcrm_en_of_update _ _ (by norm_num)

/-! ## C1 -/

/-- C1: on a transport where every update succeeds, for every event mask `e` and
register state `s`, `ac100_codec_hp_power` returns 0, leaves the zero-crossover
enable bit (bit 8 of `AC100_ADDA_TUNE1`) set exactly when `e` contains `PRE_PMD`
or `POST_PMD`, and leaves `HP_DCRM_EN` (bits 8..11 of `AC100_OUT_MXR_DAC_A_CTRL`)
equal to 0xf when `e` contains `PRE_PMU` or `POST_PMU` and to 0 otherwise; at `PRE_PMU` zero-cross is off with DCRM
0xf, at `PRE_PMD` zero-cross is on with DCRM 0. -/
theorem hp_power_sets_zero_cross_and_dcrm (e : Nat) (s : Regmap) :
    (ac100_codec_hp_power regmapBus s e).1 = 0
    ∧ (bit_of ((ac100_codec_hp_power regmapBus s e).2 AC100_ADDA_TUNE1) 8 = true
        ↔ (e &&& SND_SOC_DAPM_PRE_PMD ≠ 0 ∨ e &&& SND_SOC_DAPM_POST_PMD ≠ 0))
    ∧ hp_dcrm_en_of ((ac100_codec_hp_power regmapBus s e).2 AC100_OUT_MXR_DAC_A_CTRL)
        = (if e &&& SND_SOC_DAPM_PRE_PMU ≠ 0 ∨ e &&& SND_SOC_DAPM_POST_PMU ≠ 0 then 0xf else 0)
    ∧ (bit_of ((ac100_codec_hp_power regmapBus s SND_SOC_DAPM_PRE_PMU).2 AC100_ADDA_TUNE1) 8
          = false
        ∧ hp_dcrm_en_of
            ((ac100_codec_hp_power regmapBus s SND_SOC_DAPM_PRE_PMU).2 AC100_OUT_MXR_DAC_A_CTRL)
          = 0xf)
    ∧ (bit_of ((ac100_codec_hp_power regmapBus s SND_SOC_DAPM_PRE_PMD).2 AC100_ADDA_TUNE1) 8
          = true
        ∧ hp_dcrm_en_of
            ((ac100_codec_hp_power regmapBus s SND_SOC_DAPM_PRE_PMD).2 AC100_OUT_MXR_DAC_A_CTRL)
          = 0) := by
  have hpmu : e &&& SND_SOC_DAPM_PRE_PMU ≠ 0 ↔ Nat.testBit e 0 = true :=
    land_two_pow_ne_zero e 0
  have hpostu : e &&& SND_SOC_DAPM_POST_PMU ≠ 0 ↔ Nat.testBit e 1 = true :=
    land_two_pow_ne_zero e 1
  have hpmd : e &&& SND_SOC_DAPM_PRE_PMD ≠ 0 ↔ Nat.testBit e 2 = true :=
    land_two_pow_ne_zero e 2
  have hpostd : e &&& SND_SOC_DAPM_POST_PMD ≠ 0 ↔ Nat.testBit e 3 = true :=
    land_two_pow_ne_zero e 3
  refine ⟨rfl, ?_, ?_, ⟨?_, ?_⟩, ⟨?_, ?_⟩⟩
  · rw [hp_power_zero_cross_bit, event_off_iff, hpmd, hpostd]
  · rw [hp_power_dcrm_field]
    simp only [event_on_iff, hpmu, hpostu]
  · have h := hp_power_zero_cross_bit s SND_SOC_DAPM_PRE_PMU
    have hz : ¬ SND_SOC_DAPM_EVENT_OFF SND_SOC_DAPM_PRE_PMU ≠ 0 := by decide
    cases hb : bit_of ((ac100_codec_hp_power regmapBus s SND_SOC_DAPM_PRE_PMU).2
        AC100_ADDA_TUNE1) 8
    · rfl
    · exact absurd (h.mp hb) hz
  · rw [hp_power_dcrm_field]; decide
  · exact (hp_power_zero_cross_bit s SND_SOC_DAPM_PRE_PMD).mpr (by decide)
  · rw [hp_power_dcrm_field]; decide

/-! ## C2 -/

/-- The Headphone Amp widget as declared in the widget table. -/
theorem widget_named_headphone_amp :
    widget_named "Headphone Amp" =
      some (SND_SOC_DAPM_SUPPLY "Headphone Amp" (some AC100_HPOUT_CTRL)
        AC100_HPOUT_CTRL_PA_EN_OFF 0 (some Hook.hp_power)
        (SND_SOC_DAPM_PRE_PMU ||| SND_SOC_DAPM_PRE_PMD)) := by
  rfl

theorem headphone_amp_steps_up :
    power_transition_steps (SND_SOC_DAPM_SUPPLY "Headphone Amp" (some AC100_HPOUT_CTRL)
        AC100_HPOUT_CTRL_PA_EN_OFF 0 (some Hook.hp_power)
        (SND_SOC_DAPM_PRE_PMU ||| SND_SOC_DAPM_PRE_PMD)) true =
      [SeqStep.event Hook.hp_power SND_SOC_DAPM_PRE_PMU,
       SeqStep.power AC100_HPOUT_CTRL (BIT 11) (BIT 11)] := by
  decide

theorem headphone_amp_steps_down :
    power_transition_steps (SND_SOC_DAPM_SUPPLY "Headphone Amp" (some AC100_HPOUT_CTRL)
        AC100_HPOUT_CTRL_PA_EN_OFF 0 (some Hook.hp_power)
        (SND_SOC_DAPM_PRE_PMU ||| SND_SOC_DAPM_PRE_PMD)) false =
      [SeqStep.event Hook.hp_power SND_SOC_DAPM_PRE_PMD,
       SeqStep.power AC100_HPOUT_CTRL (BIT 11) 0] := by
  decide

/-- The hook leaves `AC100_HPOUT_CTRL` as it found it. -/
theorem hp_power_keeps_hpout (s : Regmap) (e : Nat) :
    (ac100_codec_hp_power regmapBus s e).2 AC100_HPOUT_CTRL = s AC100_HPOUT_CTRL := by
  simp only [ac100_codec_hp_power, regmapBus]
  split_ifs <;>
    simp [Function.update_noteq (show AC100_HPOUT_CTRL ≠ AC100_OUT_MXR_DAC_A_CTRL by decide),
      Function.update_noteq (show AC100_HPOUT_CTRL ≠ AC100_ADDA_TUNE1 by decide)]

/-- C2 as stated fails: powering the Headphone Amp up from the all-zero register
state, the `PRE_PMU` hook changes `HP_DCRM_EN` from 0 to 0xf while `PA_EN` is 0. -/
theorem dcrm_toggled_before_power_up :
    ∃ w, widget_named "Headphone Amp" = some w
      ∧ bit_of ((fun _ => 0 : Regmap) AC100_HPOUT_CTRL) AC100_HPOUT_CTRL_PA_EN_OFF = false
      ∧ ¬ dcrm_toggled_only_while_powered w true (fun _ => 0) := by
  refine ⟨_, widget_named_headphone_amp, by decide, ?_⟩
  intro h
  have h1 := h (fun _ => 0, SeqStep.event Hook.hp_power SND_SOC_DAPM_PRE_PMU)
    (by rw [headphone_amp_steps_up]; simp [run_steps])
    Hook.hp_power SND_SOC_DAPM_PRE_PMU rfl
    (by
      simp only [run_event]
      rw [hp_power_dcrm_field]
      decide)
  revert h1
  decide

/-- C2 (amended): for every register state `s`, (a) in a power-down transition of
the Headphone Amp started with `PA_EN` = 1, the power bit is 1 at every hook step
that changes `HP_DCRM_EN`, the hook runs once, at `PRE_PMD`, before the `PA_EN`
write, and the transition ends with `PA_EN` = 0 and `HP_DCRM_EN` = 0; (b) in a
power-up transition started with `PA_EN` = 0, the hook runs once, at `PRE_PMU`,
while `PA_EN` is still 0, the `PA_EN` write follows it, and the transition ends
with `PA_EN` = 1 and `HP_DCRM_EN` = 0xf. -/
theorem headphone_amp_transitions (s : Regmap) (w : snd_soc_dapm_widget)
    (hw : widget_named "Headphone Amp" = some w) :
    (bit_of (s AC100_HPOUT_CTRL) AC100_HPOUT_CTRL_PA_EN_OFF = true →
      dcrm_toggled_only_while_powered w false s
      ∧ (run_steps s (power_transition_steps w false)).1.map Prod.snd
          = [SeqStep.event Hook.hp_power SND_SOC_DAPM_PRE_PMD,
             SeqStep.power AC100_HPOUT_CTRL (BIT 11) 0]
      ∧ bit_of ((run_steps s (power_transition_steps w false)).2 AC100_HPOUT_CTRL)
          AC100_HPOUT_CTRL_PA_EN_OFF = false
      ∧ hp_dcrm_en_of
          ((run_steps s (power_transition_steps w false)).2 AC100_OUT_MXR_DAC_A_CTRL) = 0)
    ∧ (bit_of (s AC100_HPOUT_CTRL) AC100_HPOUT_CTRL_PA_EN_OFF = false →
      (run_steps s (power_transition_steps w true)).1.map Prod.snd
          = [SeqStep.event Hook.hp_power SND_SOC_DAPM_PRE_PMU,
             SeqStep.power AC100_HPOUT_CTRL (BIT 11) (BIT 11)]
      ∧ (∀ p ∈ (run_steps s (power_transition_steps w true)).1,
          ∀ h e, p.2 = SeqStep.event h e →
            bit_of (p.1 AC100_HPOUT_CTRL) AC100_HPOUT_CTRL_PA_EN_OFF = false)
      ∧ bit_of ((run_steps s (power_transition_steps w true)).2 AC100_HPOUT_CTRL)
          AC100_HPOUT_CTRL_PA_EN_OFF = true
      ∧ hp_dcrm_en_of
          ((run_steps s (power_transition_steps w true)).2 AC100_OUT_MXR_DAC_A_CTRL) = 0xf) := by
  rw [widget_named_headphone_amp] at hw
  cases hw
  have hne : AC100_OUT_MXR_DAC_A_CTRL ≠ AC100_HPOUT_CTRL := by decide
  have h11 : Nat.testBit (BIT 11) 11 = true := by decide
  constructor
  · intro hon
    refine ⟨?_, ?_, ?_, ?_⟩
    · intro p hp h e hpe _
      rw [headphone_amp_steps_down] at hp
      simp only [run_steps, List.mem_cons, List.mem_singleton, List.not_mem_nil, or_false] at hp
      rcases hp with rfl | rfl
      · exact hon
      · cases hpe
    · rw [headphone_amp_steps_down]; rfl
    · rw [headphone_amp_steps_down]
      simp only [run_steps, run_step, run_event, regmapBus, Function.update_same, bit_of,
        testBit_regmap_update, AC100_HPOUT_CTRL_PA_EN_OFF, h11]
      simp
    · rw [headphone_amp_steps_down]
      simp only [run_steps, run_step, run_event, regmapBus, Function.update_noteq hne]
      exact (hp_power_dcrm_field s _).trans (by decide)
  · intro hoff
    refine ⟨?_, ?_, ?_, ?_⟩
    · rw [headphone_amp_steps_up]; rfl
    · intro p hp h e hpe
      rw [headphone_amp_steps_up] at hp
      simp only [run_steps, List.mem_cons, List.mem_singleton, List.not_mem_nil, or_false] at hp
      rcases hp with rfl | rfl
      · exact hoff
      · cases hpe
    · rw [headphone_amp_steps_up]
      simp only [run_steps, run_step, run_event, regmapBus, Function.update_same, bit_of,
        testBit_regmap_update, AC100_HPOUT_CTRL_PA_EN_OFF, h11]
      simp
    · rw [headphone_amp_steps_up]
      simp only [run_steps, run_step, run_event, regmapBus, Function.update_noteq hne]
      exact (hp_power_dcrm_field s _).trans (by decide)

/-- Witness for C2: power-down from a state with only `PA_EN` set, power-up from
the all-zero state. -/
theorem headphone_amp_transitions_witness :
    widget_named "Headphone Amp" =
      some (SND_SOC_DAPM_SUPPLY "Headphone Amp" (some AC100_HPOUT_CTRL)
        AC100_HPOUT_CTRL_PA_EN_OFF 0 (some Hook.hp_power)
        (SND_SOC_DAPM_PRE_PMU ||| SND_SOC_DAPM_PRE_PMD))
    ∧ bit_of ((fun _ => 0x800 : Regmap) AC100_HPOUT_CTRL) AC100_HPOUT_CTRL_PA_EN_OFF = true
    ∧ dcrm_toggled_only_while_powered
        (SND_SOC_DAPM_SUPPLY "Headphone Amp" (some AC100_HPOUT_CTRL)
          AC100_HPOUT_CTRL_PA_EN_OFF 0 (some Hook.hp_power)
          (SND_SOC_DAPM_PRE_PMU ||| SND_SOC_DAPM_PRE_PMD)) false (fun _ => 0x800)
    ∧ bit_of ((fun _ => 0 : Regmap) AC100_HPOUT_CTRL) AC100_HPOUT_CTRL_PA_EN_OFF = false
    ∧ bit_of ((run_steps (fun _ => 0)
          (power_transition_steps
            (SND_SOC_DAPM_SUPPLY "Headphone Amp" (some AC100_HPOUT_CTRL)
              AC100_HPOUT_CTRL_PA_EN_OFF 0 (some Hook.hp_power)
              (SND_SOC_DAPM_PRE_PMU ||| SND_SOC_DAPM_PRE_PMD)) true)).2 AC100_HPOUT_CTRL)
        AC100_HPOUT_CTRL_PA_EN_OFF = true :=
  ⟨widget_named_headphone_amp, by decide,
    ((headphone_amp_transitions (fun _ => 0x800) _ widget_named_headphone_amp).1
      (by decide)).1,
    by decide,
    ((headphone_amp_transitions (fun _ => 0) _ widget_named_headphone_amp).2
      (by decide)).2.2.1⟩

/-! ## C3 -/

/-- C3 as stated fails: on a transport where every update fails with `-EIO`, the
hook run at `PRE_PMU` issues two updates, both fail, and it still returns 0. -/
theorem hp_power_swallows_failure :
    (ac100_codec_hp_power eioBus [] SND_SOC_DAPM_PRE_PMU).2
      = [(AC100_ADDA_TUNE1, EIO_neg), (AC100_OUT_MXR_DAC_A_CTRL, EIO_neg)]
    ∧ (∀ c ∈ (ac100_codec_hp_power eioBus [] SND_SOC_DAPM_PRE_PMU).2, c.2 < 0)
    ∧ ¬ (ac100_codec_hp_power eioBus [] SND_SOC_DAPM_PRE_PMU).1 ≠ 0 := by
  decide

/-- C3 (amended): for every event, every transport and every state of it, failing
or not, `ac100_codec_hp_power` returns 0: the return codes of its register
updates are discarded. -/
theorem hp_power_returns_zero {σ : Type} (bus : Bus σ) (component : σ) (event : Nat) :
    (ac100_codec_hp_power bus component event).1 = 0 :=
  rfl

/-! ## C4 -/

/-- C4 as stated fails: the Left Speaker Source mux has the in-domain selection
index 1, labelled "Mono", and two routes into it carry that label. -/
theorem left_speaker_mono_has_two_routes :
    ∃ w ∈ ac100_codec_widgets, w.name = "Left Speaker Source" ∧ w.id = snd_soc_dapm_mux
      ∧ 1 < (mux_texts w).length ∧ (mux_texts w).getD 1 "" = "Mono"
      ∧ routes_into w.name ((mux_texts w).getD 1 "")
          = [⟨"Left Speaker Source", some "Mono", "Right Mixer"⟩,
             ⟨"Left Speaker Source", some "Mono", "Left Mixer"⟩]
      ∧ ¬ (routes_into w.name ((mux_texts w).getD 1 "")).length = 1 := by
  decide

/-- C4 (amended): the mux widgets are the six the claim lists; for each of them
and every in-domain selection index, the number of routes into the mux that
carry the selected label is 2 for the label "Mono" of the Left and Right Speaker
Source muxes and 1 in every other case, so it is never zero. -/
theorem mux_route_count :
    (ac100_codec_widgets.filter (fun w => w.id == snd_soc_dapm_mux)).map (fun w => w.name)
      = ["Left Headphone Source", "Right Headphone Source", "Earpiece Source Playback Route",
         "Left Speaker Source", "Right Speaker Source", "Mic2 Amplifier Source"]
    ∧ ∀ w ∈ ac100_codec_widgets, w.id = snd_soc_dapm_mux →
        ∀ i, i < (mux_texts w).length →
          (routes_into w.name ((mux_texts w).getD i "")).length
            = (if (w.name = "Left Speaker Source" ∨ w.name = "Right Speaker Source")
                  ∧ (mux_texts w).getD i "" = "Mono" then 2 else 1) := by
  decide

/-- Witness for C4: selection 0 ("DAC") of the Left Headphone Source mux. -/
theorem mux_route_count_witness :
    (routes_into "Left Headphone Source" "DAC").length = 1 :=
  mux_route_count.2
    (SND_SOC_DAPM_MUX "Left Headphone Source" SND_SOC_NOPM 0 0 ac100_codec_hp_src)
    (by decide) (by decide) 0 (by decide)

/-! ## C5 -/

/-- C5 as stated fails: the widget "MBIAS" is declared and no route names it as
sink or as source. -/
theorem mbias_is_unattached :
    ∃ w ∈ ac100_codec_widgets, w.name = "MBIAS"
      ∧ (∀ r ∈ ac100_codec_routes, r.sink ≠ "MBIAS" ∧ r.source ≠ "MBIAS")
      ∧ ¬ attached w := by
  decide

/-- C5 (amended): a declared widget is attached to at least one route exactly
when it is not one of "Left Speaker Invert Switch", "Right Speaker Invert
Switch", "MBIAS" and "HBIAS"; these four are declared and appear in no route. -/
theorem widgets_attached_except_four :
    (∀ w ∈ ac100_codec_widgets, (attached w ↔ w.name ∉ unrouted_widgets))
    ∧ (∀ n ∈ unrouted_widgets, ∃ w ∈ ac100_codec_widgets, w.name = n) := by
  decide

/-- Witness for C5: the widget "HP" is attached. -/
theorem widgets_attached_except_four_witness :
    attached (SND_SOC_DAPM_OUTPUT "HP") :=
  (widgets_attached_except_four.1 (SND_SOC_DAPM_OUTPUT "HP") (by decide)).mpr (by decide)

/-! ## C6 -/

/-- C6: for every route of `ac100_codec_routes`, the sink and the source are names
of declared widgets, and the control name, when there is one, belongs to the
sink: a label of the sink's enumeration for a mux, the name of one of the sink's
switches for a mixer, the name of the sink's single control for a switch widget;
the routes without a control have a sink of another kind. -/
theorem routes_resolve : ∀ r ∈ ac100_codec_routes, route_resolves r := by
  decide

/-- Witness for C6: the route into the Left Mixer gated by "DAC Playback Switch". -/
theorem routes_resolve_witness :
    route_resolves ⟨"Left Mixer", some "DAC Playback Switch", "Left DAC"⟩ :=
  routes_resolve _ (by decide)

/-! ## C7 -/

/-- C7: no two entries of `ac100_codec_widgets` have the same name; names differing
only in case are different: "Earpiece" and "EARPIECE" are both declared, as are
"Line Out" and "LINEOUT". -/
theorem widget_names_unique :
    (ac100_codec_widgets.map (fun w => w.name)).Nodup
    ∧ "Earpiece" ∈ ac100_codec_widgets.map (fun w => w.name)
    ∧ "EARPIECE" ∈ ac100_codec_widgets.map (fun w => w.name)
    ∧ "Earpiece" ≠ "EARPIECE"
    ∧ "Line Out" ∈ ac100_codec_widgets.map (fun w => w.name)
    ∧ "LINEOUT" ∈ ac100_codec_widgets.map (fun w => w.name)
    ∧ "Line Out" ≠ "LINEOUT" := by
  decide


/-! ## C8 -/

theorem shiftRight_land_shiftLeft (raw m off : Nat) :
    (raw &&& (m <<< off)) >>> off = (raw >>> off) &&& m := by
  apply Nat.eq_of_testBit_eq
  intro i
  have h1 : off + i - off = i := by omega
  have h2 : off + i ≥ off := by omega
  rw [Nat.testBit_shiftRight, Nat.testBit_land, Nat.testBit_shiftLeft, Nat.testBit_land,
    Nat.testBit_shiftRight, h1]
  simp [h2]

theorem field_raw_lt (raw w off : Nat) :
    (raw &&& ((2 ^ w - 1) <<< off)) >>> off < 2 ^ w := by
  have hk : 0 < 2 ^ w := Nat.two_pow_pos w
  rw [shiftRight_land_shiftLeft]
  exact lt_of_le_of_lt Nat.and_le_right (by omega)

theorem enum_field_ok_of_check (e : soc_enum) (shift : Nat) (f : reg_field) (w : Nat)
    (h : enum_field_check e shift f w) : enum_field_ok e shift f w := by
  obtain ⟨h1, h2, h3, h4, h5, h6, h7⟩ := h
  have hk : 0 < 2 ^ w := Nat.two_pow_pos w
  refine ⟨⟨h1, h2, h3, h4, h5, h6, h7⟩, ?_, ?_⟩
  · intro raw
    rw [h2, h3]
    exact field_raw_lt raw w f.off
  · intro raw
    rw [h5, h3]
    exact lt_of_le_of_lt Nat.and_le_right (by omega)

/-- C8: the enumerated controls declared in the file are the ten of
`ac100_enum_bindings`; for each, and for each of its fields (left and right
shift), there is a width `w` such that the field mask of the register macros is
`w` ones at the field offset, the label list has `2^w` entries, every raw value
of the field is an index within the label list, and the `i`-th named value macro
of the field is `i` at the field offset. -/
theorem enum_labels_match_fields :
    declared_enums = ac100_enum_bindings.map (fun b => (b.name, b.e))
    ∧ ∀ b ∈ ac100_enum_bindings, ∃ w,
        enum_field_ok b.e b.e.shift_l b.left w ∧ enum_field_ok b.e b.e.shift_r b.right w := by
  refine ⟨by decide, ?_⟩
  have hc : ∀ b ∈ ac100_enum_bindings, ∃ w, w < 3 ∧
      enum_field_check b.e b.e.shift_l b.left w ∧ enum_field_check b.e b.e.shift_r b.right w := by
    decide
  intro b hb
  obtain ⟨w, _, hl, hr⟩ := hc b hb
  exact ⟨w, enum_field_ok_of_check _ _ _ _ hl, enum_field_ok_of_check _ _ _ _ hr⟩

/-- Witness for C8: the earpiece source enumeration, whose labels 0..3 are the
encodings of `DACR`, `DACL`, `RAMIX`, `LAMIX`. -/
theorem enum_labels_match_fields_witness :
    ∃ w, enum_field_ok ac100_codec_earpiece_src_enum ac100_codec_earpiece_src_enum.shift_l
          AC100_ERPOUT_CTRL_INPUT_SOURCE w
      ∧ enum_field_ok ac100_codec_earpiece_src_enum ac100_codec_earpiece_src_enum.shift_r
          AC100_ERPOUT_CTRL_INPUT_SOURCE w :=
  enum_labels_match_fields.2
    ⟨"Earpiece Source Playback Route", ac100_codec_earpiece_src_enum,
      AC100_ERPOUT_CTRL_INPUT_SOURCE, AC100_ERPOUT_CTRL_INPUT_SOURCE⟩ (by decide)

/-! ## C9 -/

theorem land_low_mask_roundtrip (k off v : Nat) (hv : v ≤ 2 ^ k - 1) :
    (((v &&& (2 ^ k - 1)) <<< off) >>> off) &&& (2 ^ k - 1) = v := by
  have hk : 0 < 2 ^ k := Nat.two_pow_pos k
  have hlt : v < 2 ^ k := by omega
  rw [Nat.shiftLeft_shiftRight, Nat.and_pow_two_sub_one_eq_mod, Nat.and_pow_two_sub_one_eq_mod,
    Nat.mod_mod, Nat.mod_eq_of_lt hlt]

theorem gain_field_ok_of (shift max : Nat) (f : field_macro) (k : Nat)
    (hF : ∀ v, f.F v = (v &&& f.m) <<< f.off) (hoff : f.off = shift) (hmax : max = f.m)
    (hfls : (1 <<< fls max) - 1 = f.m) (hm : f.m = 2 ^ k - 1) : gain_field_ok shift max f := by
  refine ⟨hF, hoff, hmax, hfls, ?_, ?_⟩
  · intro v hv
    rw [hF, hm]
    exact land_low_mask_roundtrip k f.off v (by rw [← hm, ← hmax]; exact hv)
  · intro raw
    rw [hmax]
    exact Nat.and_le_right

/-- C9: for every volume control of `ac100_codec_controls` and each of its channels
(left and right shift), a value-encoding macro `F(v) = ((v) & m) << off` is
defined for the control's register at that shift, the declared maximum equals
`m`, every `v` in `[0, max]` satisfies `(F(v) >> off) & m = v`, and every raw
field value `(raw >> shift) & m` is at most `max`. -/
theorem gain_controls_agree :
    ∀ c ∈ gain_controls,
      (∃ f, value_macro_at c.2.reg c.2.shift = some f ∧ gain_field_ok c.2.shift c.2.max f)
      ∧ (∃ f, value_macro_at c.2.reg c.2.rshift = some f ∧ gain_field_ok c.2.rshift c.2.max f) := by
  have hg : gain_controls = [
      ("Mic1 Boost Volume", ⟨AC100_ADC_SRC_BST_CTRL, 12, 12, 7, 0⟩),
      ("Mic2 Boost Volume", ⟨AC100_ADC_SRC_BST_CTRL, 8, 8, 7, 0⟩),
      ("Line In Pre-Gain Volume", ⟨AC100_ADC_SRC_BST_CTRL, 4, 4, 7, 0⟩),
      ("Aux In Pre-Gain Volume", ⟨AC100_ADC_SRC_BST_CTRL, 0, 0, 7, 0⟩),
      ("ADC Gain Capture Volume", ⟨AC100_ADC_APC_CTRL, 8, 12, 7, 0⟩),
      ("Mic1 Playback Volume", ⟨AC100_OUT_MXR_SRC_BST, 6, 6, 7, 0⟩),
      ("Mic2 Playback Volume", ⟨AC100_OUT_MXR_SRC_BST, 3, 3, 7, 0⟩),
      ("Line In Playback Volume", ⟨AC100_OUT_MXR_SRC_BST, 0, 0, 7, 0⟩),
      ("Aux In Playback Volume", ⟨AC100_OUT_MXR_SRC_BST, 9, 9, 7, 0⟩),
      ("Headphone Playback Volume", ⟨AC100_HPOUT_CTRL, 4, 4, 63, 0⟩),
      ("Earpiece Playback Volume", ⟨AC100_ERPOUT_CTRL, 0, 0, 31, 0⟩),
      ("Speaker Playback Volume", ⟨AC100_SPKOUT_CTRL, 0, 0, 31, 0⟩),
      ("Line Out Playback Volume", ⟨AC100_LINEOUT_CTRL, 5, 5, 7, 0⟩)] := by decide
  rw [hg]
  simp only [List.forall_mem_cons, List.not_mem_nil, false_implies, implies_true, and_true]
  refine ⟨?_, ?_, ?_, ?_, ?_, ?_, ?_, ?_, ?_, ?_, ?_, ?_, ?_⟩ <;>
    refine ⟨⟨_, rfl, ?_⟩, ⟨_, rfl, ?_⟩⟩ <;>
    first
      | exact gain_field_ok_of _ _ _ 3 (fun _ => rfl) rfl rfl (by decide) (by decide)
      | exact gain_field_ok_of _ _ _ 5 (fun _ => rfl) rfl rfl (by decide) (by decide)
      | exact gain_field_ok_of _ _ _ 6 (fun _ => rfl) rfl rfl (by decide) (by decide)

/-- Witness for C9: the Headphone Playback Volume control. -/
theorem gain_controls_agree_witness :
    (∃ f, value_macro_at AC100_HPOUT_CTRL 4 = some f ∧ gain_field_ok 4 0x3f f)
    ∧ (AC100_HPOUT_CTRL_VOLUME 0x3f >>> 4) &&& 0x3f = 0x3f :=
  ⟨(gain_controls_agree ("Headphone Playback Volume", ⟨AC100_HPOUT_CTRL, 4, 4, 0x3f, 0⟩)
      (by decide)).1, by decide⟩

/-! ## C10 -/

/-- Along a chain of routes the rank of a dependency order strictly increases. -/
theorem rank_lt_of_chain (rank : String → Nat) (h : dependency_order rank) {a b : String}
    (p : Relation.TransGen route_edge a b) : rank a < rank b := by
  induction p with
  | single e =>
    obtain ⟨r, hr, rfl, rfl⟩ := e
    exact h r hr
  | tail _ e ih =>
    obtain ⟨r, hr, rfl, rfl⟩ := e
    exact lt_trans ih (h r hr)

/-- C10: `ac100_rank` ranks the source of every route strictly before its sink, so
no chain of routes leads from a widget back to itself; every ranking with that
property puts "cpvdd" strictly before "Headphone Amp", that strictly before
"Left Headphone Amp" and "Right Headphone Amp", and those strictly before "HP";
and reversing such a ranking (rank `N - rank`, `N` a bound on the ranks) puts the
sink of every route strictly before its source. -/
theorem dependency_order_exists :
    dependency_order ac100_rank
    ∧ (∀ a, ¬ Relation.TransGen route_edge a a)
    ∧ (∀ rank : String → Nat, dependency_order rank →
        rank "cpvdd" < rank "Headphone Amp"
        ∧ rank "Headphone Amp" < rank "Left Headphone Amp"
        ∧ rank "Headphone Amp" < rank "Right Headphone Amp"
        ∧ rank "Left Headphone Amp" < rank "HP"
        ∧ rank "Right Headphone Amp" < rank "HP")
    ∧ (∀ (rank : String → Nat) (N : Nat), dependency_order rank → (∀ n, rank n ≤ N) →
        ∀ r ∈ ac100_codec_routes, N - rank r.sink < N - rank r.source) := by
  have h0 : dependency_order ac100_rank := by decide
  refine ⟨h0, ?_, ?_, ?_⟩
  · intro a p
    exact lt_irrefl _ (rank_lt_of_chain ac100_rank h0 p)
  · intro rank h
    exact ⟨h ⟨"Headphone Amp", none, "cpvdd"⟩ (by decide),
      h ⟨"Left Headphone Amp", none, "Headphone Amp"⟩ (by decide),
      h ⟨"Right Headphone Amp", none, "Headphone Amp"⟩ (by decide),
      h ⟨"HP", none, "Left Headphone Amp"⟩ (by decide),
      h ⟨"HP", none, "Right Headphone Amp"⟩ (by decide)⟩
  · intro rank N h hN r hr
    have h1 := h r hr
    have h2 := hN r.sink
    omega

/-- Witness for C10: the ranking `ac100_rank`, bounded by 7. -/
theorem dependency_order_exists_witness :
    dependency_order ac100_rank
    ∧ ac100_rank "cpvdd" < ac100_rank "Headphone Amp"
    ∧ 7 - ac100_rank "HP" < 7 - ac100_rank "Left Headphone Amp" :=
  ⟨dependency_order_exists.1,
    (dependency_order_exists.2.2.1 ac100_rank (by decide)).1,
    dependency_order_exists.2.2.2 ac100_rank 7 (by decide)
      (by
        intro n
        unfold ac100_rank
        split_ifs <;> decide)
      ⟨"HP", none, "Left Headphone Amp"⟩ (by decide)⟩

/-! ## C11 -/

/-- C11: for every bias level and every component state, `ac100_codec_set_bias_level`
returns 0 and leaves the state unchanged, so a second request for the same level
returns 0 again and yields the same state as the first. -/
theorem set_bias_level_accepts_and_keeps_state {σ : Type} (s : σ) (level : snd_soc_bias_level) :
    (ac100_codec_set_bias_level s level).1 = 0
    ∧ (ac100_codec_set_bias_level s level).2.1 = s
    ∧ (ac100_codec_set_bias_level (ac100_codec_set_bias_level s level).2.1 level).1 = 0
    ∧ (ac100_codec_set_bias_level (ac100_codec_set_bias_level s level).2.1 level).2.1
        = (ac100_codec_set_bias_level s level).2.1 :=
  ⟨rfl, rfl, rfl, rfl⟩

/-! ## C12 -/

/-- C12 as stated fails: with every register at 0xffff, a request for
`SND_SOC_BIAS_STANDBY` (and likewise `SND_SOC_BIAS_OFF`) leaves the Headphone Amp
power bit, bit 11 of `AC100_HPOUT_CTRL`, at 1. -/
theorem set_bias_level_standby_keeps_power :
    ("Headphone Amp", AC100_HPOUT_CTRL, 11) ∈ widget_power_bits
    ∧ bit_of ((ac100_codec_set_bias_level (fun _ => 0xffff : Regmap)
        SND_SOC_BIAS_STANDBY).2.1 AC100_HPOUT_CTRL) 11 = true
    ∧ bit_of ((ac100_codec_set_bias_level (fun _ => 0xffff : Regmap)
        SND_SOC_BIAS_OFF).2.1 AC100_HPOUT_CTRL) 11 = true
    ∧ ¬ all_powered_down
        (ac100_codec_set_bias_level (fun _ => 0xffff : Regmap) SND_SOC_BIAS_STANDBY).2.1
    ∧ ¬ all_powered_down
        (ac100_codec_set_bias_level (fun _ => 0xffff : Regmap) SND_SOC_BIAS_OFF).2.1 := by
  refine ⟨by decide, by decide, by decide, ?_, ?_⟩ <;>
  · intro h
    exact absurd (h ("Headphone Amp", AC100_HPOUT_CTRL, 11) (by decide)) (by decide)

/-- C12 (amended): the widget power-control bits are the twelve the claim lists,
and for every bias level and every prior register state each of them has after
`ac100_codec_set_bias_level` the value it had before; in particular they are all
0 after a request exactly when they were all 0 before it. -/
theorem set_bias_level_keeps_power_bits (s : Regmap) (level : snd_soc_bias_level) :
    widget_power_bits.map Prod.fst
      = ["Left DAC", "Right DAC", "Left ADC", "Right ADC", "Headphone Amp", "Earpiece Amp",
         "MBIAS", "Mic1 Amplifier", "HBIAS", "Mic2 Amplifier", "Left Mixer", "Right Mixer"]
    ∧ (∀ p ∈ widget_power_bits,
        bit_of ((ac100_codec_set_bias_level s level).2.1 p.2.1) p.2.2 = bit_of (s p.2.1) p.2.2)
    ∧ (all_powered_down (ac100_codec_set_bias_level s level).2.1 ↔ all_powered_down s) :=
  ⟨by decide, fun _ _ => rfl, Iff.rfl⟩

/-- Witness for C12: the Left DAC enable bit under a request for
`SND_SOC_BIAS_OFF` from a state with every register at 0x4000. -/
theorem set_bias_level_keeps_power_bits_witness :
    bit_of ((ac100_codec_set_bias_level (fun _ => 0x4000 : Regmap) SND_SOC_BIAS_OFF).2.1
        AC100_OUT_MXR_DAC_A_CTRL) 14 = true :=
  ((set_bias_level_keeps_power_bits (fun _ => 0x4000) SND_SOC_BIAS_OFF).2.1
    ("Left DAC", AC100_OUT_MXR_DAC_A_CTRL, 14) (by decide)).trans (by decide)

/-! ## C13 -/

set_option maxRecDepth 100000

/-- A masked update leaves the bits of a disjoint 32-bit field as they were. -/
theorem regmap_update_land_disjoint (x m v b : Nat) (hd : m &&& b = 0) (hb : b < 2 ^ 32) :
    regmap_update x m v &&& b = x &&& b := by
  apply Nat.eq_of_testBit_eq
  intro i
  rw [Nat.testBit_land, Nat.testBit_land, testBit_regmap_update]
  cases hbi : Nat.testBit b i
  · simp
  · have hi : i < 32 := by
      by_contra hge
      have : Nat.testBit b i = false :=
        Nat.testBit_lt_two_pow (lt_of_lt_of_le hb (Nat.pow_le_pow_right (by norm_num) (by omega)))
      rw [this] at hbi
      exact Bool.noConfusion hbi
    have hm : Nat.testBit m i = false := by
      have h0 : Nat.testBit (m &&& b) i = false := by rw [hd, Nat.zero_testBit]
      rw [Nat.testBit_land, hbi] at h0
      simpa using h0
    simp [hi, hm]

/-- C13: the register fields bound in the file (every channel of every volume,
switch and enumerated control, and every widget power bit, each distinct binding
once) are pairwise disjoint within each register, and a masked update of one
binding's field leaves the bits of every other binding in that register as they
were, whatever the register value and the value written. -/
theorem bindings_pairwise_disjoint :
    all_bindings.Pairwise bindings_disjoint
    ∧ ∀ a ∈ all_bindings, ∀ b ∈ all_bindings, a ≠ b → a.reg = b.reg →
        a.mask &&& b.mask = 0
        ∧ ∀ x v : Nat, regmap_update x a.mask v &&& b.mask = x &&& b.mask := by
  have hp : all_bindings.Pairwise bindings_disjoint := by decide
  have hlt : ∀ b ∈ all_bindings, b.mask < 2 ^ 16 := by decide
  have hsymm : Symmetric bindings_disjoint := by
    intro a b h hr
    rw [Nat.land_comm]
    exact h hr.symm
  refine ⟨hp, ?_⟩
  intro a ha b hb hab hr
  have hd : a.mask &&& b.mask = 0 := hp.forall hsymm ha hb hab hr
  refine ⟨hd, fun x v => ?_⟩
  exact regmap_update_land_disjoint x a.mask v b.mask hd
    (lt_trans (hlt b hb) (by norm_num))

/-- Witness for C13: the Headphone Playback Volume field and the Headphone Amp
power bit, both in `AC100_HPOUT_CTRL`. -/
theorem bindings_pairwise_disjoint_witness :
    (0x3f0 : Nat) &&& 0x800 = 0
    ∧ ∀ x v : Nat, regmap_update x 0x3f0 v &&& 0x800 = x &&& 0x800 :=
  bindings_pairwise_disjoint.2
    ⟨binding_kind.control, "Headphone Playback Volume", AC100_HPOUT_CTRL, 0x3f0⟩ (by decide)
    ⟨binding_kind.power, "Headphone Amp", AC100_HPOUT_CTRL, 0x800⟩ (by decide)
    (by decide) rfl

/-! ## C14 -/

/-- The register file after the hook: `AC100_ADDA_TUNE1` and
`AC100_OUT_MXR_DAC_A_CTRL` receive one masked update each. -/
theorem hp_power_state (s : Regmap) (e : Nat) :
    (ac100_codec_hp_power regmapBus s e).2 =
      Function.update
        (Function.update s AC100_ADDA_TUNE1
          (regmap_update (s AC100_ADDA_TUNE1) AC100_ADDA_TUNE1_ZERO_CROSSOVER_EN_MASK
            (if SND_SOC_DAPM_EVENT_OFF e ≠ 0 then AC100_ADDA_TUNE1_ZERO_CROSSOVER_EN_EN
              else AC100_ADDA_TUNE1_ZERO_CROSSOVER_EN_DIS)))
        AC100_OUT_MXR_DAC_A_CTRL
        (regmap_update (s AC100_OUT_MXR_DAC_A_CTRL) (AC100_OUT_MXR_DAC_A_CTRL_HP_DCRM_EN 0xf)
          (AC100_OUT_MXR_DAC_A_CTRL_HP_DCRM_EN
            (if SND_SOC_DAPM_EVENT_ON e ≠ 0 then 0xf else 0))) := by
  have hne : AC100_OUT_MXR_DAC_A_CTRL ≠ AC100_ADDA_TUNE1 := by decide
  simp only [ac100_codec_hp_power, regmapBus]
  split_ifs <;> simp [Function.update_noteq hne]

/-- A masked update leaves a bit outside the mask as it was (within 32 bits). -/
theorem testBit_regmap_update_outside (x m v i : Nat) (hi : i < 32)
    (hm : Nat.testBit m i = false) :
    Nat.testBit (regmap_update x m v) i = Nat.testBit x i := by
  rw [testBit_regmap_update]
  simp [hi, hm]

/-- Bit `i` of the zero-crossover mask is set only for `i = 8`. -/
theorem testBit_zero_cross_mask (i : Nat) (hi : i ≠ 8) :
    Nat.testBit AC100_ADDA_TUNE1_ZERO_CROSSOVER_EN_MASK i = false := by
  have h : AC100_ADDA_TUNE1_ZERO_CROSSOVER_EN_MASK = 2 ^ 8 := by decide
  rw [h, Nat.testBit_two_pow]
  simp [Ne.symm hi]

/-- Bit `i` of the `HP_DCRM_EN` mask is set only for `8 ≤ i ≤ 11`. -/
theorem testBit_hp_dcrm_mask (i : Nat) (hi : i < 8 ∨ 11 < i) :
    Nat.testBit (AC100_OUT_MXR_DAC_A_CTRL_HP_DCRM_EN 0xf) i = false := by
  have h : AC100_OUT_MXR_DAC_A_CTRL_HP_DCRM_EN 0xf = 15 <<< 8 := by decide
  rw [h, Nat.testBit_shiftLeft, testBit_fifteen]
  rcases hi with hi | hi
  · have : ¬ i ≥ 8 := by omega
    simp [this]
  · have : ¬ i - 8 < 4 := by omega
    simp [this]

/-- The hook changes no bit below 32 other than bit 8 of `AC100_ADDA_TUNE1` and
bits 8..11 of `AC100_OUT_MXR_DAC_A_CTRL`. -/
theorem hp_power_keeps_bit (s : Regmap) (e : Nat) (r : Reg) (i : Nat) (hi : i < 32)
    (ht : r = AC100_ADDA_TUNE1 → i ≠ 8)
    (ho : r = AC100_OUT_MXR_DAC_A_CTRL → i < 8 ∨ 11 < i) :
    Nat.testBit ((ac100_codec_hp_power regmapBus s e).2 r) i = Nat.testBit (s r) i := by
  rw [hp_power_state]
  by_cases h1 : r = AC100_OUT_MXR_DAC_A_CTRL
  · subst h1
    rw [Function.update_same]
    exact testBit_regmap_update_outside _ _ _ i hi (testBit_hp_dcrm_mask i (ho rfl))
  · rw [Function.update_noteq h1]
    by_cases h2 : r = AC100_ADDA_TUNE1
    · subst h2
      rw [Function.update_same]
      exact testBit_regmap_update_outside _ _ _ i hi (testBit_zero_cross_mask i (ht rfl))
    · rw [Function.update_noteq h2]

/-- C14: for every event and register state, `ac100_codec_hp_power` leaves every
register other than `AC100_ADDA_TUNE1` and `AC100_OUT_MXR_DAC_A_CTRL` unchanged,
changes no bit of `AC100_ADDA_TUNE1` other than bit 8 and no bit of
`AC100_OUT_MXR_DAC_A_CTRL` other than bits 8..11 (bit positions below 32, the
width of a register value); in particular bits 12..15 of
`AC100_OUT_MXR_DAC_A_CTRL` (mixer and DAC enables), every widget power bit and
every control field keep their values. -/
theorem hp_power_frame (e : Nat) (s : Regmap) :
    (∀ r, r ≠ AC100_ADDA_TUNE1 → r ≠ AC100_OUT_MXR_DAC_A_CTRL →
        (ac100_codec_hp_power regmapBus s e).2 r = s r)
    ∧ (∀ i, i < 32 → i ≠ 8 →
        Nat.testBit ((ac100_codec_hp_power regmapBus s e).2 AC100_ADDA_TUNE1) i
          = Nat.testBit (s AC100_ADDA_TUNE1) i)
    ∧ (∀ i, i < 32 → (i < 8 ∨ 11 < i) →
        Nat.testBit ((ac100_codec_hp_power regmapBus s e).2 AC100_OUT_MXR_DAC_A_CTRL) i
          = Nat.testBit (s AC100_OUT_MXR_DAC_A_CTRL) i)
    ∧ (∀ i ∈ [AC100_OUT_MXR_DAC_A_CTRL_AL_MIX_EN_OFF, AC100_OUT_MXR_DAC_A_CTRL_AR_MIX_EN_OFF,
          AC100_OUT_MXR_DAC_A_CTRL_DAC_AL_EN_OFF, AC100_OUT_MXR_DAC_A_CTRL_DAC_AR_EN_OFF],
        bit_of ((ac100_codec_hp_power regmapBus s e).2 AC100_OUT_MXR_DAC_A_CTRL) i
          = bit_of (s AC100_OUT_MXR_DAC_A_CTRL) i)
    ∧ (∀ p ∈ widget_power_bits,
        bit_of ((ac100_codec_hp_power regmapBus s e).2 p.2.1) p.2.2 = bit_of (s p.2.1) p.2.2)
    ∧ (∀ b ∈ all_bindings,
        (ac100_codec_hp_power regmapBus s e).2 b.reg &&& b.mask = s b.reg &&& b.mask) := by
  refine ⟨?_, ?_, ?_, ?_, ?_, ?_⟩
  · intro r h1 h2
    rw [hp_power_state, Function.update_noteq h2, Function.update_noteq h1]
  · intro i hi h8
    exact hp_power_keeps_bit s e _ i hi (fun _ => h8) (fun h => absurd h (by decide))
  · intro i hi ho
    exact hp_power_keeps_bit s e _ i hi (fun h => absurd h (by decide)) (fun _ => ho)
  · intro i hmem
    have hb : i < 32 ∧ (i < 8 ∨ 11 < i) := by
      revert i
      decide
    exact hp_power_keeps_bit s e _ i hb.1 (fun h => absurd h (by decide)) (fun _ => hb.2)
  · have hall : ∀ p ∈ widget_power_bits, p.2.2 < 32 ∧ p.2.1 ≠ AC100_ADDA_TUNE1
        ∧ (p.2.1 = AC100_OUT_MXR_DAC_A_CTRL → p.2.2 < 8 ∨ 11 < p.2.2) := by decide
    intro p hp
    obtain ⟨h1, h2, h3⟩ := hall p hp
    exact hp_power_keeps_bit s e _ _ h1 (fun h => absurd h h2) h3
  · have hall : ∀ b ∈ all_bindings, b.mask < 2 ^ 32 ∧ b.reg ≠ AC100_ADDA_TUNE1
        ∧ (b.reg = AC100_OUT_MXR_DAC_A_CTRL →
            AC100_OUT_MXR_DAC_A_CTRL_HP_DCRM_EN 0xf &&& b.mask = 0) := by decide
    intro b hb
    obtain ⟨h1, h2, h3⟩ := hall b hb
    rw [hp_power_state]
    by_cases ho : b.reg = AC100_OUT_MXR_DAC_A_CTRL
    · rw [ho, Function.update_same]
      exact regmap_update_land_disjoint _ _ _ _ (h3 ho) h1
    · rw [Function.update_noteq ho, Function.update_noteq h2]

/-- Witness for C14: the Left DAC enable bit (bit 14 of
`AC100_OUT_MXR_DAC_A_CTRL`) across a `PRE_PMU` hook run from a state with every
register at 0x4000. -/
theorem hp_power_frame_witness :
    Nat.testBit ((ac100_codec_hp_power regmapBus (fun _ => 0x4000)
        SND_SOC_DAPM_PRE_PMU).2 AC100_OUT_MXR_DAC_A_CTRL) 14 = true :=
  ((hp_power_frame SND_SOC_DAPM_PRE_PMU (fun _ => 0x4000)).2.2.1 14 (by decide)
    (Or.inr (by decide))).trans (by decide)

/-! ## C15 -/

/-- A node found by one round of search was in the set or is the head of an
edge starting in the set. -/
theorem reach_step_sound (edges : List (String × String)) (S : List String) (x : String)
    (hx : x ∈ reach_step edges S) : x ∈ S ∨ ∃ y ∈ S, (y, x) ∈ edges := by
  unfold reach_step at hx
  rw [List.mem_dedup, List.mem_append] at hx
  rcases hx with h | h
  · exact Or.inl h
  · rw [List.mem_map] at h
    obtain ⟨e, he, rfl⟩ := h
    rw [List.mem_filter] at he
    exact Or.inr ⟨e.1, of_decide_eq_true he.2, he.1⟩

/-- Every node found by the search is reached from the start set along edges. -/
theorem reach_sound (edges : List (String × String)) (n : Nat) :
    ∀ (S : List String) (x : String), x ∈ reach edges n S →
      ∃ y ∈ S, Relation.ReflTransGen (fun a b => (a, b) ∈ edges) y x := by
  induction n with
  | zero =>
    intro S x hx
    exact ⟨x, hx, Relation.ReflTransGen.refl⟩
  | succ k ih =>
    intro S x hx
    obtain ⟨y, hy, hyx⟩ := ih (reach_step edges S) x hx
    rcases reach_step_sound edges S y hy with h | ⟨z, hz, hzy⟩
    · exact ⟨y, h, hyx⟩
    · exact ⟨z, hz, Relation.ReflTransGen.head hzy hyx⟩

theorem route_edges_iff (a b : String) : (a, b) ∈ route_edges ↔ route_edge a b := by
  unfold route_edges route_edge
  rw [List.mem_map]
  constructor
  · rintro ⟨r, hr, h⟩
    cases h
    exact ⟨r, hr, rfl, rfl⟩
  · rintro ⟨r, hr, rfl, rfl⟩
    exact ⟨r, hr, rfl⟩

theorem route_edges_rev_iff (a b : String) : (a, b) ∈ route_edges_rev ↔ route_edge b a := by
  unfold route_edges_rev route_edge
  rw [List.mem_map]
  constructor
  · rintro ⟨r, hr, h⟩
    cases h
    exact ⟨r, hr, rfl, rfl⟩
  · rintro ⟨r, hr, rfl, rfl⟩
    exact ⟨r, hr, rfl⟩

/-- Forward search from `S` finds only nodes reached from `S` along routes. -/
theorem reach_forward (n : Nat) (S : List String) (x : String)
    (hx : x ∈ reach route_edges n S) : ∃ y ∈ S, Relation.ReflTransGen route_edge y x := by
  obtain ⟨y, hy, h⟩ := reach_sound route_edges n S x hx
  exact ⟨y, hy, h.mono (fun a b hab => (route_edges_iff a b).mp hab)⟩

/-- Backward search from `S` finds only nodes that reach `S` along routes. -/
theorem reach_backward (n : Nat) (S : List String) (x : String)
    (hx : x ∈ reach route_edges_rev n S) : ∃ y ∈ S, Relation.ReflTransGen route_edge x y := by
  obtain ⟨y, hy, h⟩ := reach_sound route_edges_rev n S x hx
  have h2 : Relation.ReflTransGen (Function.swap route_edge) y x :=
    h.mono (fun a b hab => (route_edges_rev_iff a b).mp hab)
  exact ⟨y, hy, Relation.reflTransGen_swap.mp h2⟩

/-- Both ends of a route occur in the route table. -/
theorem route_edge_routed (a b : String) (h : route_edge a b) :
    a ∈ routed_names ∧ b ∈ routed_names := by
  obtain ⟨r, hr, rfl, rfl⟩ := h
  unfold routed_names
  constructor <;>
  · rw [List.mem_dedup, List.mem_flatten]
    exact ⟨[r.sink, r.source], List.mem_map.mpr ⟨r, hr, rfl⟩, by simp⟩

/-- C15: the sources (inputs, DACs and cpvdd, none with an incoming route) and the
sinks (outputs and ADCs) are as listed; every name occurring in
`ac100_codec_routes` lies on a directed path of routes from a source to a sink,
and no other name does; every output and ADC is reached from some input or DAC,
and every input and DAC reaches some output or ADC. -/
theorem routed_widgets_on_signal_path :
    source_names = ["Left DAC", "Right DAC", "cpvdd", "MIC1", "MIC2", "MIC3", "LINEIN", "AUXIN"]
    ∧ sink_names = ["Left ADC", "Right ADC", "HP", "EARPIECE", "SPKOUTL", "SPKOUTR", "LINEOUT"]
    ∧ (∀ n, on_signal_path n ↔ n ∈ routed_names)
    ∧ (∀ w ∈ ac100_codec_widgets, on_signal_path w.name ↔ w.name ∉ unrouted_widgets)
    ∧ (∀ t ∈ sink_names, ∃ s ∈ signal_source_names, Relation.ReflTransGen route_edge s t)
    ∧ (∀ s ∈ signal_source_names, ∃ t ∈ sink_names, Relation.ReflTransGen route_edge s t) := by
  have hf : ∀ n ∈ routed_names, n ∈ reach route_edges 8 source_names := by decide
  have hb : ∀ n ∈ routed_names, n ∈ reach route_edges_rev 8 sink_names := by decide
  have hsrc : ∀ s ∈ source_names, s ∈ routed_names := by decide
  have hiff : ∀ n, on_signal_path n ↔ n ∈ routed_names := by
    intro n
    constructor
    · rintro ⟨s, hs, _, _, hsn, _⟩
      rcases Relation.ReflTransGen.cases_tail hsn with h | ⟨m, _, hmn⟩
      · rw [h]; exact hsrc s hs
      · exact (route_edge_routed m n hmn).2
    · intro hn
      obtain ⟨s, hs, hsn⟩ := reach_forward 8 source_names n (hf n hn)
      obtain ⟨t, ht, hnt⟩ := reach_backward 8 sink_names n (hb n hn)
      exact ⟨s, hs, t, ht, hsn, hnt⟩
  have hw : ∀ w ∈ ac100_codec_widgets, (w.name ∈ routed_names ↔ w.name ∉ unrouted_widgets) := by
    decide
  refine ⟨by decide, by decide, hiff, ?_, ?_, ?_⟩
  · intro w hmem
    rw [hiff]
    exact hw w hmem
  · have h : ∀ t ∈ sink_names, t ∈ reach route_edges 8 signal_source_names := by decide
    intro t ht
    exact reach_forward 8 signal_source_names t (h t ht)
  · have h : ∀ s ∈ signal_source_names, s ∈ reach route_edges_rev 8 sink_names := by decide
    intro s hs
    exact reach_backward 8 sink_names s (h s hs)

/-- Witness for C15: "Headphone Amp" occurs in the route table, so it lies on a
path from a source to a sink; "HP" is reached from an input or DAC. -/
theorem routed_widgets_on_signal_path_witness :
    on_signal_path "Headphone Amp"
    ∧ ∃ s ∈ signal_source_names, Relation.ReflTransGen route_edge s "HP" :=
  ⟨(routed_widgets_on_signal_path.2.2.1 "Headphone Amp").mpr (by decide),
    routed_widgets_on_signal_path.2.2.2.2.1 "HP" (by decide)⟩

/-! ## C16 -/

/-- C16: each of the seven stereo switches of `ac100_codec_adc_mixer_controls`
(register `AC100_ADC_SRC`) and of `ac100_codec_mixer_controls` (register
`AC100_OUT_MXR_SRC`) binds two distinct bits of that register, the left one in
bits 0..6 and the right one in bits 7..13 with right = left + 7; within each
table the left bits are pairwise distinct and so are the right bits, so the
fourteen switch bits of each register are bits 0..13, each bound once. -/
theorem stereo_switch_layout :
    ac100_codec_adc_mixer_controls.length = 7
    ∧ ac100_codec_mixer_controls.length = 7
    ∧ stereo_layout AC100_ADC_SRC ac100_codec_adc_mixer_controls
    ∧ stereo_layout AC100_OUT_MXR_SRC ac100_codec_mixer_controls
    ∧ (∀ i, i < 14 →
        ((stereo_bits ac100_codec_adc_mixer_controls).map (fun b => b.2.1)
          ++ (stereo_bits ac100_codec_adc_mixer_controls).map (fun b => b.2.2)).count i = 1)
    ∧ (∀ i, i < 14 →
        ((stereo_bits ac100_codec_mixer_controls).map (fun b => b.2.1)
          ++ (stereo_bits ac100_codec_mixer_controls).map (fun b => b.2.2)).count i = 1) := by
  refine ⟨by decide, by decide, ?_, ?_, by decide, by decide⟩
  · refine ⟨by decide, ?_, by decide, by decide, by decide⟩
    intro k hk mc hmc
    simp only [ac100_codec_adc_mixer_controls, SOC_DAPM_DOUBLE, List.mem_cons,
      List.mem_singleton, List.not_mem_nil, or_false] at hk
    rcases hk with rfl | rfl | rfl | rfl | rfl | rfl | rfl <;> cases hmc <;> rfl
  · refine ⟨by decide, ?_, by decide, by decide, by decide⟩
    intro k hk mc hmc
    simp only [ac100_codec_mixer_controls, SOC_DAPM_DOUBLE, List.mem_cons,
      List.mem_singleton, List.not_mem_nil, or_false] at hk
    rcases hk with rfl | rfl | rfl | rfl | rfl | rfl | rfl <;> cases hmc <;> rfl

/-- Witness for C16: bit `i = 13` of `AC100_ADC_SRC` is bound once, by the right
channel of "Mic1 Capture Switch". -/
theorem stereo_switch_layout_witness :
    ((stereo_bits ac100_codec_adc_mixer_controls).map (fun b => b.2.1)
      ++ (stereo_bits ac100_codec_adc_mixer_controls).map (fun b => b.2.2)).count 13 = 1 :=
  stereo_switch_layout.2.2.2.2.1 13 (by decide)

/-! ## C17 -/

/-- Two masked updates of the same field: the second value wins. -/
theorem regmap_update_twice (x m v1 v2 : Nat) (hm : m < 2 ^ 32) :
    regmap_update (regmap_update x m v1) m v2 = regmap_update x m v2 := by
  apply Nat.eq_of_testBit_eq
  intro i
  rw [testBit_regmap_update, testBit_regmap_update, testBit_regmap_update]
  by_cases hi : i < 32
  · cases Nat.testBit m i <;> simp [hi]
  · have h0 : Nat.testBit m i = false :=
      Nat.testBit_lt_two_pow (lt_of_lt_of_le hm (Nat.pow_le_pow_right (by norm_num) (by omega)))
    simp [hi, h0]

/-- C17: for all events `e1`, `e2` and every register state `s`, running
`ac100_codec_hp_power` with `e1` and then with `e2` leaves the same register state
as running it with `e2` alone; in particular running it twice with one event
equals running it once, and a `PRE_PMU` run followed by a `PRE_PMD` run leaves the
state of the `PRE_PMD` run alone. -/
theorem hp_power_last_call_wins (e1 e2 : Nat) (s : Regmap) :
    (ac100_codec_hp_power regmapBus (ac100_codec_hp_power regmapBus s e1).2 e2).2
        = (ac100_codec_hp_power regmapBus s e2).2
    ∧ (ac100_codec_hp_power regmapBus (ac100_codec_hp_power regmapBus s e1).2 e1).2
        = (ac100_codec_hp_power regmapBus s e1).2
    ∧ (ac100_codec_hp_power regmapBus
          (ac100_codec_hp_power regmapBus s SND_SOC_DAPM_PRE_PMU).2 SND_SOC_DAPM_PRE_PMD).2
        = (ac100_codec_hp_power regmapBus s SND_SOC_DAPM_PRE_PMD).2 := by
  have key : ∀ a b : Nat,
      (ac100_codec_hp_power regmapBus (ac100_codec_hp_power regmapBus s a).2 b).2
        = (ac100_codec_hp_power regmapBus s b).2 := by
    intro a b
    have hne : AC100_OUT_MXR_DAC_A_CTRL ≠ AC100_ADDA_TUNE1 := by decide
    have hmt : AC100_ADDA_TUNE1_ZERO_CROSSOVER_EN_MASK < 2 ^ 32 := by decide
    have hmo : AC100_OUT_MXR_DAC_A_CTRL_HP_DCRM_EN 0xf < 2 ^ 32 := by decide
    funext r
    rw [hp_power_state (ac100_codec_hp_power regmapBus s a).2 b, hp_power_state s b,
      hp_power_state s a]
    by_cases h1 : r = AC100_OUT_MXR_DAC_A_CTRL
    · subst h1
      simp only [Function.update_same]
      exact regmap_update_twice _ _ _ _ hmo
    · by_cases h2 : r = AC100_ADDA_TUNE1
      · subst h2
        simp only [Function.update_noteq h1, Function.update_same, Function.update_noteq hne.symm]
        exact regmap_update_twice _ _ _ _ hmt
      · simp only [Function.update_noteq h1, Function.update_noteq h2]
  exact ⟨key e1 e2, key e1 e1, key _ _⟩

/-! ## C18 -/

/-- C18: `ac100_codec_probe` returns 0 exactly when the allocation succeeds,
`snd_soc_component_initialize` returns a non-negative value and
`snd_soc_add_component` returns 0; when the allocation fails it returns `-ENOMEM`
and does not call `snd_soc_component_initialize`; when the allocation succeeds
and initialization returns a negative value it returns that value and does not
call `snd_soc_add_component`; when both succeed and registration returns a
non-zero value it returns that value. -/
theorem probe_result (env : probe_env) :
    ((ac100_codec_probe env).1 = 0
      ↔ env.kzalloc_ok = true ∧ 0 ≤ env.component_init_ret ∧ env.add_component_ret = 0)
    ∧ (env.kzalloc_ok = false →
        (ac100_codec_probe env).1 = -ENOMEM
        ∧ probe_call.component_init ∉ (ac100_codec_probe env).2
        ∧ probe_call.add_component ∉ (ac100_codec_probe env).2)
    ∧ (env.kzalloc_ok = true → env.component_init_ret < 0 →
        (ac100_codec_probe env).1 = env.component_init_ret
        ∧ probe_call.component_init ∈ (ac100_codec_probe env).2
        ∧ probe_call.add_component ∉ (ac100_codec_probe env).2)
    ∧ (env.kzalloc_ok = true → 0 ≤ env.component_init_ret → env.add_component_ret ≠ 0 →
        (ac100_codec_probe env).1 = env.add_component_ret
        ∧ probe_call.add_component ∈ (ac100_codec_probe env).2) := by
  obtain ⟨ok, i, a⟩ := env
  dsimp only
  cases ok
  · simp [ac100_codec_probe, ENOMEM]
  · by_cases hi : i < 0
    · have hi2 : ¬ 0 ≤ i := by omega
      simp [ac100_codec_probe, hi, hi2]
      omega
    · have hi2 : 0 ≤ i := by omega
      by_cases ha : a = 0
      · simp [ac100_codec_probe, hi, hi2, ha]
      · simp [ac100_codec_probe, hi, hi2, ha]

/-- Witness for C18: allocation succeeds and initialization returns `-22`. -/
theorem probe_result_witness :
    (ac100_codec_probe ⟨true, -22, 0⟩).1 = -22
    ∧ probe_call.component_init ∈ (ac100_codec_probe ⟨true, -22, 0⟩).2
    ∧ probe_call.add_component ∉ (ac100_codec_probe ⟨true, -22, 0⟩).2 :=
  (probe_result ⟨true, -22, 0⟩).2.2.1 rfl (by decide)

/-! ## C19 -/

/-- C19: the mirror of every route of `ac100_codec_routes` (sink, control label and
source mirrored by `swap_lr`) is again a route of `ac100_codec_routes`; for
instance the mirror of the route from "Right Mixer" into "Left Speaker Source"
under "Mono" is the route from "Left Mixer" into "Right Speaker Source" under
"Mono". -/
theorem routes_mirror_symmetric :
    (∀ r ∈ ac100_codec_routes, swap_route r ∈ ac100_codec_routes)
    ∧ swap_route ⟨"Left Speaker Source", some "Mono", "Right Mixer"⟩
        = ⟨"Right Speaker Source", some "Mono", "Left Mixer"⟩
    ∧ swap_route ⟨"Earpiece Source Playback Route", some "DACR", "Right DAC"⟩
        = ⟨"Earpiece Source Playback Route", some "DACL", "Left DAC"⟩
    ∧ swap_route ⟨"SPKOUTL", none, "Left Speaker Switch"⟩
        = ⟨"SPKOUTR", none, "Right Speaker Switch"⟩ := by
  decide

/-- Witness for C19: the route from "Left DAC" into "Left Mixer". -/
theorem routes_mirror_symmetric_witness :
    (⟨"Right Mixer", some "DAC Playback Switch", "Right DAC"⟩ : snd_soc_dapm_route)
      ∈ ac100_codec_routes :=
  routes_mirror_symmetric.1 ⟨"Left Mixer", some "DAC Playback Switch", "Left DAC"⟩ (by decide)

/-! ## C20 -/

theorem db_le_iff (a b : Option Int) :
    db_le a b ↔ ∃ x y, a = some x ∧ b = some y ∧ x ≤ y := by
  cases a <;> cases b <;> simp [db_le]

/-- C20: the volume controls of `ac100_codec_controls` are the thirteen listed; for
each, with declared maximum `max` and dB scale `t`: if `t` is a range scale
(`ac100_codec_mic_gain_scale`, `ac100_codec_earpiece_vol_scale`) its index ranges
are non-empty, contiguous, non-overlapping and cover exactly `[0, max]`; every
control value in `[0, max]` is assigned a gain, which is the mute value
`TLV_DB_GAIN_MUTE` or lies above it; and the gain assigned to `v + 1` is at least
the gain assigned to `v` for every `v < max`. -/
theorem volume_scales_fit :
    volume_controls.map (fun c => c.1)
      = ["Mic1 Boost Volume", "Mic2 Boost Volume", "Line In Pre-Gain Volume",
         "Aux In Pre-Gain Volume", "ADC Gain Capture Volume", "Mic1 Playback Volume",
         "Mic2 Playback Volume", "Line In Playback Volume", "Aux In Playback Volume",
         "Headphone Playback Volume", "Earpiece Playback Volume", "Speaker Playback Volume",
         "Line Out Playback Volume"]
    ∧ ∀ c ∈ volume_controls,
        tlv_fits c.2.1 c.2.2
        ∧ (∀ v, v ≤ c.2.1 → ∃ g, tlv_db c.2.2 v = some g ∧ TLV_DB_GAIN_MUTE ≤ g)
        ∧ (∀ v, v < c.2.1 → ∃ g g2, tlv_db c.2.2 v = some g ∧ tlv_db c.2.2 (v + 1) = some g2
            ∧ g ≤ g2) := by
  have hfit : ∀ c ∈ volume_controls, tlv_fits c.2.1 c.2.2 := by decide
  refine ⟨by decide, ?_⟩
  intro c hc
  have h := hfit c hc
  refine ⟨h, ?_, ?_⟩
  · intro v hv
    obtain ⟨x, y, hx, hy, hxy⟩ := (db_le_iff _ _).mp (h.2.1 v (by omega))
    cases hx
    exact ⟨y, hy, hxy⟩
  · intro v hv
    exact (db_le_iff _ _).mp (h.2.2 v hv)

/-- Witness for C20: the Earpiece Playback Volume control, values 1 (still mute)
and 2 (-43.5 dB). -/
theorem volume_scales_fit_witness :
    ∃ g g2, tlv_db ac100_codec_earpiece_vol_scale 1 = some g
      ∧ tlv_db ac100_codec_earpiece_vol_scale (1 + 1) = some g2 ∧ g ≤ g2 :=
  (volume_scales_fit.2 ("Earpiece Playback Volume", 0x1f, ac100_codec_earpiece_vol_scale)
    (by decide)).2.2 1 (by decide)

/-! ## C21 -/

/-- A value-encoding macro with a mask of `k` ones whose top bit stays below bit
16 is consistent. -/
theorem value_macro_consistent_of (f : field_macro) (k : Nat)
    (hF : ∀ v, f.F v = (v &&& f.m) <<< f.off) (hm : f.m = 2 ^ k - 1)
    (h16 : f.m <<< f.off < 2 ^ 16) : value_macro_consistent f := by
  have hk : 0 < 2 ^ k := Nat.two_pow_pos k
  refine ⟨hF, ?_, ?_, ?_⟩
  · intro v
    rw [hF]
    refine lt_of_le_of_lt ?_ h16
    rw [Nat.shiftLeft_eq, Nat.shiftLeft_eq]
    exact Nat.mul_le_mul_right _ Nat.and_le_right
  · intro v
    rw [hF]
    apply Nat.eq_of_testBit_eq
    intro i
    rw [Nat.testBit_land, Nat.testBit_shiftLeft, Nat.testBit_shiftLeft, Nat.testBit_land]
    cases decide (i ≥ f.off) <;> cases Nat.testBit v (i - f.off) <;>
      cases Nat.testBit f.m (i - f.off) <;> rfl
  · intro v
    rw [hF, Nat.shiftLeft_shiftRight, hm, Nat.and_pow_two_sub_one_eq_mod]
    congr 1
    omega

/-- C21: each of the 67 fields with an `_OFF` and a `_MASK` macro has the lowest set
bit of its mask at its offset and every named value constant (including
`_ENABLED` and `_DISABLED`) inside its mask; each of the 17 value-encoding macros
is `F(v) = ((v) & m) << off` with `off` its `_OFF` macro, and for every `v` the
value `F(v)` fits in 16 bits, has all its set bits inside `m << off`, and
satisfies `F(v) >> off = v mod (m + 1)`. -/
theorem register_macros_consistent :
    ac100_mask_fields.length = 67
    ∧ ac100_value_macros.length = 17
    ∧ (∀ p ∈ ac100_mask_fields, mask_field_consistent p.2)
    ∧ (∀ f ∈ ac100_value_macros, value_macro_consistent f) := by
  refine ⟨by decide, by decide, by decide, ?_⟩
  simp only [ac100_value_macros, List.forall_mem_cons, List.not_mem_nil, false_implies,
    implies_true, and_true]
  refine ⟨?_, ?_, ?_, ?_, ?_, ?_, ?_, ?_, ?_, ?_, ?_, ?_, ?_, ?_, ?_, ?_, ?_⟩ <;>
    first
      | exact value_macro_consistent_of _ 3 (fun _ => rfl) (by decide) (by decide)
      | exact value_macro_consistent_of _ 4 (fun _ => rfl) (by decide) (by decide)
      | exact value_macro_consistent_of _ 6 (fun _ => rfl) (by decide) (by decide)
      | exact value_macro_consistent_of _ 2 (fun _ => rfl) (by decide) (by decide)
      | exact value_macro_consistent_of _ 5 (fun _ => rfl) (by decide) (by decide)

/-- Witness for C21: the earpiece input-source field (mask `GENMASK(8, 7)`, offset
7, four value constants) and the headphone volume macro at `v = 0x7f`. -/
theorem register_macros_consistent_witness :
    mask_field_consistent AC100_ERPOUT_CTRL_INPUT_SOURCE
    ∧ AC100_HPOUT_CTRL_VOLUME 0x7f >>> AC100_HPOUT_CTRL_VOLUME_OFF = 0x7f % (0x3f + 1) :=
  ⟨register_macros_consistent.2.2.1
      ("AC100_ERPOUT_CTRL_INPUT_SOURCE", AC100_ERPOUT_CTRL_INPUT_SOURCE) (by decide),
    (register_macros_consistent.2.2.2
      ⟨AC100_HPOUT_CTRL_VOLUME, AC100_HPOUT_CTRL_VOLUME_OFF, 0x3f⟩
      (by simp [ac100_value_macros])).2.2.2 0x7f⟩

end AC100
